import Mathlib

/-!
# Standup Raven: notifications, reports and persisted notification status

A shallow embedding of `server/standup/notification/notification.go` and of
`GetUserRoles` of `server/utils/platform.go`.

* Instants and durations are exact rationals, counted in seconds
  (`time.Time`, `time.Duration`).
* Everything the file consults but does not define (the `standup`, `otime`,
  `util` and `config` packages, `encoding/json`, the host's key-value API) is a
  field of `World`.
* Host reads are recorded by the read-only functions of the filter: a
  function that may call `KVGet` returns, next to its Go results, the keys it
  asked the host for, in call order.
* A function that changes the host (store, posts) returns the world
  afterwards; logging is left out.
-/

namespace StandupRaven

deriving instance DecidableEq for Except

/-- An instant (`time.Time`) or a duration (`time.Duration`), in seconds. -/
abbrev Time := ℚ

/-- The type `otime.OTime`: a `time.Time` value, that is an instant together
with the location it is expressed in. -/
structure OTime where
  Time : Time
  Location : String
deriving DecidableEq, Repr

/-- A recurrence rule of the rrule library, represented by the list of its
occurrences. -/
structure RRule where
  occurrences : List Time
deriving DecidableEq, Repr

/-- The library method `RRule.Between(after, before, inc)`: the occurrences
between the two instants; with `inc` the two bounds count when they are
occurrences themselves. -/
def RRule.Between (r : RRule) (after before : Time) (inc : Bool) : List Time :=
  r.occurrences.filter fun t =>
    if inc then decide (after ≤ t ∧ t ≤ before) else decide (after < t ∧ t < before)

/-- The fields of `standup.Config` that notification.go reads. -/
structure Config where
  ChannelID : String
  WindowOpenTime : OTime
  WindowCloseTime : OTime
  Enabled : Bool
  Members : List String
  ReportFormat : String
  Sections : List String
  Timezone : String
  WindowOpenReminderEnabled : Bool
  WindowCloseReminderEnabled : Bool
  RRule : RRule
deriving DecidableEq, Repr

/-- The persisted record of what has been sent to a channel on a day. -/
structure ChannelNotificationStatus where
  WindowOpenNotificationSent : Bool
  WindowCloseNotificationSent : Bool
  StandupReportSent : Bool
deriving DecidableEq, Repr

def ChannelNotificationStatusSent : String := "sent"

def ChannelNotificationStatusNotYet : String := "not_yet"

def ChannelNotificationStatusSend : String := "send"

/-- The fields of the host's `model.Post` that the plugin sets or reads;
`PostType` is the field `Type`. -/
structure Post where
  Id : String
  ChannelId : String
  UserId : String
  PostType : String
  Message : String
deriving DecidableEq, Repr

/-- The fields of the host's `model.User` that the plugin reads; `DisplayName`
is what `GetDisplayName(model.SHOW_FULLNAME)` returns for the user. -/
structure User where
  Username : String
  Roles : String
  DisplayName : String
deriving DecidableEq, Repr

/-- The type `standup.UserStandup`. The map `Standup`, from section title to a
pointer to the tasks, is the list of its entries; a title without entry has
the nil pointer. -/
structure UserStandup where
  UserID : String
  ChannelID : String
  Standup : List (String × List String)
deriving DecidableEq, Repr

/-- The field `Roles` of the host's `model.ChannelMember`. -/
structure ChannelMember where
  Roles : String
deriving DecidableEq, Repr

/-- The field `TeamId` of the host's `model.Channel`. -/
structure Channel where
  TeamId : String
deriving DecidableEq, Repr

/-- The field `Roles` of the host's `model.TeamMember`. -/
structure TeamMember where
  Roles : String
deriving DecidableEq, Repr

/-- Everything outside notification.go that the embedded functions consult:
the sibling packages, the libraries and the host's key-value store.

* `GetStandupConfig`: `standup.GetStandupConfig` (error, nil or a config);
* `Now`, `GetTime`, `GetTimeWithSeconds`: `otime.Now` and the two `OTime`
  methods;
* `Date`: `time.Date(t.Year(), t.Month(), t.Day(), 0, 0, 0, 0, t.Location())`;
* `GetCurrentDateString`, `GetKeyHash`: the two `util` functions;
* `CacheKeyPrefixNotificationStatus`,
  `WindowCloseNotificationDurationPercentage`: the two `config` constants;
* `jsonMarshal`, `jsonUnmarshal`: `json.Marshal` of a status and
  `json.Unmarshal` into a zero status;
* `kv`: what the host's `KVGet` answers for each key (an error, or the stored
  bytes, empty when nothing is stored);
* `kvSetError`: the error, if any, with which the host's `KVSet` refuses a
  key and value;
* `kvDeleteError`: the error, if any, with which the host's `KVDelete` refuses
  a key;
* `GetStandupChannels`, `GetUserStandup`: the two other functions of the
  `standup` package (the map of channels by its keys in visiting order);
* `GetUser`, `GetChannelMember`, `GetChannel`, `GetTeamMember`: the host's
  lookups;
* `createPostError`, `newPostID`, `posts`: the error, if any, with which the
  host's `CreatePost` refuses a post, the ID the host gives to its n-th
  post, and the posts created so far;
* `ephemeralPosts`: the ephemeral posts sent so far, each with the user it is
  addressed to;
* `deletePostError`, `deletedPosts`: the error, if any, with which the host's
  `DeletePost` refuses a post ID, and the IDs deleted so far;
* `jsonMarshalStrings`, `jsonUnmarshalStrings`: `json.Marshal` of a list of
  strings and `json.Unmarshal` into a nil list;
* `BotUserID`: `config.GetConfig().BotUserID`;
* `ReportFormatTypeAggregated`, `ReportFormatUserAggregated`, `UserIconURL`,
  `UserIconSize`: four more `config` constants;
* `HasHave`: `util.HasHave`;
* `Format`: the method `Format` of a time value, with its layout;
* `ToLower`: `strings.ToLower`;
* `Sprintf`: `fmt.Sprintf` for a format that is not a literal of the
  source. -/
structure World where
  GetStandupConfig : String → Except String (Option Config)
  Now : String → OTime
  GetTime : OTime → String → OTime
  GetTimeWithSeconds : OTime → String → OTime
  Date : OTime → Time
  GetCurrentDateString : String → String
  GetKeyHash : String → String
  CacheKeyPrefixNotificationStatus : String
  WindowCloseNotificationDurationPercentage : ℚ
  jsonMarshal : ChannelNotificationStatus → Except String String
  jsonUnmarshal : String → Except String ChannelNotificationStatus
  kv : String → Except String String
  kvSetError : String → String → Option String
  kvDeleteError : String → Option String
  GetStandupChannels : Except String (List String)
  GetUserStandup : String → String → OTime → Except String (Option UserStandup)
  GetUser : String → Except String User
  GetChannelMember : String → String → Except String ChannelMember
  GetChannel : String → Except String Channel
  GetTeamMember : String → String → Except String TeamMember
  createPostError : Post → Option String
  newPostID : Nat → String
  posts : List Post
  ephemeralPosts : List (String × Post)
  deletePostError : String → Option String
  deletedPosts : List String
  jsonMarshalStrings : List String → Except String String
  jsonUnmarshalStrings : String → Except String (List String)
  BotUserID : String
  ReportFormatTypeAggregated : String
  ReportFormatUserAggregated : String
  UserIconURL : String
  UserIconSize : String
  HasHave : Nat → String
  Format : OTime → String → String
  ToLower : String → String
  Sprintf : String → List String → String

/-- Host call `KVGet`. -/
def World.KVGet (w : World) (key : String) : Except String String :=
  w.kv key

/-- Host call `KVSet`: refused with the host's error, or the store afterwards
answers reads of `key` with `value`. -/
def World.KVSet (w : World) (key value : String) : Option String × World :=
  match w.kvSetError key value with
  | some e => (some e, w)
  | none => (none, { w with kv := fun k => if k = key then .ok value else w.kv k })

/-- The store key of a channel's status for the current day of the
configuration's timezone, before hashing. -/
def notificationStatusKey (w : World) (channelID : String) (standupConfig : Config) : String :=
  w.CacheKeyPrefixNotificationStatus ++ "_" ++ channelID ++ "_" ++
    w.GetCurrentDateString standupConfig.Timezone

/-- `GetNotificationStatus`: the status (or an error, with a nil status) and
the keys read from the host. -/
def GetNotificationStatus (w : World) (channelID : String) :
    Except String ChannelNotificationStatus × List String :=
  match w.GetStandupConfig channelID with
  | .error err => (.error err, [])
  | .ok none => (.error ("standup not configured for channel: " ++ channelID), [])
  | .ok (some standupConfig) =>
    let key := notificationStatusKey w channelID standupConfig
    match w.KVGet (w.GetKeyHash key) with
    | .error appErr => (.error appErr, [w.GetKeyHash key])
    | .ok data =>
      if data.length = 0 then
        (.ok ⟨false, false, false⟩, [w.GetKeyHash key])
      else
        match w.jsonUnmarshal data with
        | .error err => (.error err, [w.GetKeyHash key])
        | .ok status => (.ok status, [w.GetKeyHash key])

/-- `SetNotificationStatus`: the error (none on success) and the world
afterwards. -/
def SetNotificationStatus (w : World) (channelID : String)
    (status : ChannelNotificationStatus) : Option String × World :=
  match w.GetStandupConfig channelID with
  | .error err => (some err, w)
  | .ok none => (some ("standup not configured for channel: " ++ channelID), w)
  | .ok (some standupConfig) =>
    let key := notificationStatusKey w channelID standupConfig
    match w.jsonMarshal status with
    | .error err => (some err, w)
    | .ok serializedStatus =>
      match w.KVSet (w.GetKeyHash key) serializedStatus with
      | (some appErr, w1) => (some appErr, w1)
      | (none, w1) => (none, w1)

/-- `isStandupDay`. -/
def isStandupDay (w : World) (standupConfig : Config) : Bool :=
  let todayOtime := w.Now standupConfig.Timezone
  let today := w.Date todayOtime
  let oneMinBeforeToday := today + (-1) * 60
  let oneMinAfterToday := today + 24 * 3600
  let rruleDays := standupConfig.RRule.Between oneMinBeforeToday oneMinAfterToday false
  decide (rruleDays.length > 0)

/-- `shouldSendWindowOpenNotification`. -/
def shouldSendWindowOpenNotification (w : World)
    (notificationStatus : ChannelNotificationStatus) (standupConfig : Config) : String :=
  if notificationStatus.WindowOpenNotificationSent then
    ChannelNotificationStatusSent
  else
    let now := w.GetTimeWithSeconds (w.Now standupConfig.Timezone) standupConfig.Timezone
    let next := (w.GetTimeWithSeconds standupConfig.WindowOpenTime standupConfig.Timezone).Time
    if now.Time > next then
      ChannelNotificationStatusSend
    else
      ChannelNotificationStatusNotYet

/-- `shouldSendWindowCloseNotification`. The float product of the window
duration in seconds with the percentage, printed with `%fs` and parsed back
as a duration, is taken exactly. -/
def shouldSendWindowCloseNotification (w : World)
    (notificationStatus : ChannelNotificationStatus) (standupConfig : Config) : String :=
  if notificationStatus.WindowCloseNotificationSent then
    ChannelNotificationStatusSent
  else
    let windowDuration :=
      (w.GetTime standupConfig.WindowCloseTime standupConfig.Timezone).Time -
        (w.GetTime standupConfig.WindowOpenTime standupConfig.Timezone).Time
    let targetDurationSeconds := windowDuration * w.WindowCloseNotificationDurationPercentage
    let targetDuration := targetDurationSeconds
    if (w.GetTimeWithSeconds (w.Now standupConfig.Timezone) standupConfig.Timezone).Time >
        (w.GetTimeWithSeconds standupConfig.WindowOpenTime standupConfig.Timezone).Time +
          targetDuration then
      ChannelNotificationStatusSend
    else
      ChannelNotificationStatusNotYet

/-- `shouldSendStandupReport`. -/
def shouldSendStandupReport (w : World)
    (notificationStatus : ChannelNotificationStatus) (standupConfig : Config) : String :=
  if notificationStatus.StandupReportSent then
    ChannelNotificationStatusSent
  else if (w.GetTimeWithSeconds (w.Now standupConfig.Timezone) standupConfig.Timezone).Time >
      (w.GetTimeWithSeconds standupConfig.WindowCloseTime standupConfig.Timezone).Time then
    ChannelNotificationStatusSend
  else
    ChannelNotificationStatusNotYet

/-- The list a channel is appended to by one iteration of the loop of
`filterChannelNotification`. -/
inductive Pending where
  | windowOpen
  | windowClose
  | standupReport
deriving DecidableEq, Repr

/-- The body of the `for` loop of `filterChannelNotification` for one channel:
an error (the function returns), or the list the channel is appended to, if
any; and the keys read from the host. -/
def filterChannel (w : World) (channelID : String) :
    Except String (Option Pending) × List String :=
  match w.GetStandupConfig channelID with
  | .error err => (.error err, [])
  | .ok none => (.ok none, [])
  | .ok (some standupConfig) =>
    if !standupConfig.Enabled then
      (.ok none, [])
    else if !isStandupDay w standupConfig then
      (.ok none, [])
    else
      match GetNotificationStatus w channelID with
      | (.error err, reads) => (.error err, reads)
      | (.ok notificationStatus, reads) =>
        let status := shouldSendStandupReport w notificationStatus standupConfig
        if status = ChannelNotificationStatusSend then
          (.ok (some .standupReport), reads)
        else if status = ChannelNotificationStatusSent then
          (.ok none, reads)
        else if shouldSendWindowCloseNotification w notificationStatus standupConfig =
            ChannelNotificationStatusSend then
          if standupConfig.WindowCloseReminderEnabled then
            (.ok (some .windowClose), reads)
          else
            (.ok none, reads)
        else if status = ChannelNotificationStatusSent then
          (.ok none, reads)
        else if shouldSendWindowOpenNotification w notificationStatus standupConfig =
            ChannelNotificationStatusSend then
          if standupConfig.WindowOpenReminderEnabled then
            (.ok (some .windowOpen), reads)
          else
            (.ok none, reads)
        else
          (.ok none, reads)

/-- The four results of `filterChannelNotification`; a nil slice is the empty
list. -/
structure FilterResult where
  windowOpenNotificationChannels : List String
  windowCloseNotificationChannels : List String
  standupReportChannels : List String
  err : Option String
deriving DecidableEq, Repr

/-- The loop of `filterChannelNotification` over the channels still to visit,
from the three lists built and the reads made so far. -/
def filterChannelNotificationLoop (w : World) :
    List String → FilterResult → List String → FilterResult × List String
  | [], acc, reads => (acc, reads)
  | channelID :: rest, acc, reads =>
    match filterChannel w channelID with
    | (.error err, r) => (⟨[], [], [], some err⟩, reads ++ r)
    | (.ok none, r) => filterChannelNotificationLoop w rest acc (reads ++ r)
    | (.ok (some .standupReport), r) =>
      filterChannelNotificationLoop w rest
        { acc with standupReportChannels := acc.standupReportChannels ++ [channelID] }
        (reads ++ r)
    | (.ok (some .windowClose), r) =>
      filterChannelNotificationLoop w rest
        { acc with
          windowCloseNotificationChannels := acc.windowCloseNotificationChannels ++ [channelID] }
        (reads ++ r)
    | (.ok (some .windowOpen), r) =>
      filterChannelNotificationLoop w rest
        { acc with
          windowOpenNotificationChannels := acc.windowOpenNotificationChannels ++ [channelID] }
        (reads ++ r)

/-- `filterChannelNotification`. The map of channels is given by its keys in
the order the `range` loop visits them; the second component is the list of
keys read from the host. -/
def filterChannelNotification (w : World) (channelIDs : List String) :
    FilterResult × List String :=
  filterChannelNotificationLoop w channelIDs ⟨[], [], [], none⟩ []

/-! ## Host calls that change the host -/

/-- Host call `KVDelete`: refused with the host's error, or the store holds
nothing under `key` afterwards. -/
def World.KVDelete (w : World) (key : String) : Option String × World :=
  match w.kvDeleteError key with
  | some e => (some e, w)
  | none => (none, { w with kv := fun k => if k = key then .ok "" else w.kv k })

/-- Host call `CreatePost`: refused with the host's error, or the post is
created with the ID the host gives it, and returned. -/
def World.CreatePost (w : World) (post : Post) : Except String Post × World :=
  match w.createPostError post with
  | some e => (.error e, w)
  | none =>
    (.ok { post with Id := w.newPostID w.posts.length },
      { w with posts := w.posts ++ [{ post with Id := w.newPostID w.posts.length }] })

/-- Host call `SendEphemeralPost`. -/
def World.SendEphemeralPost (w : World) (userID : String) (post : Post) : World :=
  { w with ephemeralPosts := w.ephemeralPosts ++ [(userID, post)] }

/-- Host call `DeletePost`: refused with the host's error, or the post ID is
deleted. -/
def World.DeletePost (w : World) (postID : String) : Option String × World :=
  match w.deletePostError postID with
  | some e => (some e, w)
  | none => (none, { w with deletedPosts := w.deletedPosts ++ [postID] })

/-! ## Reminder posts -/

/-- The store key of a channel's list of reminder posts, before hashing. -/
def reminderPostsKey (channelID : String) : String :=
  "reminderPosts" ++ "_" ++ channelID

/-- `getReminderPosts`. -/
def getReminderPosts (w : World) (channelID : String) : Except String (List String) :=
  let key := reminderPostsKey channelID
  match w.KVGet (w.GetKeyHash key) with
  | .error appErr => .error appErr
  | .ok reminderPostsJSON =>
    if reminderPostsJSON.length = 0 then
      .ok []
    else
      match w.jsonUnmarshalStrings reminderPostsJSON with
      | .error err => .error err
      | .ok reminderPosts => .ok reminderPosts

/-- `saveReminderPosts`. -/
def saveReminderPosts (w : World) (reminderPosts : List String) (channelID : String) :
    Option String × World :=
  match w.jsonMarshalStrings reminderPosts with
  | .error err => (some err, w)
  | .ok serializedReminderPosts =>
    let key := reminderPostsKey channelID
    match w.KVSet (w.GetKeyHash key) serializedReminderPosts with
    | (some appErr, w1) => (some appErr, w1)
    | (none, w1) => (none, w1)

/-- `addReminderPost`. -/
def addReminderPost (w : World) (postID : String) (channelID : String) :
    Option String × World :=
  match getReminderPosts w channelID with
  | .error err => (some err, w)
  | .ok reminderPosts =>
    match saveReminderPosts w (reminderPosts ++ [postID]) channelID with
    | (some err, w1) => (some err, w1)
    | (none, w1) => (none, w1)

/-- The loop of `deleteReminderPosts` over the post IDs: a refused deletion
is logged and the loop goes on. -/
def deleteReminderPostsLoop (w : World) : List String → World
  | [] => w
  | postID :: rest =>
    match w.DeletePost postID with
    | (some _, w1) => deleteReminderPostsLoop w1 rest
    | (none, w1) => deleteReminderPostsLoop w1 rest

/-- `deleteReminderPosts`. -/
def deleteReminderPosts (w : World) (channelID : String) : Option String × World :=
  match getReminderPosts w channelID with
  | .error err => (some err, w)
  | .ok reminderPosts =>
    let w1 := deleteReminderPostsLoop w reminderPosts
    let key := reminderPostsKey channelID
    match w1.KVDelete (w1.GetKeyHash key) with
    | (some appErr, w2) => (some appErr, w2)
    | (none, w2) => (none, w2)

/-! ## Users -/

/-- `getUserDisplayName`. -/
def getUserDisplayName (w : World) (userID : String) : Except String String :=
  match w.GetUser userID with
  | .error appErr => .error appErr
  | .ok user => .ok user.DisplayName

/-- `UserIcon` of platform.go. -/
def UserIcon (w : World) (userID : String) : String :=
  w.Sprintf ("![User Avatar](" ++ w.UserIconURL ++ " " ++ w.UserIconSize ++ ")") [userID]

/-- `getUserChannelRoles`. -/
def getUserChannelRoles (w : World) (userID channelID : String) : Except String String :=
  match w.GetChannelMember channelID userID with
  | .error appErr => .error appErr
  | .ok channelMember => .ok channelMember.Roles

/-- `getUserTeamRoles`. -/
def getUserTeamRoles (w : World) (userID teamID : String) : Except String String :=
  match w.GetTeamMember teamID userID with
  | .error appErr => .error appErr
  | .ok teamMember => .ok teamMember.Roles

/-- `getUserSystemRoles`. -/
def getUserSystemRoles (w : World) (userID : String) : Except String String :=
  match w.GetUser userID with
  | .error appErr => .error appErr
  | .ok user => .ok user.Roles

/-- The library call `strings.Split(s, " ")`: the pieces of `s` between its
spaces, one more than it has spaces. -/
def splitOnSpace (s : String) : List String :=
  (s.toList.splitOn ' ').map String.mk

/-- `GetUserRoles`: the roles (nil with an error) . -/
def GetUserRoles (w : World) (userID channelID : String) : Except String (List String) :=
  match getUserChannelRoles w userID channelID with
  | .error appErr => .error appErr
  | .ok channelRoles =>
    let rolesString := "" ++ channelRoles
    match w.GetChannel channelID with
    | .error appErr => .error appErr
    | .ok channel =>
      match getUserTeamRoles w userID channel.TeamId with
      | .error appErr => .error appErr
      | .ok teamRoles =>
        let rolesString := rolesString ++ (" " ++ teamRoles)
        match getUserSystemRoles w userID with
        | .error appErr => .error appErr
        | .ok systemRoles =>
          let rolesString := rolesString ++ (" " ++ systemRoles)
          .ok (splitOnSpace rolesString)

/-! ## Sorting the standups -/

/-- The first loop of `sortUserStandups`: the map from display name to
standup, as the list of its assignments, latest first, and the display
names in order. -/
def sortUserStandupsCollect (w : World) :
    List UserStandup → List (String × UserStandup) → List String →
      Except String (List (String × UserStandup) × List String)
  | [], userStandupMapping, keys => .ok (userStandupMapping, keys)
  | userStandup :: rest, userStandupMapping, keys =>
    match getUserDisplayName w userStandup.UserID with
    | .error err => .error err
    | .ok userDisplayName =>
      sortUserStandupsCollect w rest ((userDisplayName, userStandup) :: userStandupMapping)
        (keys ++ [userDisplayName])

/-- `sortUserStandups`. The stable sort `sort.SliceStable` is the insertion
sort; the last loop finds every key in the map, since each was assigned. -/
def sortUserStandups (w : World) (userStandups : List UserStandup) :
    Except String (List UserStandup) :=
  match sortUserStandupsCollect w userStandups [] [] with
  | .error err => .error err
  | .ok (userStandupMapping, keys) =>
    let keys := keys.insertionSort fun a b => ¬ (w.ToLower b < w.ToLower a)
    .ok (keys.filterMap fun userDisplayName => userStandupMapping.lookup userDisplayName)

/-! ## Reports -/

def ReportVisibilityPublic : String := "public"

def ReportVisibilityPrivate : String := "private"

/-- The host's constant `model.POST_DEFAULT`. -/
def POST_DEFAULT : String := ""

/-- The inner loop of the first loop of `generateTypeAggregatedStandupReport`,
over the section titles, for one user standup; the two maps give the zero
value on a title never assigned. -/
def typeAggregatedSections (w : World) (userStandup : UserStandup) :
    List String → (String → String) → (String → List String) →
      Except String ((String → String) × (String → List String))
  | [], userTasks, userNoTasks => .ok (userTasks, userNoTasks)
  | sectionTitle :: rest, userTasks, userNoTasks =>
    match getUserDisplayName w userStandup.UserID with
    | .error err => .error err
    | .ok userDisplayName =>
      let header := "##### " ++ UserIcon w userStandup.UserID ++ " " ++ userDisplayName
      match userStandup.Standup.lookup sectionTitle with
      | some tasks =>
        if tasks.length > 0 then
          typeAggregatedSections w userStandup rest
            (fun t => if t = sectionTitle then
              userTasks sectionTitle ++
                (header ++ "\n1. " ++ "\n1. ".intercalate tasks ++ "\n")
              else userTasks t)
            userNoTasks
        else
          typeAggregatedSections w userStandup rest userTasks
            (fun t => if t = sectionTitle then userNoTasks sectionTitle ++ [userDisplayName]
              else userNoTasks t)
      | none =>
        typeAggregatedSections w userStandup rest userTasks
          (fun t => if t = sectionTitle then userNoTasks sectionTitle ++ [userDisplayName]
            else userNoTasks t)

/-- The first loop of `generateTypeAggregatedStandupReport`, over the user
standups. -/
def typeAggregatedUsers (w : World) (standupConfig : Config) :
    List UserStandup → (String → String) → (String → List String) →
      Except String ((String → String) × (String → List String))
  | [], userTasks, userNoTasks => .ok (userTasks, userNoTasks)
  | userStandup :: rest, userTasks, userNoTasks =>
    match typeAggregatedSections w userStandup standupConfig.Sections userTasks userNoTasks with
    | .error err => .error err
    | .ok (userTasks1, userNoTasks1) =>
      typeAggregatedUsers w standupConfig rest userTasks1 userNoTasks1

/-- `generateTypeAggregatedStandupReport`. -/
def generateTypeAggregatedStandupReport (w : World) (standupConfig : Config)
    (userStandups : List UserStandup) (membersNoStandup : List String) (channelID : String)
    (date : OTime) : Except String Post :=
  match typeAggregatedUsers w standupConfig userStandups (fun _ => "") (fun _ => []) with
  | .error err => .error err
  | .ok (userTasks, userNoTasks) =>
    let text := "#### Standup Report for *" ++ w.Format date "2 Jan 2006" ++ "*\n\n"
    let text :=
      if userStandups.length > 0 then
        let text :=
          if membersNoStandup.length > 0 then
            text ++ (", ".intercalate membersNoStandup ++ " " ++
              w.HasHave membersNoStandup.length ++ " not submitted their standup.\n")
          else text
        standupConfig.Sections.foldl (fun text sectionTitle =>
          let text := text ++ ("##### ** " ++ sectionTitle ++ "**\n\n" ++
            userTasks sectionTitle ++ "\n")
          if (userNoTasks sectionTitle).length > 0 then
            text ++ (", ".intercalate (userNoTasks sectionTitle) ++ " " ++
              w.HasHave (userNoTasks sectionTitle).length ++ " no open items for " ++
              sectionTitle ++ "\n")
          else text) text
      else
        text ++ ":warning: **No user has submitted their standup.**"
    .ok { Id := "", ChannelId := channelID, UserId := w.BotUserID, PostType := "",
          Message := text }

/-- The inner loop of `generateUserAggregatedStandupReport`, over the section
titles. -/
def userAggregatedSections (userStandup : UserStandup) : List String → String → String
  | [], userTask => userTask
  | sectionTitle :: rest, userTask =>
    match userStandup.Standup.lookup sectionTitle with
    | none => userAggregatedSections userStandup rest userTask
    | some tasks =>
      if tasks.length = 0 then
        userAggregatedSections userStandup rest userTask
      else
        let userTask := userTask ++ ("##### " ++ sectionTitle ++ "\n")
        let userTask := userTask ++ ("1. " ++ "\n1. ".intercalate tasks ++ "\n\n")
        userAggregatedSections userStandup rest userTask

/-- The loop of `generateUserAggregatedStandupReport` over the user
standups. -/
def userAggregatedUsers (w : World) (standupConfig : Config) :
    List UserStandup → String → Except String String
  | [], userTasks => .ok userTasks
  | userStandup :: rest, userTasks =>
    match getUserDisplayName w userStandup.UserID with
    | .error err => .error err
    | .ok userDisplayName =>
      let header := "#### " ++ UserIcon w userStandup.UserID ++ " " ++ userDisplayName
      let userTask := header ++ "\n\n"
      let userTask := userAggregatedSections userStandup standupConfig.Sections userTask
      userAggregatedUsers w standupConfig rest (userTasks ++ userTask)

/-- `generateUserAggregatedStandupReport`. -/
def generateUserAggregatedStandupReport (w : World) (standupConfig : Config)
    (userStandups : List UserStandup) (membersNoStandup : List String) (channelID : String)
    (date : OTime) : Except String Post :=
  match userAggregatedUsers w standupConfig userStandups "" with
  | .error err => .error err
  | .ok userTasks =>
    let text := "#### Standup Report for *" ++ w.Format date "2 Jan 2006" ++ "*\n"
    let text :=
      if userStandups.length > 0 then
        let text :=
          if membersNoStandup.length > 0 then
            text ++ ("\n@" ++ ", @".intercalate membersNoStandup ++ " " ++
              w.HasHave membersNoStandup.length ++ " not submitted their standup\n\n")
          else text
        text ++ userTasks
      else
        text ++ ":warning: **No user has submitted their standup.**"
    .ok { Id := "", ChannelId := channelID, UserId := w.BotUserID, PostType := "",
          Message := text }

/-- `generateReport`. -/
def generateReport (w : World) (standupConfig : Config) (members : List UserStandup)
    (membersNoStandup : List String) (channelID : String) (date : OTime) :
    Except String Post :=
  if standupConfig.ReportFormat = w.ReportFormatTypeAggregated then
    generateTypeAggregatedStandupReport w standupConfig members membersNoStandup channelID date
  else if standupConfig.ReportFormat = w.ReportFormatUserAggregated then
    generateUserAggregatedStandupReport w standupConfig members membersNoStandup channelID date
  else
    .error ("Unknown report format encountered for channel: " ++ channelID ++
      ", report format: " ++ standupConfig.ReportFormat)

/-- How an iteration of a loop ends: the loop goes on with the next element,
or the function returns, with an error or without. -/
inductive Step where
  | next
  | ret (err : Option String)
deriving DecidableEq, Repr

/-- The loop of `SendStandupReport` over the members of the standup: the
standups submitted, and the usernames of the members without standup. -/
def collectUserStandups (w : World) (channelID : String) (date : OTime) :
    List String → List UserStandup → List String →
      Except String (List UserStandup × List String)
  | [], members, membersNoStandup => .ok (members, membersNoStandup)
  | userID :: rest, members, membersNoStandup =>
    match w.GetUserStandup userID channelID date with
    | .error err => .error err
    | .ok none =>
      match w.GetUser userID with
      | .error appErr => .error appErr
      | .ok user =>
        collectUserStandups w channelID date rest members (membersNoStandup ++ [user.Username])
    | .ok (some userStandup) =>
      collectUserStandups w channelID date rest (members ++ [userStandup]) membersNoStandup

/-- The end of an iteration of `SendStandupReport` (`if updateStatus`), after
the reminder posts are deleted: the status is read, marked and written; a
failed read ends the iteration, a refused write makes the function return. -/
def updateReportStatus (w : World) (channelID : String) (updateStatus : Bool) :
    Step × World :=
  if updateStatus then
    match (GetNotificationStatus w channelID).1 with
    | .error _ => (.next, w)
    | .ok notificationStatus =>
      match SetNotificationStatus w channelID
          { notificationStatus with StandupReportSent := true } with
      | (some err, w1) => (.ret (some err), w1)
      | (none, w1) => (.next, w1)
  else
    (.next, w)

/-- The body of the loop of `SendStandupReport` for one channel. -/
def sendStandupReportChannel (w : World) (channelID : String) (date : OTime)
    (visibility userID : String) (updateStatus : Bool) : Step × World :=
  match w.GetStandupConfig channelID with
  | .error err => (.ret (some err), w)
  | .ok none => (.ret (some ("standup not configured for channel: " ++ channelID)), w)
  | .ok (some standupConfig) =>
    match collectUserStandups w channelID date standupConfig.Members [] [] with
    | .error err => (.ret (some err), w)
    | .ok (members, membersNoStandup) =>
      match sortUserStandups w members with
      | .error err => (.ret (some err), w)
      | .ok members =>
        match generateReport w standupConfig members membersNoStandup channelID date with
        | .error err => (.ret (some err), w)
        | .ok post =>
          if visibility = ReportVisibilityPrivate then
            let w1 := w.SendEphemeralPost userID post
            let w2 := (deleteReminderPosts w1 channelID).2
            updateReportStatus w2 channelID updateStatus
          else
            match w.CreatePost post with
            | (.error appErr, w1) => (.ret (some appErr), w1)
            | (.ok _, w1) =>
              let w2 := (deleteReminderPosts w1 channelID).2
              updateReportStatus w2 channelID updateStatus

/-- `SendStandupReport`: the error (none on success) and the world
afterwards. -/
def SendStandupReport (w : World) (channelIDs : List String) (date : OTime)
    (visibility userID : String) (updateStatus : Bool) : Option String × World :=
  match channelIDs with
  | [] => (none, w)
  | channelID :: rest =>
    match sendStandupReportChannel w channelID date visibility userID updateStatus with
    | (.ret err, w1) => (err, w1)
    | (.next, w1) => SendStandupReport w1 rest date visibility userID updateStatus

/-- `sendAllStandupReport`. -/
def sendAllStandupReport (w : World) : List String → Option String × World
  | [] => (none, w)
  | channelID :: rest =>
    match w.GetStandupConfig channelID with
    | .error err => (some err, w)
    | .ok none => (some ("standup not configured for channel: " ++ channelID), w)
    | .ok (some standupConfig) =>
      match SendStandupReport w [channelID] (w.Now standupConfig.Timezone)
          ReportVisibilityPublic "" true with
      | (some standupReportError, w1) => (some standupReportError, w1)
      | (none, w1) => sendAllStandupReport w1 rest

/-! ## Notifications -/

/-- The body of the loop of `sendWindowOpenNotification` for one channel. -/
def sendWindowOpenNotificationChannel (w : World) (channelID : String) : World :=
  let post : Post :=
    { Id := "", ChannelId := channelID, UserId := w.BotUserID, PostType := POST_DEFAULT,
      Message := "Please start filling your standup!" }
  match w.CreatePost post with
  | (.error _, w1) => w1
  | (.ok post, w1) =>
    match addReminderPost w1 post.Id channelID with
    | (some _, w2) => w2
    | (none, w2) =>
      match (GetNotificationStatus w2 channelID).1 with
      | .error _ => w2
      | .ok notificationStatus =>
        match SetNotificationStatus w2 channelID
            { notificationStatus with WindowOpenNotificationSent := true } with
        | (some _, w3) => w3
        | (none, w3) => w3

/-- `sendWindowOpenNotification`. -/
def sendWindowOpenNotification (w : World) : List String → World
  | [] => w
  | channelID :: rest =>
    sendWindowOpenNotification (sendWindowOpenNotificationChannel w channelID) rest

/-- The loop of `sendWindowCloseNotification` over the members of the
standup: the usernames of the members without standup today. -/
def collectUsersPendingStandup (w : World) (channelID : String) (standupConfig : Config) :
    List String → List String → Except String (List String)
  | [], usersPendingStandup => .ok usersPendingStandup
  | userID :: rest, usersPendingStandup =>
    match w.GetUserStandup userID channelID (w.Now standupConfig.Timezone) with
    | .error err => .error err
    | .ok (some _) =>
      collectUsersPendingStandup w channelID standupConfig rest usersPendingStandup
    | .ok none =>
      match w.GetUser userID with
      | .error err => .error err
      | .ok user =>
        collectUsersPendingStandup w channelID standupConfig rest
          (usersPendingStandup ++ [user.Username])

/-- The body of the loop of `sendWindowCloseNotification` for one channel. -/
def sendWindowCloseNotificationChannel (w : World) (channelID : String) : Step × World :=
  match w.GetStandupConfig channelID with
  | .error err => (.ret (some err), w)
  | .ok none => (.next, w)
  | .ok (some standupConfig) =>
    match collectUsersPendingStandup w channelID standupConfig standupConfig.Members [] with
    | .error err => (.ret (some err), w)
    | .ok usersPendingStandup =>
      if usersPendingStandup.length = 0 then
        (.ret none, w)
      else
        let message := "@" ++ ", @".intercalate usersPendingStandup ++
          " - a gentle reminder to fill your standup."
        let post : Post :=
          { Id := "", ChannelId := channelID, UserId := w.BotUserID, PostType := POST_DEFAULT,
            Message := message }
        match w.CreatePost post with
        | (.error _, w1) => (.next, w1)
        | (.ok post, w1) =>
          match addReminderPost w1 post.Id channelID with
          | (some err, w2) => (.ret (some err), w2)
          | (none, w2) =>
            match (GetNotificationStatus w2 channelID).1 with
            | .error _ => (.next, w2)
            | .ok notificationStatus =>
              match SetNotificationStatus w2 channelID
                  { notificationStatus with WindowCloseNotificationSent := true } with
              | (some err, w3) => (.ret (some err), w3)
              | (none, w3) => (.next, w3)

/-- `sendWindowCloseNotification`. -/
def sendWindowCloseNotification (w : World) : List String → Option String × World
  | [] => (none, w)
  | channelID :: rest =>
    match sendWindowCloseNotificationChannel w channelID with
    | (.ret err, w1) => (err, w1)
    | (.next, w1) => sendWindowCloseNotification w1 rest

/-- `SendNotificationsAndReports`. -/
def SendNotificationsAndReports (w : World) : Option String × World :=
  match w.GetStandupChannels with
  | .error err => (some err, w)
  | .ok channelIDs =>
    match (filterChannelNotification w channelIDs).1 with
    | ⟨_, _, _, some err⟩ => (some err, w)
    | ⟨pendingWindowOpenNotificationChannelIDs, pendingWindowCloseNotificationChannelIDs,
        pendingStandupReportChannelIDs, none⟩ =>
      let w1 := sendWindowOpenNotification w pendingWindowOpenNotificationChannelIDs
      match sendWindowCloseNotification w1 pendingWindowCloseNotificationChannelIDs with
      | (some err, w2) => (some err, w2)
      | (none, w2) =>
        match sendAllStandupReport w2 pendingStandupReportChannelIDs with
        | (some err, w3) => (some err, w3)
        | (none, w3) => (none, w3)

/-! ## Vocabulary of the statements -/

/-- The current time in the timezone of a configuration, as the three
`shouldSend` functions read it. -/
def currentTime (w : World) (c : Config) : Time :=
  (w.GetTimeWithSeconds (w.Now c.Timezone) c.Timezone).Time

/-- The window open time of a configuration, as compared with the current
time. -/
def windowOpenTime (w : World) (c : Config) : Time :=
  (w.GetTimeWithSeconds c.WindowOpenTime c.Timezone).Time

/-- The window close time of a configuration, as compared with the current
time. -/
def windowCloseTime (w : World) (c : Config) : Time :=
  (w.GetTimeWithSeconds c.WindowCloseTime c.Timezone).Time

/-- The length of the window as `shouldSendWindowCloseNotification` measures
it, between the `GetTime` readings of the two window times. -/
def windowDuration (w : World) (c : Config) : Time :=
  (w.GetTime c.WindowCloseTime c.Timezone).Time - (w.GetTime c.WindowOpenTime c.Timezone).Time

/-- The report of a channel for a date, as an iteration of `SendStandupReport`
builds it before it delivers anything: the configuration is fetched, the
standups of the members are collected and sorted, the report is generated;
nothing of the host is changed. -/
def reportFor (w : World) (channelID : String) (date : OTime) : Except String Post :=
  match w.GetStandupConfig channelID with
  | .error err => .error err
  | .ok none => .error ("standup not configured for channel: " ++ channelID)
  | .ok (some standupConfig) =>
    match collectUserStandups w channelID date standupConfig.Members [] [] with
    | .error err => .error err
    | .ok (members, membersNoStandup) =>
      match sortUserStandups w members with
      | .error err => .error err
      | .ok members => generateReport w standupConfig members membersNoStandup channelID date

/-- The delivery of a report in an iteration of `SendStandupReport`: an
ephemeral post to `userID` when the visibility is private, a post
otherwise. -/
def deliverReport (w : World) (post : Post) (visibility userID : String) :
    Option String × World :=
  if visibility = ReportVisibilityPrivate then
    (none, w.SendEphemeralPost userID post)
  else
    match w.CreatePost post with
    | (.error appErr, w1) => (some appErr, w1)
    | (.ok _, w1) => (none, w1)

/-- The error message of `generateReport` for a report format it does not
know. -/
def unknownReportFormat (channelID reportFormat : String) : String :=
  "Unknown report format encountered for channel: " ++ channelID ++
    ", report format: " ++ reportFormat

/-- A world without what the sending functions change: the store emptied,
no post created, sent or deleted. Two worlds with the same setting differ at
most in their stores and posts. -/
def World.setting (w : World) : World :=
  { w with kv := fun _ => .ok "", posts := [], ephemeralPosts := [], deletedPosts := [] }

/-- The hashed store key of a channel's status. -/
def statusKeyHash (w : World) (channelID : String) (c : Config) : String :=
  w.GetKeyHash (notificationStatusKey w channelID c)

/-- The hashed store key of a channel's list of reminder posts. -/
def reminderKeyHash (w : World) (channelID : String) : String :=
  w.GetKeyHash (reminderPostsKey channelID)

/-- The JSON library decodes every status it encoded, and encodes none as
empty bytes. -/
def StatusCodec (w : World) : Prop :=
  ∀ s b, w.jsonMarshal s = .ok b → b.length ≠ 0 ∧ w.jsonUnmarshal b = .ok s

/-- The post that `sendWindowOpenNotification` asks the host to create for a
channel. -/
def windowOpenPost (w : World) (channelID : String) : Post :=
  { Id := "", ChannelId := channelID, UserId := w.BotUserID, PostType := POST_DEFAULT,
    Message := "Please start filling your standup!" }

/-- The post that `sendWindowCloseNotification` asks the host to create for a
channel whose members without standup have the usernames `pending`. -/
def windowClosePost (w : World) (channelID : String) (pending : List String) : Post :=
  { Id := "", ChannelId := channelID, UserId := w.BotUserID, PostType := POST_DEFAULT,
    Message := "@" ++ ", @".intercalate pending ++ " - a gentle reminder to fill your standup." }

/-- The username of a user, the empty string if the lookup fails. -/
def usernameOf (w : World) (userID : String) : String :=
  match w.GetUser userID with
  | .ok user => user.Username
  | .error _ => ""

/-- The member has not submitted a standup in the channel for the date. -/
def hasNoStandup (w : World) (channelID : String) (date : OTime) (userID : String) : Bool :=
  match w.GetUserStandup userID channelID date with
  | .ok none => true
  | _ => false

/-- The usernames of the members of a standup without a standup today, in
the order of the configured member list. -/
def pendingUsernames (w : World) (channelID : String) (c : Config) : List String :=
  (c.Members.filter (hasNoStandup w channelID (w.Now c.Timezone))).map (usernameOf w)

/-- The display name of a user, the empty string if the lookup fails. -/
def displayNameOf (w : World) (userID : String) : String :=
  match w.GetUser userID with
  | .ok user => user.DisplayName
  | .error _ => ""

/-- The channel's persisted status can be read and is `st`. -/
def HasStatus (w : World) (channelID : String) (st : ChannelNotificationStatus) : Prop :=
  (GetNotificationStatus w channelID).1 = .ok st

instance (w : World) (channelID : String) (st : ChannelNotificationStatus) :
    Decidable (HasStatus w channelID st) :=
  inferInstanceAs (Decidable ((GetNotificationStatus w channelID).1 = .ok st))

/-- The channel's persisted status can be read and has `StandupReportSent`
set. -/
def ReportMarked (w : World) (channelID : String) : Prop :=
  ∃ st, HasStatus w channelID st ∧ st.StandupReportSent = true

/-- The read of the status that an iteration of `SendStandupReport` with
`updateStatus` true makes for a channel, from the host at the start of the
iteration: the result of `GetNotificationStatus` after the report is
delivered and the reminder posts are deleted; none when the iteration ends
before the read. -/
def iterationStatusRead (w : World) (channelID : String) (date : OTime)
    (visibility userID : String) : Option (Except String ChannelNotificationStatus) :=
  match reportFor w channelID date with
  | .error _ => none
  | .ok post =>
    match deliverReport w post visibility userID with
    | (some _, _) => none
    | (none, w1) =>
      some (GetNotificationStatus (deleteReminderPosts w1 channelID).2 channelID).1

/-- The list of a result that belongs to a kind of notification. -/
def FilterResult.listOf (r : FilterResult) : Pending → List String
  | .windowOpen => r.windowOpenNotificationChannels
  | .windowClose => r.windowCloseNotificationChannels
  | .standupReport => r.standupReportChannels

/-- The iteration for a channel selects the kind `p`. -/
def selects (w : World) (p : Pending) (channelID : String) : Bool :=
  match (filterChannel w channelID).1 with
  | .ok (some q) => decide (q = p)
  | _ => false

/-- The iteration for a channel makes the function return an error. -/
def failsOn (w : World) (channelID : String) : Bool :=
  match (filterChannel w channelID).1 with
  | .error _ => true
  | .ok _ => false

/-- The kind selected for a channel that passes the three guards and whose
status is `st`. -/
def choice (w : World) (st : ChannelNotificationStatus) (c : Config) : Option Pending :=
  if st.StandupReportSent = true then none
  else if currentTime w c > windowCloseTime w c then some .standupReport
  else if st.WindowCloseNotificationSent = false ∧ currentTime w c >
      windowOpenTime w c + windowDuration w c * w.WindowCloseNotificationDurationPercentage then
    if c.WindowCloseReminderEnabled = true then some .windowClose else none
  else if st.WindowOpenNotificationSent = false ∧ currentTime w c > windowOpenTime w c then
    if c.WindowOpenReminderEnabled = true then some .windowOpen else none
  else none

/-- The texts of a list, one after the other. -/
def concat : List String → String
  | [] => ""
  | a :: rest => a ++ concat rest

/-- The tasks of a list, one per line, each prefixed with "1. ". -/
def numbered (tasks : List String) : String :=
  concat (tasks.map fun task => "1. " ++ task ++ "\n")

/-- The tasks of a user standup for a section title; none when the standup
has no task list for the title. -/
def tasksOf (userStandup : UserStandup) (sectionTitle : String) : List String :=
  (userStandup.Standup.lookup sectionTitle).getD []

/-- A section in the block of a user of the user aggregated report: the line
of the title, the tasks of the user for the section, and an empty line. -/
def userSectionBlock (userStandup : UserStandup) (sectionTitle : String) : String :=
  "##### " ++ sectionTitle ++ "\n" ++ numbered (tasksOf userStandup sectionTitle) ++ "\n"

/-- The block of a user standup in the user aggregated report: the header of
the user, an empty line, and the sections of the configuration for which the
user has a task, in the order of the configuration. -/
def userBlock (w : World) (c : Config) (userStandup : UserStandup) : String :=
  "#### " ++ UserIcon w userStandup.UserID ++ " " ++ displayNameOf w userStandup.UserID ++
    "\n\n" ++
    concat ((c.Sections.filter fun sectionTitle =>
      decide (tasksOf userStandup sectionTitle ≠ [])).map (userSectionBlock userStandup))

/-- The line of the report that names the members without standup, in the
user aggregated format; empty when every member has a standup. -/
def userAggregatedPending (w : World) (membersNoStandup : List String) : String :=
  if membersNoStandup.length > 0 then
    "\n@" ++ ", @".intercalate membersNoStandup ++ " " ++
      w.HasHave membersNoStandup.length ++ " not submitted their standup\n\n"
  else ""

/-- The entry of a user standup under a section of the type aggregated
report: the header of the user, and the tasks of the user for the section. -/
def typeEntry (w : World) (userStandup : UserStandup) (sectionTitle : String) : String :=
  "##### " ++ UserIcon w userStandup.UserID ++ " " ++ displayNameOf w userStandup.UserID ++
    "\n" ++ numbered (tasksOf userStandup sectionTitle)

/-- The entries under a section of the type aggregated report: for the user
standups with a task for the section, in the order of the list, the entry
of the standup, once for each time the title stands in the configuration. -/
def typeTasks (w : World) (c : Config) (userStandups : List UserStandup)
    (sectionTitle : String) : String :=
  concat ((userStandups.filter fun u => decide (tasksOf u sectionTitle ≠ [])).map fun u =>
    concat (List.replicate (c.Sections.count sectionTitle) (typeEntry w u sectionTitle)))

/-- The names listed with no open items for a section of the type aggregated
report: for the user standups without a task for the section, in the order of
the list, the display name of the user, once for each time the title stands
in the configuration. -/
def typeNoTasks (w : World) (c : Config) (userStandups : List UserStandup)
    (sectionTitle : String) : List String :=
  (userStandups.filter fun u => decide (tasksOf u sectionTitle = [])).flatMap fun u =>
    List.replicate (c.Sections.count sectionTitle) (displayNameOf w u.UserID)

/-- A section of the type aggregated report: the line of the title, the
entries, and the line of the users with no open items, if there are any. -/
def typeSection (w : World) (c : Config) (userStandups : List UserStandup)
    (sectionTitle : String) : String :=
  "##### ** " ++ sectionTitle ++ "**\n\n" ++ typeTasks w c userStandups sectionTitle ++ "\n" ++
    (if (typeNoTasks w c userStandups sectionTitle).length > 0 then
      ", ".intercalate (typeNoTasks w c userStandups sectionTitle) ++ " " ++
        w.HasHave (typeNoTasks w c userStandups sectionTitle).length ++
        " no open items for " ++ sectionTitle ++ "\n"
    else "")

/-- The line of the report that names the members without standup, in the
type aggregated format; empty when every member has a standup. -/
def typeAggregatedPending (w : World) (membersNoStandup : List String) : String :=
  if membersNoStandup.length > 0 then
    ", ".intercalate membersNoStandup ++ " " ++ w.HasHave membersNoStandup.length ++
      " not submitted their standup.\n"
  else ""

/-- The names that the first loop of `generateTypeAggregatedStandupReport`
collects in `userNoTasks` under a section title, which the report prints
before "no open items for"; no name when a display name lookup fails. -/
def noOpenItems (w : World) (c : Config) (userStandups : List UserStandup)
    (sectionTitle : String) : List String :=
  match typeAggregatedUsers w c userStandups (fun _ => "") (fun _ => []) with
  | .ok (_, userNoTasks) => userNoTasks sectionTitle
  | .error _ => []

/-! ## Sample worlds -/

/-- A configuration with window 10:00 to 11:00, times counted in seconds from
the midnight that starts the current day. -/
def sampleConfig (channelID : String) : Config :=
  { ChannelID := channelID
    WindowOpenTime := ⟨36000, "Asia/Kolkata"⟩
    WindowCloseTime := ⟨39600, "Asia/Kolkata"⟩
    Enabled := true
    Members := ["user_id_1", "user_id_2"]
    ReportFormat := "user_aggregated"
    Sections := ["section 1", "section 2"]
    Timezone := "Asia/Kolkata"
    WindowOpenReminderEnabled := true
    WindowCloseReminderEnabled := true
    RRule := ⟨[0, 86400, 172800]⟩ }

/-- The JSON text `json.Marshal` produces for a status. -/
def sampleEncode (s : ChannelNotificationStatus) : String :=
  "\x7b\"windowOpenNotificationSent\":" ++ toString s.WindowOpenNotificationSent ++
    ",\"windowCloseNotificationSent\":" ++ toString s.WindowCloseNotificationSent ++
    ",\"standupReportSent\":" ++ toString s.StandupReportSent ++ "\x7d"

/-- A decoder of the texts of `sampleEncode`; any other text is refused. -/
def sampleDecode (data : String) : Except String ChannelNotificationStatus :=
  match [false, true].flatMap (fun o => [false, true].flatMap fun c => [false, true].map fun r =>
      (⟨o, c, r⟩ : ChannelNotificationStatus)) |>.find? (fun s => sampleEncode s = data) with
  | some s => .ok s
  | none => .error "unexpected end of JSON input"

/-- Sample users: `user_id_1` is Foo Bar, `user_id_2` is John Doe,
`user_id_3` is a second John Doe, and the lookup of any other user fails. -/
def sampleUsers (userID : String) : Except String User :=
  if userID = "user_id_1" then .ok ⟨"foo", "system_user", "Foo Bar"⟩
  else if userID = "user_id_2" then .ok ⟨"john", "system_user system_admin", "John Doe"⟩
  else if userID = "user_id_3" then .ok ⟨"johnny", "system_user", "John Doe"⟩
  else .error "could not find the user"

/-- Sample standups: in every channel but `channel_8`, `user_id_1` and
`user_id_3` have submitted and nobody else has; in `channel_8` everybody
has. -/
def sampleUserStandups (userID channelID : String) (_date : OTime) :
    Except String (Option UserStandup) :=
  if channelID = "channel_8" then
    .ok (some ⟨userID, channelID, [("section 1", ["task_1"])]⟩)
  else if userID = "user_id_1" then
    .ok (some ⟨userID, channelID, [("section 1", ["task_1", "task_2"]), ("section 2", [])]⟩)
  else if userID = "user_id_3" then
    .ok (some ⟨userID, channelID, [("section 2", ["task_3"])]⟩)
  else .ok none

/-- A JSON-like text for a list of post IDs, none of which holds a comma: the
IDs between brackets, separated by commas. -/
def sampleEncodeStrings (l : List String) : String :=
  "[" ++ ",".intercalate l ++ "]"

/-- A decoder of the texts of `sampleEncodeStrings`; a text without brackets
is refused. -/
def sampleDecodeStrings (data : String) : Except String (List String) :=
  if data.startsWith "[" ∧ data.endsWith "]" then
    if data.length = 2 then .ok []
    else .ok (((data.drop 1).dropRight 1).splitOn ",")
  else .error "invalid character looking for beginning of value"

/-- A world at the instant `now` of the current day, with the given
configurations and store contents. -/
def sampleWorld (now : Time) (configs : String → Except String (Option Config))
    (kv : String → Except String String) : World :=
  { GetStandupConfig := configs
    Now := fun tz => ⟨now, tz⟩
    GetTime := fun t tz => ⟨t.Time, tz⟩
    GetTimeWithSeconds := fun t tz => ⟨t.Time, tz⟩
    Date := fun _ => 0
    GetCurrentDateString := fun _ => "20260105"
    GetKeyHash := fun k => "hash(" ++ k ++ ")"
    CacheKeyPrefixNotificationStatus := "notif_status"
    WindowCloseNotificationDurationPercentage := 4 / 5
    jsonMarshal := fun s => .ok (sampleEncode s)
    jsonUnmarshal := sampleDecode
    kv := kv
    kvSetError := fun _ _ => none
    kvDeleteError := fun _ => none
    GetStandupChannels := .ok ["channel_1", "channel_2"]
    GetUserStandup := sampleUserStandups
    GetUser := sampleUsers
    GetChannelMember := fun _ _ => .ok ⟨"channel_user channel_admin"⟩
    GetChannel := fun _ => .ok ⟨"team_1"⟩
    GetTeamMember := fun _ _ => .ok ⟨"team_user"⟩
    createPostError := fun _ => none
    newPostID := fun n => "post_" ++ toString n
    posts := []
    ephemeralPosts := []
    deletePostError := fun _ => none
    deletedPosts := []
    jsonMarshalStrings := fun l => .ok (sampleEncodeStrings l)
    jsonUnmarshalStrings := sampleDecodeStrings
    BotUserID := "bot_user_id"
    ReportFormatTypeAggregated := "type_aggregated"
    ReportFormatUserAggregated := "user_aggregated"
    UserIconURL := "/api/v4/users/%s/image"
    UserIconSize := "=20x20"
    HasHave := fun n => if n = 1 then "has" else "have"
    Format := fun _ _ => "5 Jan 2026"
    ToLower := String.toLower
    Sprintf := fun format args => args.foldl (fun acc a => acc.replace "%s" a) format }

/-- The sample configuration with the standup disabled. -/
def disabledConfig (channelID : String) : Config :=
  { sampleConfig channelID with Enabled := false }

/-- The sample configuration with both reminders switched off. -/
def quietConfig (channelID : String) : Config :=
  { sampleConfig channelID with
    WindowOpenReminderEnabled := false, WindowCloseReminderEnabled := false }

/-- The sample configuration with a recurrence rule without occurrences. -/
def offDayConfig (channelID : String) : Config :=
  { sampleConfig channelID with RRule := ⟨[]⟩ }

/-- Sample configurations: `channel_1` is enabled, `channel_2` is disabled,
`channel_3` is enabled with both reminders switched off, the lookup of
`channel_4` fails, `channel_5` never has a standup day, and no other channel
has a configuration. -/
def sampleConfigs (channelID : String) : Except String (Option Config) :=
  if channelID = "channel_1" then .ok (some (sampleConfig channelID))
  else if channelID = "channel_2" then .ok (some (disabledConfig channelID))
  else if channelID = "channel_3" then .ok (some (quietConfig channelID))
  else if channelID = "channel_4" then .error "could not fetch standup config"
  else if channelID = "channel_5" then .ok (some (offDayConfig channelID))
  else .ok none

/-- Every channel has the sample configuration. -/
def everyChannelConfigured (channelID : String) : Except String (Option Config) :=
  .ok (some (sampleConfig channelID))

/-- The sample configuration with a report format that is not known. -/
def oddFormatConfig (channelID : String) : Config :=
  { sampleConfig channelID with ReportFormat := "weekly_digest" }

/-- Every channel has the sample configuration with the unknown report
format; the only member of `channel_9` is a user whose lookup fails. -/
def oddFormatConfigs (channelID : String) : Except String (Option Config) :=
  if channelID = "channel_9" then
    .ok (some { oddFormatConfig channelID with Members := ["user_id_9"] })
  else .ok (some (oddFormatConfig channelID))

/-- The report of `channel_1` in the sample worlds: John has not submitted,
Foo Bar has two tasks in the first section. -/
def sampleReport : Post :=
  { Id := ""
    ChannelId := "channel_1"
    UserId := "bot_user_id"
    PostType := ""
    Message := "#### Standup Report for *5 Jan 2026*\n\n@john has not submitted their standup\n\n#### ![User Avatar](/api/v4/users/user_id_1/image =20x20) Foo Bar\n\n##### section 1\n1. task_1\n1. task_2\n\n" }

/-- A store that holds nothing, and whose read of the reminder posts of
`channel_1` fails. -/
def reminderFailingStore (key : String) : Except String String :=
  if key = "hash(reminderPosts_channel_1)" then .error "could not read from the store"
  else .ok ""

/-- A store that holds the same status for every channel and day. -/
def sampleStore (s : ChannelNotificationStatus) (_key : String) : Except String String :=
  .ok (sampleEncode s)

/-- A store whose reads all fail. -/
def failingStore (_key : String) : Except String String :=
  .error "could not read from the store"

/-- A store that holds, under every key, the JSON text of a status with its
end cut off. -/
def truncatedStore (_key : String) : Except String String :=
  .ok "\x7b\"windowOpenNotificationSent\":true,\"windowCloseNotificationSent\":false,\"standupRepo"

/-- A store that holds nothing. -/
def emptyStore (_key : String) : Except String String :=
  .ok ""

/-- The sample world at 12:00 where the standup channels cannot be fetched. -/
def fetchFailingWorld : World :=
  { sampleWorld 43200 sampleConfigs emptyStore with
    GetStandupChannels := .error "could not fetch the standup channels" }

/-- The sample world at 12:00 without standup channels. -/
def noChannelWorld : World :=
  { sampleWorld 43200 sampleConfigs emptyStore with GetStandupChannels := .ok [] }

/-- The sample world at 12:00 with the sample configuration in every
channel, where the host refuses every post in `channel_1`. -/
def postRefusingWorld : World :=
  { sampleWorld 43200 everyChannelConfigured emptyStore with
    createPostError := fun post =>
      if post.ChannelId = "channel_1" then some "could not create the post" else none }

/-- A store that holds the list of the reminder post `post_9` under the key
of the reminder posts of `channel_1`, and under every other key a status
with the close flag only. -/
def reminderStore (key : String) : Except String String :=
  if key = "hash(reminderPosts_channel_1)" then .ok "[post_9]"
  else .ok (sampleEncode ⟨false, true, false⟩)

/-- The sample world with the `OTime` method `GetTime` that keeps the hours
and minutes of an instant and drops its seconds, next to
`GetTimeWithSeconds`, which keeps them. -/
def minuteWorld (now : Time) : World :=
  { sampleWorld now everyChannelConfigured emptyStore with
    GetTime := fun t tz => ⟨(Rat.floor (t.Time / 60) : ℚ) * 60, tz⟩ }

/-- The sample configuration with the window from 10:00:59 to 10:01:00. -/
def shortWindowConfig (channelID : String) : Config :=
  { sampleConfig channelID with
    WindowOpenTime := ⟨36059, "Asia/Kolkata"⟩, WindowCloseTime := ⟨36060, "Asia/Kolkata"⟩ }

/-- The world `minuteWorld` where every channel has the configuration with the
window from 10:00:59 to 10:01:00. -/
def shortWindowWorld (now : Time) : World :=
  { minuteWorld now with GetStandupConfig := fun ch => .ok (some (shortWindowConfig ch)) }

/-- The sample configuration with a recurrence rule whose only occurrence is
thirty seconds before the midnight that starts the current day. -/
def lateRuleConfig (channelID : String) : Config :=
  { sampleConfig channelID with RRule := ⟨[-30]⟩ }

/-- The sample configuration in the type aggregated format. -/
def typeFormatConfig (channelID : String) : Config :=
  { sampleConfig channelID with ReportFormat := "type_aggregated" }

/-- Configurations of standups without members: the sample configuration,
in the type aggregated format for `channel_1`, without members. -/
def memberlessConfigs (channelID : String) : Except String (Option Config) :=
  if channelID = "channel_1" then .ok (some { typeFormatConfig channelID with Members := [] })
  else .ok (some { sampleConfig channelID with Members := [] })

/-! ## The loop -/

theorem loop_of_no_failure (w : World) (ids : List String) :
    ∀ (acc : FilterResult) (reads : List String),
      (∀ c ∈ ids, failsOn w c = false) →
      filterChannelNotificationLoop w ids acc reads =
        (⟨acc.windowOpenNotificationChannels ++ ids.filter (selects w .windowOpen),
          acc.windowCloseNotificationChannels ++ ids.filter (selects w .windowClose),
          acc.standupReportChannels ++ ids.filter (selects w .standupReport),
          acc.err⟩,
         reads ++ (ids.map fun c => (filterChannel w c).2).flatten) := by
  induction ids with
  | nil => intro acc reads _; simp [filterChannelNotificationLoop]
  | cons c rest ih =>
    intro acc reads h
    have hc : failsOn w c = false := h c (List.mem_cons_self _ _)
    have hrest : ∀ d ∈ rest, failsOn w d = false := fun d hd => h d (List.mem_cons_of_mem _ hd)
    unfold filterChannelNotificationLoop
    rcases hfc : filterChannel w c with ⟨res, r⟩
    rcases res with e | (_ | p)
    · simp [failsOn, hfc] at hc
    · simp [ih _ _ hrest, selects, hfc]
    · cases p <;> simp [ih _ _ hrest, selects, hfc]

theorem loop_of_failure (w : World) (ids : List String) :
    ∀ (acc : FilterResult) (reads : List String),
      (∃ c ∈ ids, failsOn w c = true) →
      ∃ e, (filterChannelNotificationLoop w ids acc reads).1 = ⟨[], [], [], some e⟩ := by
  induction ids with
  | nil => intro acc reads h; simp at h
  | cons c rest ih =>
    intro acc reads h
    unfold filterChannelNotificationLoop
    rcases hfc : filterChannel w c with ⟨res, r⟩
    rcases res with e | (_ | p)
    · exact ⟨e, rfl⟩
    all_goals
      have hrest : ∃ d ∈ rest, failsOn w d = true := by
        obtain ⟨d, hd, hf⟩ := h
        rcases List.mem_cons.1 hd with rfl | hd
        · simp [failsOn, hfc] at hf
        · exact ⟨d, hd, hf⟩
    · exact ih _ _ hrest
    · cases p <;> exact ih _ _ hrest

/-! ## One iteration -/

theorem status_ne :
    ChannelNotificationStatusSent ≠ ChannelNotificationStatusSend ∧
    ChannelNotificationStatusNotYet ≠ ChannelNotificationStatusSend ∧
    ChannelNotificationStatusNotYet ≠ ChannelNotificationStatusSent := by
  decide

theorem shouldSendStandupReport_eq (w : World) (st : ChannelNotificationStatus) (c : Config) :
    shouldSendStandupReport w st c =
      if st.StandupReportSent = true then ChannelNotificationStatusSent
      else if currentTime w c > windowCloseTime w c then ChannelNotificationStatusSend
      else ChannelNotificationStatusNotYet := rfl

theorem shouldSendWindowCloseNotification_eq (w : World) (st : ChannelNotificationStatus)
    (c : Config) :
    shouldSendWindowCloseNotification w st c =
      if st.WindowCloseNotificationSent = true then ChannelNotificationStatusSent
      else if currentTime w c >
          windowOpenTime w c + windowDuration w c * w.WindowCloseNotificationDurationPercentage
        then ChannelNotificationStatusSend
      else ChannelNotificationStatusNotYet := rfl

theorem shouldSendWindowOpenNotification_eq (w : World) (st : ChannelNotificationStatus)
    (c : Config) :
    shouldSendWindowOpenNotification w st c =
      if st.WindowOpenNotificationSent = true then ChannelNotificationStatusSent
      else if currentTime w c > windowOpenTime w c then ChannelNotificationStatusSend
      else ChannelNotificationStatusNotYet := rfl

theorem filterChannel_of_status (w : World) (ch : String) (c : Config)
    (st : ChannelNotificationStatus)
    (hc : w.GetStandupConfig ch = .ok (some c)) (hen : c.Enabled = true)
    (hday : isStandupDay w c = true) (hst : HasStatus w ch st) :
    (filterChannel w ch).1 = .ok (choice w st c) := by
  unfold HasStatus at hst
  rcases hg : GetNotificationStatus w ch with ⟨res, r⟩
  rw [hg] at hst
  simp only at hst
  subst hst
  unfold filterChannel
  simp only [hc, hen, hday, hg, shouldSendStandupReport_eq, shouldSendWindowCloseNotification_eq,
    shouldSendWindowOpenNotification_eq, choice]
  obtain ⟨h1, h2, h3⟩ := status_ne
  rcases st with ⟨o, cl, rp⟩
  by_cases hA : currentTime w c > windowCloseTime w c <;>
    by_cases hB : currentTime w c >
      windowOpenTime w c + windowDuration w c * w.WindowCloseNotificationDurationPercentage <;>
    by_cases hC : currentTime w c > windowOpenTime w c <;>
    by_cases hE : c.WindowCloseReminderEnabled = true <;>
    by_cases hF : c.WindowOpenReminderEnabled = true <;>
    cases o <;> cases cl <;> cases rp <;>
    simp [hA, hB, hC, hE, hF, h1, h2, h3, h1.symm, h2.symm, h3.symm]

theorem filterChannel_of_config_error (w : World) (ch e : String)
    (hc : w.GetStandupConfig ch = .error e) : filterChannel w ch = (.error e, []) := by
  simp [filterChannel, hc]

theorem filterChannel_of_no_config (w : World) (ch : String)
    (hc : w.GetStandupConfig ch = .ok none) : filterChannel w ch = (.ok none, []) := by
  simp [filterChannel, hc]

theorem filterChannel_of_skipped (w : World) (ch : String) (c : Config)
    (hc : w.GetStandupConfig ch = .ok (some c))
    (h : c.Enabled = false ∨ isStandupDay w c = false) :
    filterChannel w ch = (.ok none, []) := by
  unfold filterChannel
  rcases h with h | h
  · simp [hc, h]
  · cases hen : c.Enabled <;> simp [hc, h, hen]

theorem filterChannel_of_status_error (w : World) (ch e : String) (c : Config)
    (hc : w.GetStandupConfig ch = .ok (some c)) (hen : c.Enabled = true)
    (hday : isStandupDay w c = true) (hst : (GetNotificationStatus w ch).1 = .error e) :
    (filterChannel w ch).1 = .error e := by
  rcases hg : GetNotificationStatus w ch with ⟨res, r⟩
  rw [hg] at hst
  simp only at hst
  subst hst
  unfold filterChannel
  simp [hc, hen, hday, hg]

/-- What an iteration selects, read off the channel's configuration and
status. -/
theorem selects_iff (w : World) (p : Pending) (ch : String) :
    selects w p ch = true ↔
      ∃ c st, w.GetStandupConfig ch = .ok (some c) ∧ c.Enabled = true ∧
        isStandupDay w c = true ∧ HasStatus w ch st ∧ choice w st c = some p := by
  constructor
  · intro h
    rcases hc : w.GetStandupConfig ch with e | (_ | c)
    · simp [selects, filterChannel_of_config_error w ch e hc] at h
    · simp [selects, filterChannel_of_no_config w ch hc] at h
    · by_cases hs : c.Enabled = false ∨ isStandupDay w c = false
      · simp [selects, filterChannel_of_skipped w ch c hc hs] at h
      · have hen : c.Enabled = true := by
          cases hx : c.Enabled
          · exact absurd (Or.inl hx) hs
          · rfl
        have hday : isStandupDay w c = true := by
          cases hx : isStandupDay w c
          · exact absurd (Or.inr hx) hs
          · rfl
        rcases hg : (GetNotificationStatus w ch).1 with e | st
        · simp [selects, filterChannel_of_status_error w ch e c hc hen hday hg] at h
        · refine ⟨c, st, rfl, hen, hday, hg, ?_⟩
          rw [selects, filterChannel_of_status w ch c st hc hen hday hg] at h
          rcases hch : choice w st c with _ | q
          · simp [hch] at h
          · simp [hch] at h
            rw [h]
  · rintro ⟨c, st, hc, hen, hday, hst, hch⟩
    rw [selects, filterChannel_of_status w ch c st hc hen hday hst, hch]
    simp

/-- An iteration selects at most one kind. -/
theorem selects_unique (w : World) (p q : Pending) (ch : String)
    (hp : selects w p ch = true) (hq : selects w q ch = true) : p = q := by
  unfold selects at hp hq
  rcases h : (filterChannel w ch).1 with e | (_ | r)
  · simp [h] at hp
  · simp [h] at hp
  · simp [h] at hp hq
    rw [← hp, ← hq]

theorem failsOn_iff (w : World) (ch : String) :
    failsOn w ch = true ↔
      (∃ e, w.GetStandupConfig ch = .error e) ∨
      ∃ c e, w.GetStandupConfig ch = .ok (some c) ∧ c.Enabled = true ∧
        isStandupDay w c = true ∧ (GetNotificationStatus w ch).1 = .error e := by
  constructor
  · intro h
    rcases hc : w.GetStandupConfig ch with e | (_ | c)
    · exact Or.inl ⟨e, rfl⟩
    · simp [failsOn, filterChannel_of_no_config w ch hc] at h
    · by_cases hs : c.Enabled = false ∨ isStandupDay w c = false
      · simp [failsOn, filterChannel_of_skipped w ch c hc hs] at h
      · have hen : c.Enabled = true := by
          cases hx : c.Enabled
          · exact absurd (Or.inl hx) hs
          · rfl
        have hday : isStandupDay w c = true := by
          cases hx : isStandupDay w c
          · exact absurd (Or.inr hx) hs
          · rfl
        rcases hg : (GetNotificationStatus w ch).1 with e | st
        · exact Or.inr ⟨c, e, rfl, hen, hday, rfl⟩
        · simp [failsOn, filterChannel_of_status w ch c st hc hen hday hg] at h
  · rintro (⟨e, hc⟩ | ⟨c, e, hc, hen, hday, hst⟩)
    · simp [failsOn, filterChannel_of_config_error w ch e hc]
    · simp [failsOn, filterChannel_of_status_error w ch e c hc hen hday hst]

/-! ## The whole function -/

theorem filter_of_no_failure (w : World) (ids : List String)
    (h : ∀ c ∈ ids, failsOn w c = false) :
    filterChannelNotification w ids =
      (⟨ids.filter (selects w .windowOpen), ids.filter (selects w .windowClose),
        ids.filter (selects w .standupReport), none⟩,
       (ids.map fun c => (filterChannel w c).2).flatten) := by
  simp [filterChannelNotification, loop_of_no_failure w ids _ _ h]

theorem filter_of_failure (w : World) (ids : List String)
    (h : ∃ c ∈ ids, failsOn w c = true) :
    ∃ e, (filterChannelNotification w ids).1 = ⟨[], [], [], some e⟩ :=
  loop_of_failure w ids _ _ h

theorem filter_cases (w : World) (ids : List String) :
    (∀ c ∈ ids, failsOn w c = false) ∨ ∃ c ∈ ids, failsOn w c = true := by
  by_cases h : ∃ c ∈ ids, failsOn w c = true
  · exact Or.inr h
  · refine Or.inl fun c hc => ?_
    cases hf : failsOn w c
    · rfl
    · exact absurd ⟨c, hc, hf⟩ h

theorem err_none_iff (w : World) (ids : List String) :
    (filterChannelNotification w ids).1.err = none ↔ ∀ c ∈ ids, failsOn w c = false := by
  rcases filter_cases w ids with h | h
  · simp only [filter_of_no_failure w ids h, true_iff]
    exact h
  · obtain ⟨e, he⟩ := filter_of_failure w ids h
    obtain ⟨c, hc, hf⟩ := h
    simp only [he]
    constructor
    · intro h'; simp at h'
    · intro h'; rw [h' c hc] at hf; simp at hf

/-- A listed channel is a channel of the map whose iteration selected the
kind of the list. -/
theorem mem_listOf (w : World) (ids : List String) (p : Pending) (ch : String)
    (h : ch ∈ (filterChannelNotification w ids).1.listOf p) :
    ch ∈ ids ∧ selects w p ch = true := by
  rcases filter_cases w ids with hf | hf
  · rw [filter_of_no_failure w ids hf] at h
    cases p <;> simpa [FilterResult.listOf, List.mem_filter] using h
  · obtain ⟨e, he⟩ := filter_of_failure w ids hf
    rw [he] at h
    cases p <;> simp [FilterResult.listOf] at h

/-- When the function returns no error, the channels listed for a kind are
exactly the channels of the map whose iteration selected it. -/
theorem mem_listOf_iff (w : World) (ids : List String) (p : Pending) (ch : String)
    (herr : (filterChannelNotification w ids).1.err = none) :
    ch ∈ (filterChannelNotification w ids).1.listOf p ↔ ch ∈ ids ∧ selects w p ch = true := by
  have hf := (err_none_iff w ids).1 herr
  rw [filter_of_no_failure w ids hf]
  cases p <;> simp [FilterResult.listOf, List.mem_filter]

theorem choice_report_iff (w : World) (st : ChannelNotificationStatus) (c : Config) :
    choice w st c = some .standupReport ↔
      st.StandupReportSent = false ∧ currentTime w c > windowCloseTime w c := by
  unfold choice
  rcases st with ⟨o, cl, rp⟩
  cases rp
  · simp only [Bool.false_eq_true, if_false, true_and]
    split_ifs <;> simp_all
  · simp

theorem choice_close_iff (w : World) (st : ChannelNotificationStatus) (c : Config) :
    choice w st c = some .windowClose ↔
      st.StandupReportSent = false ∧ ¬ currentTime w c > windowCloseTime w c ∧
      st.WindowCloseNotificationSent = false ∧ c.WindowCloseReminderEnabled = true ∧
      currentTime w c >
        windowOpenTime w c + windowDuration w c * w.WindowCloseNotificationDurationPercentage := by
  unfold choice
  rcases st with ⟨o, cl, rp⟩
  cases rp <;> cases cl <;> simp <;> split_ifs <;> simp_all

theorem choice_open_iff (w : World) (st : ChannelNotificationStatus) (c : Config) :
    choice w st c = some .windowOpen ↔
      st.StandupReportSent = false ∧ ¬ currentTime w c > windowCloseTime w c ∧
      ¬ (st.WindowCloseNotificationSent = false ∧ currentTime w c >
        windowOpenTime w c + windowDuration w c * w.WindowCloseNotificationDurationPercentage) ∧
      st.WindowOpenNotificationSent = false ∧ c.WindowOpenReminderEnabled = true ∧
      currentTime w c > windowOpenTime w c := by
  unfold choice
  rcases st with ⟨o, cl, rp⟩
  cases rp <;> cases cl <;> cases o <;> simp <;> split_ifs <;> simp_all

theorem hasStatus_unique (w : World) (ch : String) (s t : ChannelNotificationStatus)
    (hs : HasStatus w ch s) (ht : HasStatus w ch t) : s = t := by
  unfold HasStatus at hs ht
  rw [hs] at ht
  exact Except.ok.inj ht

theorem count_filter_selects_le_one (w : World) (ids : List String) (hmap : ids.Nodup)
    (p : Pending) (ch : String) : (ids.filter (selects w p)).count ch ≤ 1 :=
  List.nodup_iff_count_le_one.1 (hmap.filter _) ch

theorem count_filter_selects_eq_zero (w : World) (ids : List String) (p : Pending)
    (ch : String) (h : selects w p ch = false) : (ids.filter (selects w p)).count ch = 0 := by
  apply List.count_eq_zero.2
  intro hm
  rw [(List.mem_filter.1 hm).2] at h
  exact Bool.noConfusion h

/-- A channel whose iteration appends nothing and reads nothing can be left
out of the map. -/
theorem loop_filter_skipped (w : World) (ch : String)
    (hskip : filterChannel w ch = (.ok none, [])) (ids : List String) :
    ∀ (acc : FilterResult) (reads : List String),
      filterChannelNotificationLoop w ids acc reads =
        filterChannelNotificationLoop w (ids.filter fun c => decide (c ≠ ch)) acc reads := by
  induction ids with
  | nil => intro acc reads; rfl
  | cons c rest ih =>
    intro acc reads
    by_cases hc : c = ch
    · subst hc
      have : (c :: rest).filter (fun d => decide (d ≠ c)) =
          rest.filter (fun d => decide (d ≠ c)) := by simp
      rw [this, ← ih]
      conv_lhs => unfold filterChannelNotificationLoop
      simp [hskip]
    · have : (c :: rest).filter (fun d => decide (d ≠ ch)) =
          c :: rest.filter (fun d => decide (d ≠ ch)) := by simp [hc]
      rw [this]
      unfold filterChannelNotificationLoop
      rcases filterChannel w c with ⟨res, r⟩
      rcases res with e | (_ | p)
      · rfl
      · exact ih _ _
      · cases p <;> exact ih _ _

/-! ## The claims -/

/-- C1: when the map's keys are visited once each, every channel ID occurs at
most once in the three lists returned by `filterChannelNotification` taken
together, so in at most one list and at most once there (also when an error
is returned, the three lists being empty then). -/
theorem C1_one_notification_per_channel (w : World) (channelIDs : List String)
    (hmap : channelIDs.Nodup) (ch : String) :
    (filterChannelNotification w channelIDs).1.windowOpenNotificationChannels.count ch +
      (filterChannelNotification w channelIDs).1.windowCloseNotificationChannels.count ch +
      (filterChannelNotification w channelIDs).1.standupReportChannels.count ch ≤ 1 := by
  rcases filter_cases w channelIDs with hf | hf
  · rw [filter_of_no_failure w channelIDs hf]
    have ho := count_filter_selects_le_one w channelIDs hmap .windowOpen ch
    have hc := count_filter_selects_le_one w channelIDs hmap .windowClose ch
    have hr := count_filter_selects_le_one w channelIDs hmap .standupReport ch
    have ho0 := count_filter_selects_eq_zero w channelIDs .windowOpen ch
    have hc0 := count_filter_selects_eq_zero w channelIDs .windowClose ch
    have hr0 := count_filter_selects_eq_zero w channelIDs .standupReport ch
    simp only
    cases h1 : selects w .windowOpen ch <;> cases h2 : selects w .windowClose ch <;>
      cases h3 : selects w .standupReport ch
    · have := ho0 h1; have := hc0 h2; omega
    · have := ho0 h1; have := hc0 h2; omega
    · have := ho0 h1; have := hr0 h3; omega
    · exact absurd (selects_unique w _ _ ch h2 h3) (by decide)
    · have := hc0 h2; have := hr0 h3; omega
    · exact absurd (selects_unique w _ _ ch h1 h3) (by decide)
    · exact absurd (selects_unique w _ _ ch h1 h2) (by decide)
    · exact absurd (selects_unique w _ _ ch h1 h2) (by decide)
  · obtain ⟨e, he⟩ := filter_of_failure w channelIDs hf
    simp [he]

/-- The claim C1 at 10:55 on three channels, the first of which is due its
window close reminder. -/
theorem C1_one_notification_per_channel_witness :
    ["channel_1", "channel_2", "channel_3"].Nodup ∧
    ((filterChannelNotification (sampleWorld 39300 sampleConfigs emptyStore)
        ["channel_1", "channel_2", "channel_3"]).1.windowOpenNotificationChannels.count
        "channel_1" +
      (filterChannelNotification (sampleWorld 39300 sampleConfigs emptyStore)
        ["channel_1", "channel_2", "channel_3"]).1.windowCloseNotificationChannels.count
        "channel_1" +
      (filterChannelNotification (sampleWorld 39300 sampleConfigs emptyStore)
        ["channel_1", "channel_2", "channel_3"]).1.standupReportChannels.count
        "channel_1" ≤ 1) :=
  ⟨by decide, C1_one_notification_per_channel _ _ (by decide) _⟩

/-- C2: a channel whose persisted status has the sent flag of a kind set is
not listed for that kind by `filterChannelNotification`, and a channel whose
status has `StandupReportSent` set is in none of the three lists. -/
theorem C2_sent_flag_blocks_listing (w : World) (channelIDs : List String) (ch : String)
    (st : ChannelNotificationStatus) (hst : HasStatus w ch st) :
    (st.WindowOpenNotificationSent = true →
      ch ∉ (filterChannelNotification w channelIDs).1.windowOpenNotificationChannels) ∧
    (st.WindowCloseNotificationSent = true →
      ch ∉ (filterChannelNotification w channelIDs).1.windowCloseNotificationChannels) ∧
    (st.StandupReportSent = true →
      ch ∉ (filterChannelNotification w channelIDs).1.windowOpenNotificationChannels ∧
      ch ∉ (filterChannelNotification w channelIDs).1.windowCloseNotificationChannels ∧
      ch ∉ (filterChannelNotification w channelIDs).1.standupReportChannels) := by
  have key : ∀ p, ch ∈ (filterChannelNotification w channelIDs).1.listOf p →
      ∃ c, choice w st c = some p := by
    intro p hp
    obtain ⟨c, st', _, _, _, hst', hch⟩ := (selects_iff w p ch).1 (mem_listOf w _ p ch hp).2
    rw [hasStatus_unique w ch st' st hst' hst] at hch
    exact ⟨c, hch⟩
  refine ⟨fun h hm => ?_, fun h hm => ?_, fun h => ⟨fun hm => ?_, fun hm => ?_, fun hm => ?_⟩⟩
  · obtain ⟨c, hc⟩ := key .windowOpen hm
    have := (choice_open_iff w st c).1 hc
    simp_all
  · obtain ⟨c, hc⟩ := key .windowClose hm
    have := (choice_close_iff w st c).1 hc
    simp_all
  · obtain ⟨c, hc⟩ := key .windowOpen hm
    have := (choice_open_iff w st c).1 hc
    simp_all
  · obtain ⟨c, hc⟩ := key .windowClose hm
    have := (choice_close_iff w st c).1 hc
    simp_all
  · obtain ⟨c, hc⟩ := key .standupReport hm
    have := (choice_report_iff w st c).1 hc
    simp_all

/-- The claim C2 at 12:00, after the window has closed, on a channel whose
three flags are set. -/
theorem C2_sent_flag_blocks_listing_witness :
    HasStatus (sampleWorld 43200 sampleConfigs (sampleStore ⟨true, true, true⟩)) "channel_1"
      ⟨true, true, true⟩ ∧
    "channel_1" ∉ (filterChannelNotification
      (sampleWorld 43200 sampleConfigs (sampleStore ⟨true, true, true⟩))
      ["channel_1"]).1.standupReportChannels :=
  ⟨by decide!,
    ((C2_sent_flag_blocks_listing _ ["channel_1"] "channel_1" ⟨true, true, true⟩
      (by decide!)).2.2 rfl).2.2⟩

/-- C3, the code at the failing input: at 10:55, with the window close
reminder of the day already sent and the window open reminder never sent,
`filterChannelNotification` lists the channel for the window open
notification. -/
theorem C3_expired_window_open_listed :
    HasStatus (sampleWorld 39300 sampleConfigs (sampleStore ⟨false, true, false⟩)) "channel_1"
      ⟨false, true, false⟩ ∧
    (filterChannelNotification
      (sampleWorld 39300 sampleConfigs (sampleStore ⟨false, true, false⟩)) ["channel_1"]).1 =
      ⟨["channel_1"], [], [], none⟩ := by
  decide!

/-- C4, as stated, fails at 12:00 on the map of `channel_1`, whose window
closed at 11:00 and whose report is not sent, and `channel_4`, whose
configuration lookup fails: the call returns an error and no list, so
`channel_1` meets every condition of the claim and is not listed. -/
theorem C4_counterexample :
    ¬ ("channel_1" ∈ (filterChannelNotification (sampleWorld 43200 sampleConfigs emptyStore)
          ["channel_1", "channel_4"]).1.standupReportChannels ↔
        ∃ c st, (sampleWorld 43200 sampleConfigs emptyStore).GetStandupConfig "channel_1" =
            .ok (some c) ∧ c.Enabled = true ∧
          isStandupDay (sampleWorld 43200 sampleConfigs emptyStore) c = true ∧
          HasStatus (sampleWorld 43200 sampleConfigs emptyStore) "channel_1" st ∧
          st.StandupReportSent = false ∧
          currentTime (sampleWorld 43200 sampleConfigs emptyStore) c >
            windowCloseTime (sampleWorld 43200 sampleConfigs emptyStore) c) := by
  intro h
  have hin := h.2 ⟨sampleConfig "channel_1", ⟨false, false, false⟩, rfl, rfl, by decide!,
    by decide!, rfl, by decide!⟩
  revert hin
  decide!

/-- C4, amended: when `filterChannelNotification` returns no error, a channel
of the map is listed for the standup report if and only if it has a
configuration, the standup is enabled, today is a standup day, its status has
`StandupReportSent` false and the current time is strictly after the window
close time; the other two flags and the two reminder settings play no part. -/
theorem C4_report_listed_iff (w : World) (channelIDs : List String) (ch : String)
    (herr : (filterChannelNotification w channelIDs).1.err = none) (hmem : ch ∈ channelIDs) :
    ch ∈ (filterChannelNotification w channelIDs).1.standupReportChannels ↔
      ∃ c st, w.GetStandupConfig ch = .ok (some c) ∧ c.Enabled = true ∧
        isStandupDay w c = true ∧ HasStatus w ch st ∧ st.StandupReportSent = false ∧
        currentTime w c > windowCloseTime w c := by
  have h := mem_listOf_iff w channelIDs .standupReport ch herr
  simp only [FilterResult.listOf] at h
  rw [h, selects_iff]
  constructor
  · rintro ⟨_, c, st, hc, hen, hday, hst, hch⟩
    exact ⟨c, st, hc, hen, hday, hst, (choice_report_iff w st c).1 hch⟩
  · rintro ⟨c, st, hc, hen, hday, hst, hrep⟩
    exact ⟨hmem, c, st, hc, hen, hday, hst, (choice_report_iff w st c).2 hrep⟩

/-- The amended claim C4 at 12:00 on a map whose lookups all succeed:
`channel_1` is listed for the report. -/
theorem C4_report_listed_iff_witness :
    (filterChannelNotification (sampleWorld 43200 sampleConfigs emptyStore)
      ["channel_1", "channel_2"]).1.err = none ∧
    "channel_1" ∈ ["channel_1", "channel_2"] ∧
    "channel_1" ∈ (filterChannelNotification (sampleWorld 43200 sampleConfigs emptyStore)
      ["channel_1", "channel_2"]).1.standupReportChannels :=
  ⟨by decide!, by decide,
    (C4_report_listed_iff (sampleWorld 43200 sampleConfigs emptyStore)
      ["channel_1", "channel_2"] "channel_1" (by decide!) (by decide)).2
      ⟨sampleConfig "channel_1", ⟨false, false, false⟩, rfl, rfl, by decide!, by decide!, rfl,
        by decide!⟩⟩

/-- C5, as stated, fails in two ways. At 10:55 on the map of `channel_1`,
enabled, on a standup day, with nothing sent yet and its close reminder due
since 10:48, and `channel_4`, whose configuration lookup fails: the call
returns an error and no list, so `channel_1` meets every condition of the
claim and is not listed. And at 10:01:00 on the map of `channel_1` alone,
with the window from 10:00:59 to 10:01:00 and a `GetTime` that drops the
seconds of the window times: the call returns no error, nothing is sent yet,
the current time is not after the window close time and is after the window
open time plus 4/5 of the second between the two window times, and the
channel is not listed, since the code measures the window as a minute. -/
theorem C5_counterexample :
    ((sampleWorld 39300 sampleConfigs emptyStore).GetStandupConfig "channel_1" =
      .ok (some (sampleConfig "channel_1")) ∧
    (sampleConfig "channel_1").Enabled = true ∧
    isStandupDay (sampleWorld 39300 sampleConfigs emptyStore) (sampleConfig "channel_1") = true ∧
    ¬ ("channel_1" ∈ (filterChannelNotification (sampleWorld 39300 sampleConfigs emptyStore)
          ["channel_1", "channel_4"]).1.windowCloseNotificationChannels ↔
        ∃ st, HasStatus (sampleWorld 39300 sampleConfigs emptyStore) "channel_1" st ∧
          st.StandupReportSent = false ∧
          ¬ currentTime (sampleWorld 39300 sampleConfigs emptyStore) (sampleConfig "channel_1") >
            windowCloseTime (sampleWorld 39300 sampleConfigs emptyStore)
              (sampleConfig "channel_1") ∧
          st.WindowCloseNotificationSent = false ∧
          (sampleConfig "channel_1").WindowCloseReminderEnabled = true ∧
          currentTime (sampleWorld 39300 sampleConfigs emptyStore) (sampleConfig "channel_1") >
            windowOpenTime (sampleWorld 39300 sampleConfigs emptyStore)
                (sampleConfig "channel_1") +
              (sampleWorld 39300 sampleConfigs
                emptyStore).WindowCloseNotificationDurationPercentage *
                (windowCloseTime (sampleWorld 39300 sampleConfigs emptyStore)
                    (sampleConfig "channel_1") -
                  windowOpenTime (sampleWorld 39300 sampleConfigs emptyStore)
                    (sampleConfig "channel_1")))) ∧
    ((filterChannelNotification (shortWindowWorld 36060) ["channel_1"]).1.err = none ∧
    (shortWindowWorld 36060).GetStandupConfig "channel_1" =
      .ok (some (shortWindowConfig "channel_1")) ∧
    (shortWindowConfig "channel_1").Enabled = true ∧
    isStandupDay (shortWindowWorld 36060) (shortWindowConfig "channel_1") = true ∧
    ¬ ("channel_1" ∈ (filterChannelNotification (shortWindowWorld 36060)
          ["channel_1"]).1.windowCloseNotificationChannels ↔
        ∃ st, HasStatus (shortWindowWorld 36060) "channel_1" st ∧
          st.StandupReportSent = false ∧
          ¬ currentTime (shortWindowWorld 36060) (shortWindowConfig "channel_1") >
            windowCloseTime (shortWindowWorld 36060) (shortWindowConfig "channel_1") ∧
          st.WindowCloseNotificationSent = false ∧
          (shortWindowConfig "channel_1").WindowCloseReminderEnabled = true ∧
          currentTime (shortWindowWorld 36060) (shortWindowConfig "channel_1") >
            windowOpenTime (shortWindowWorld 36060) (shortWindowConfig "channel_1") +
              (shortWindowWorld 36060).WindowCloseNotificationDurationPercentage *
                (windowCloseTime (shortWindowWorld 36060) (shortWindowConfig "channel_1") -
                  windowOpenTime (shortWindowWorld 36060) (shortWindowConfig "channel_1")))) := by
  refine ⟨⟨rfl, rfl, by decide!, fun h => ?_⟩, ⟨by decide!, rfl, rfl, by decide!, fun h => ?_⟩⟩
  · have hin := h.2 ⟨⟨false, false, false⟩, by decide!, rfl, by decide!, rfl, rfl, by decide!⟩
    revert hin
    decide!
  · have hin := h.2 ⟨⟨false, false, false⟩, by decide!, rfl, by decide!, rfl, rfl, by decide!⟩
    revert hin
    decide!

/-- C5, amended: when `filterChannelNotification` returns no error, an
enabled channel of the map on a standup day is listed for the window close
notification if and only if its status has `StandupReportSent` false, the
current time is not after the window close time, the status has
`WindowCloseNotificationSent` false, `WindowCloseReminderEnabled` is true and
the current time is strictly after the window open time plus the percentage
`P` of the length of the window as the code measures it, the difference of
the `GetTime` readings of the window close time and the window open time. -/
theorem C5_window_close_listed_iff (w : World) (channelIDs : List String) (ch : String)
    (c : Config) (herr : (filterChannelNotification w channelIDs).1.err = none)
    (hmem : ch ∈ channelIDs) (hc : w.GetStandupConfig ch = .ok (some c))
    (hen : c.Enabled = true) (hday : isStandupDay w c = true) :
    ch ∈ (filterChannelNotification w channelIDs).1.windowCloseNotificationChannels ↔
      ∃ st, HasStatus w ch st ∧ st.StandupReportSent = false ∧
        ¬ currentTime w c > windowCloseTime w c ∧
        st.WindowCloseNotificationSent = false ∧ c.WindowCloseReminderEnabled = true ∧
        currentTime w c >
          windowOpenTime w c +
            w.WindowCloseNotificationDurationPercentage * windowDuration w c := by
  have h := mem_listOf_iff w channelIDs .windowClose ch herr
  simp only [FilterResult.listOf] at h
  rw [h, selects_iff, mul_comm]
  constructor
  · rintro ⟨_, c', st, hc', _, _, hst, hch⟩
    rw [hc] at hc'
    cases hc'
    exact ⟨st, hst, (choice_close_iff w st c).1 hch⟩
  · rintro ⟨st, hst, hcl⟩
    exact ⟨hmem, c, st, hc, hen, hday, hst, (choice_close_iff w st c).2 hcl⟩

/-- The amended claim C5 at 10:55 on a map whose lookups all succeed:
`channel_1`, with nothing sent yet, is listed for the window close
notification, due since 10:48. -/
theorem C5_window_close_listed_iff_witness :
    (filterChannelNotification (sampleWorld 39300 sampleConfigs emptyStore)
      ["channel_1", "channel_2"]).1.err = none ∧
    "channel_1" ∈ (filterChannelNotification (sampleWorld 39300 sampleConfigs emptyStore)
      ["channel_1", "channel_2"]).1.windowCloseNotificationChannels :=
  ⟨by decide!,
    (C5_window_close_listed_iff (sampleWorld 39300 sampleConfigs emptyStore)
      ["channel_1", "channel_2"] "channel_1" (sampleConfig "channel_1") (by decide!)
      (by decide) rfl rfl (by decide!)).2
      ⟨⟨false, false, false⟩, by decide!, rfl, by decide!, rfl, rfl, by decide!⟩⟩

/-- C6: a channel whose configuration has `WindowOpenReminderEnabled` false
is never listed for the window open notification, and one whose
configuration has `WindowCloseReminderEnabled` false is never listed for the
window close notification, whatever the clock and the status say. -/
theorem C6_disabled_reminder_never_listed (w : World) (channelIDs : List String)
    (ch : String) (c : Config) (hc : w.GetStandupConfig ch = .ok (some c)) :
    (c.WindowOpenReminderEnabled = false →
      ch ∉ (filterChannelNotification w channelIDs).1.windowOpenNotificationChannels) ∧
    (c.WindowCloseReminderEnabled = false →
      ch ∉ (filterChannelNotification w channelIDs).1.windowCloseNotificationChannels) := by
  have key : ∀ p, ch ∈ (filterChannelNotification w channelIDs).1.listOf p →
      ∃ st, choice w st c = some p := by
    intro p hp
    obtain ⟨c', st, hc', _, _, _, hch⟩ := (selects_iff w p ch).1 (mem_listOf w _ p ch hp).2
    rw [hc] at hc'
    cases hc'
    exact ⟨st, hch⟩
  refine ⟨fun h hm => ?_, fun h hm => ?_⟩
  · obtain ⟨st, hch⟩ := key .windowOpen hm
    have := (choice_open_iff w st c).1 hch
    simp_all
  · obtain ⟨st, hch⟩ := key .windowClose hm
    have := (choice_close_iff w st c).1 hch
    simp_all

/-- The claim C6 at 10:55 on a channel with both reminders switched off and
nothing sent yet. -/
theorem C6_disabled_reminder_never_listed_witness :
    sampleConfigs "channel_3" = .ok (some (quietConfig "channel_3")) ∧
    "channel_3" ∉ (filterChannelNotification (sampleWorld 39300 sampleConfigs emptyStore)
      ["channel_1", "channel_3"]).1.windowOpenNotificationChannels ∧
    "channel_3" ∉ (filterChannelNotification (sampleWorld 39300 sampleConfigs emptyStore)
      ["channel_1", "channel_3"]).1.windowCloseNotificationChannels :=
  ⟨rfl,
    (C6_disabled_reminder_never_listed (sampleWorld 39300 sampleConfigs emptyStore)
      ["channel_1", "channel_3"] "channel_3" (quietConfig "channel_3") rfl).1 rfl,
    (C6_disabled_reminder_never_listed (sampleWorld 39300 sampleConfigs emptyStore)
      ["channel_1", "channel_3"] "channel_3" (quietConfig "channel_3") rfl).2 rfl⟩

/-- C7: for a channel whose standup is disabled, or for which today is not a
standup day, the iteration of `filterChannelNotification` appends nothing
and makes no read of the store, so that the channel is in none of the three
lists, and the lists, the error and the reads of the whole call are those of
the call on the map without the channel. -/
theorem C7_disabled_or_off_day_skipped (w : World) (channelIDs : List String) (ch : String)
    (c : Config) (hc : w.GetStandupConfig ch = .ok (some c))
    (hskip : c.Enabled = false ∨ isStandupDay w c = false) :
    filterChannel w ch = (.ok none, []) ∧
    ch ∉ (filterChannelNotification w channelIDs).1.windowOpenNotificationChannels ∧
    ch ∉ (filterChannelNotification w channelIDs).1.windowCloseNotificationChannels ∧
    ch ∉ (filterChannelNotification w channelIDs).1.standupReportChannels ∧
    filterChannelNotification w channelIDs =
      filterChannelNotification w (channelIDs.filter fun d => decide (d ≠ ch)) := by
  have hfc := filterChannel_of_skipped w ch c hc hskip
  have hno : ∀ p, ch ∉ (filterChannelNotification w channelIDs).1.listOf p := by
    intro p hp
    have := (mem_listOf w _ p ch hp).2
    simp [selects, hfc] at this
  exact ⟨hfc, hno .windowOpen, hno .windowClose, hno .standupReport,
    loop_filter_skipped w ch hfc channelIDs _ _⟩

/-- The claim C7 at 12:00 with a store whose reads all fail, on a disabled
channel and on a channel without a standup day: each iteration ends without
a read, and the call on both returns no error. -/
theorem C7_disabled_or_off_day_skipped_witness :
    sampleConfigs "channel_2" = .ok (some (disabledConfig "channel_2")) ∧
    filterChannel (sampleWorld 43200 sampleConfigs failingStore) "channel_2" = (.ok none, []) ∧
    isStandupDay (sampleWorld 43200 sampleConfigs failingStore) (offDayConfig "channel_5") =
      false ∧
    filterChannel (sampleWorld 43200 sampleConfigs failingStore) "channel_5" = (.ok none, []) ∧
    filterChannelNotification (sampleWorld 43200 sampleConfigs failingStore)
        ["channel_2", "channel_5"] =
      filterChannelNotification (sampleWorld 43200 sampleConfigs failingStore)
        (["channel_2", "channel_5"].filter fun d => decide (d ≠ "channel_2")) :=
  ⟨rfl,
    (C7_disabled_or_off_day_skipped (sampleWorld 43200 sampleConfigs failingStore)
      ["channel_2", "channel_5"] "channel_2" (disabledConfig "channel_2") rfl (Or.inl rfl)).1,
    by decide!,
    (C7_disabled_or_off_day_skipped (sampleWorld 43200 sampleConfigs failingStore)
      ["channel_2", "channel_5"] "channel_5" (offDayConfig "channel_5") rfl
      (Or.inr (by decide!))).1,
    (C7_disabled_or_off_day_skipped (sampleWorld 43200 sampleConfigs failingStore)
      ["channel_2", "channel_5"] "channel_2" (disabledConfig "channel_2") rfl
      (Or.inl rfl)).2.2.2.2⟩

/-- C8: `filterChannelNotification` returns an error and three nil lists when
the configuration lookup fails for a channel of the map; a channel whose
lookup yields nil is skipped (its iteration appends nothing, and the call
gives what it gives on the map without the channel); a map none of whose
channels has a configuration gives three empty lists and no error. -/
theorem C8_config_lookup_error_and_nil (w : World) (channelIDs : List String) :
    (∀ ch ∈ channelIDs, ∀ e, w.GetStandupConfig ch = .error e →
      ∃ err, (filterChannelNotification w channelIDs).1 = ⟨[], [], [], some err⟩) ∧
    (∀ ch, w.GetStandupConfig ch = .ok none →
      filterChannel w ch = (.ok none, []) ∧
      filterChannelNotification w channelIDs =
        filterChannelNotification w (channelIDs.filter fun d => decide (d ≠ ch))) ∧
    ((∀ ch ∈ channelIDs, w.GetStandupConfig ch = .ok none) →
      (filterChannelNotification w channelIDs).1 = ⟨[], [], [], none⟩) := by
  refine ⟨fun ch hm e he => ?_, fun ch hn => ?_, fun hall => ?_⟩
  · exact filter_of_failure w channelIDs ⟨ch, hm, (failsOn_iff w ch).2 (Or.inl ⟨e, he⟩)⟩
  · have hfc := filterChannel_of_no_config w ch hn
    exact ⟨hfc, loop_filter_skipped w ch hfc channelIDs _ _⟩
  · have hf : ∀ c ∈ channelIDs, failsOn w c = false := fun c hc => by
      simp [failsOn, filterChannel_of_no_config w c (hall c hc)]
    have hs : ∀ p, channelIDs.filter (selects w p) = [] := fun p => by
      apply List.filter_eq_nil_iff.2
      intro c hc
      simp [selects, filterChannel_of_no_config w c (hall c hc)]
    rw [filter_of_no_failure w channelIDs hf]
    simp [hs]

/-- The claim C8 at 10:55: a failing lookup (`channel_4`) next to a channel
that is due a reminder, and a map of two channels without configuration. -/
theorem C8_config_lookup_error_and_nil_witness :
    (∃ err, (filterChannelNotification (sampleWorld 39300 sampleConfigs emptyStore)
      ["channel_1", "channel_4"]).1 = ⟨[], [], [], some err⟩) ∧
    (filterChannelNotification (sampleWorld 39300 sampleConfigs emptyStore)
      ["channel_6", "channel_7"]).1 = ⟨[], [], [], none⟩ :=
  ⟨(C8_config_lookup_error_and_nil (sampleWorld 39300 sampleConfigs emptyStore)
      ["channel_1", "channel_4"]).1 "channel_4" (by decide)
      "could not fetch standup config" rfl,
    (C8_config_lookup_error_and_nil (sampleWorld 39300 sampleConfigs emptyStore)
      ["channel_6", "channel_7"]).2.2 (by decide)⟩

/-- C9: on a configured channel, when `SetNotificationStatus` succeeds with
status `s`, a `GetNotificationStatus` on the store it leaves, at any later
clock reading of the same calendar day of the channel's timezone, returns
`s` and no error; the JSON library is assumed to decode what it encoded,
and not to encode a status as empty bytes. -/
theorem C9_status_round_trip (w w1 : World) (ch : String) (c : Config)
    (s : ChannelNotificationStatus)
    (hc : w.GetStandupConfig ch = .ok (some c))
    (hjson : ∀ b, w.jsonMarshal s = .ok b → b.length ≠ 0 ∧ w.jsonUnmarshal b = .ok s)
    (hset : SetNotificationStatus w ch s = (none, w1))
    (now : String → OTime) (getTime getTimeWithSeconds : OTime → String → OTime)
    (date : OTime → Time) (dateString : String → String)
    (hday : dateString c.Timezone = w.GetCurrentDateString c.Timezone) :
    (GetNotificationStatus
      { w1 with
        Now := now, GetTime := getTime, GetTimeWithSeconds := getTimeWithSeconds,
        Date := date, GetCurrentDateString := dateString } ch).1 = .ok s := by
  unfold SetNotificationStatus at hset
  simp only [hc] at hset
  rcases hm : w.jsonMarshal s with e | b
  · simp [hm] at hset
  · obtain ⟨hne, hdec⟩ := hjson b hm
    simp only [hm, World.KVSet] at hset
    rcases hk : w.kvSetError (w.GetKeyHash (notificationStatusKey w ch c)) b with _ | e
    · simp only [hk, Prod.mk.injEq, true_and] at hset
      subst hset
      simp [GetNotificationStatus, hc, World.KVGet, notificationStatusKey, hday, hne, hdec]
    · simp [hk] at hset

/-- The claim C9 at 10:55: the status written with the window open flag set
is the status read back at 23:00 of the same day. -/
theorem C9_status_round_trip_witness :
    SetNotificationStatus (sampleWorld 39300 sampleConfigs emptyStore) "channel_1"
        ⟨true, false, false⟩ =
      (none, (SetNotificationStatus (sampleWorld 39300 sampleConfigs emptyStore) "channel_1"
        ⟨true, false, false⟩).2) ∧
    (GetNotificationStatus
      { (SetNotificationStatus (sampleWorld 39300 sampleConfigs emptyStore) "channel_1"
          ⟨true, false, false⟩).2 with
        Now := fun tz => ⟨82800, tz⟩, GetTime := fun t tz => ⟨t.Time, tz⟩,
        GetTimeWithSeconds := fun t tz => ⟨t.Time, tz⟩, Date := fun _ => 0,
        GetCurrentDateString := fun _ => "20260105" } "channel_1").1 =
      .ok ⟨true, false, false⟩ :=
  ⟨rfl,
    C9_status_round_trip (sampleWorld 39300 sampleConfigs emptyStore) _ "channel_1"
      (sampleConfig "channel_1") ⟨true, false, false⟩ rfl
      (fun b hb => by
        have hb' : b = sampleEncode ⟨true, false, false⟩ := (Except.ok.inj hb).symm
        subst hb'
        exact ⟨by decide, by decide⟩)
      rfl _ _ _ _ _ rfl⟩

/-- C10: on a configured channel, `GetNotificationStatus` returns the status
with the three flags false and no error when the store holds no data under
the channel's status key of the day; it returns an error and no status when
the read of the store fails, and when the stored bytes are refused by the
JSON decoder. -/
theorem C10_status_absent_or_unreadable (w : World) (ch : String) (c : Config)
    (hc : w.GetStandupConfig ch = .ok (some c)) :
    (∀ data, w.kv (w.GetKeyHash (notificationStatusKey w ch c)) = .ok data →
      data.length = 0 → (GetNotificationStatus w ch).1 = .ok ⟨false, false, false⟩) ∧
    (∀ e, w.kv (w.GetKeyHash (notificationStatusKey w ch c)) = .error e →
      (GetNotificationStatus w ch).1 = .error e) ∧
    (∀ data e, w.kv (w.GetKeyHash (notificationStatusKey w ch c)) = .ok data →
      data.length ≠ 0 → w.jsonUnmarshal data = .error e →
      (GetNotificationStatus w ch).1 = .error e) := by
  refine ⟨fun data hk hlen => ?_, fun e hk => ?_, fun data e hk hlen hdec => ?_⟩
  · simp [GetNotificationStatus, hc, World.KVGet, hk, hlen]
  · simp [GetNotificationStatus, hc, World.KVGet, hk]
  · simp [GetNotificationStatus, hc, World.KVGet, hk, hlen, hdec]

/-- The claim C10 on an empty store, on a store whose reads fail and on a
store that holds a truncated JSON text. -/
theorem C10_status_absent_or_unreadable_witness :
    (GetNotificationStatus (sampleWorld 39300 sampleConfigs emptyStore) "channel_1").1 =
      .ok ⟨false, false, false⟩ ∧
    (GetNotificationStatus (sampleWorld 39300 sampleConfigs failingStore) "channel_1").1 =
      .error "could not read from the store" ∧
    (GetNotificationStatus (sampleWorld 39300 sampleConfigs truncatedStore) "channel_1").1 =
      .error "unexpected end of JSON input" :=
  ⟨(C10_status_absent_or_unreadable (sampleWorld 39300 sampleConfigs emptyStore) "channel_1"
      (sampleConfig "channel_1") rfl).1 "" rfl rfl,
    (C10_status_absent_or_unreadable (sampleWorld 39300 sampleConfigs failingStore) "channel_1"
      (sampleConfig "channel_1") rfl).2.1 _ rfl,
    (C10_status_absent_or_unreadable (sampleWorld 39300 sampleConfigs truncatedStore)
      "channel_1" (sampleConfig "channel_1") rfl).2.2 _ _ rfl (by decide) (by decide)⟩

/-! ## Roles -/

/-- Splitting at a separator a list that holds the separator between two
parts gives the pieces of the first part, then the pieces of the second. -/
theorem splitOn_append_sep (sep : Char) (a b : List Char) :
    (a ++ sep :: b).splitOn sep = a.splitOn sep ++ b.splitOn sep := by
  induction a with
  | nil => simp [List.splitOn, List.splitOnP_cons]
  | cons x xs ih =>
    simp only [List.splitOn] at ih ⊢
    rw [List.cons_append, List.splitOnP_cons, List.splitOnP_cons, ih]
    by_cases hx : (x == sep) = true
    · simp [hx]
    · simp only [hx]
      rcases h : List.splitOnP (fun c => c == sep) xs with _ | ⟨y, ys⟩
      · exact absurd h (List.splitOnP_ne_nil _ _)
      · simp

theorem splitOnSpace_append_sep (a b : String) :
    splitOnSpace (a ++ (" " ++ b)) = splitOnSpace a ++ splitOnSpace b := by
  have h : (a ++ (" " ++ b)).toList = a.toList ++ ' ' :: b.toList := by
    simp [String.toList]
  simp [splitOnSpace, h, splitOn_append_sep]

/-- C18: when the channel-member, channel, team-member and user lookups all
succeed, `GetUserRoles` returns the pieces, cut at every space, of the channel
roles, then of the roles of the user in the channel's team, then of the
system roles; when a lookup fails (the lookups before it having succeeded)
it returns that lookup's error and no roles. -/
theorem C18_user_roles (w : World) (userID channelID : String) :
    (∀ cm ch tm u, w.GetChannelMember channelID userID = .ok cm →
      w.GetChannel channelID = .ok ch → w.GetTeamMember ch.TeamId userID = .ok tm →
      w.GetUser userID = .ok u →
      GetUserRoles w userID channelID =
        .ok (splitOnSpace cm.Roles ++ splitOnSpace tm.Roles ++ splitOnSpace u.Roles)) ∧
    (∀ e, w.GetChannelMember channelID userID = .error e →
      GetUserRoles w userID channelID = .error e) ∧
    (∀ cm e, w.GetChannelMember channelID userID = .ok cm →
      w.GetChannel channelID = .error e → GetUserRoles w userID channelID = .error e) ∧
    (∀ cm ch e, w.GetChannelMember channelID userID = .ok cm →
      w.GetChannel channelID = .ok ch → w.GetTeamMember ch.TeamId userID = .error e →
      GetUserRoles w userID channelID = .error e) ∧
    (∀ cm ch tm e, w.GetChannelMember channelID userID = .ok cm →
      w.GetChannel channelID = .ok ch → w.GetTeamMember ch.TeamId userID = .ok tm →
      w.GetUser userID = .error e → GetUserRoles w userID channelID = .error e) := by
  refine ⟨fun cm ch tm u h1 h2 h3 h4 => ?_, fun e h1 => ?_, fun cm e h1 h2 => ?_,
    fun cm ch e h1 h2 h3 => ?_, fun cm ch tm e h1 h2 h3 h4 => ?_⟩
  · simp only [GetUserRoles, getUserChannelRoles, getUserTeamRoles, getUserSystemRoles, h1, h2,
      h3, h4]
    have h0 : ("" : String) ++ cm.Roles = cm.Roles := by
      apply String.ext
      simp
    rw [h0]
    simp only [String.append_assoc]
    rw [splitOnSpace_append_sep, splitOnSpace_append_sep, List.append_assoc]
  · simp [GetUserRoles, getUserChannelRoles, h1]
  · simp [GetUserRoles, getUserChannelRoles, h1, h2]
  · simp [GetUserRoles, getUserChannelRoles, getUserTeamRoles, h1, h2, h3]
  · simp [GetUserRoles, getUserChannelRoles, getUserTeamRoles, getUserSystemRoles, h1, h2, h3, h4]

/-- The claim C18 on a user with two channel roles, one team role and two
system roles, and on a user whose lookup fails. -/
theorem C18_user_roles_witness :
    GetUserRoles (sampleWorld 39300 sampleConfigs emptyStore) "user_id_2" "channel_1" =
      .ok (splitOnSpace "channel_user channel_admin" ++ splitOnSpace "team_user" ++
        splitOnSpace "system_user system_admin") ∧
    GetUserRoles (sampleWorld 39300 sampleConfigs emptyStore) "user_id_9" "channel_1" =
      .error "could not find the user" :=
  ⟨(C18_user_roles (sampleWorld 39300 sampleConfigs emptyStore) "user_id_2" "channel_1").1
      ⟨"channel_user channel_admin"⟩ ⟨"team_1"⟩ ⟨"team_user"⟩
      ⟨"john", "system_user system_admin", "John Doe"⟩ rfl rfl rfl rfl,
    (C18_user_roles (sampleWorld 39300 sampleConfigs emptyStore) "user_id_9"
      "channel_1").2.2.2.2 ⟨"channel_user channel_admin"⟩ ⟨"team_1"⟩ ⟨"team_user"⟩ _
      rfl rfl rfl rfl⟩

/-! ## Sorting the standups -/

theorem getUserDisplayName_of_ok (w : World) (userID : String) (usr : User)
    (h : w.GetUser userID = .ok usr) :
    getUserDisplayName w userID = .ok (displayNameOf w userID) := by
  simp [getUserDisplayName, displayNameOf, h]

theorem sortUserStandupsCollect_of_ok (w : World) (l : List UserStandup)
    (h : ∀ u ∈ l, ∃ usr, w.GetUser u.UserID = .ok usr) :
    ∀ (m : List (String × UserStandup)) (k : List String),
      sortUserStandupsCollect w l m k =
        .ok ((l.map fun u => (displayNameOf w u.UserID, u)).reverse ++ m,
          k ++ l.map fun u => displayNameOf w u.UserID) := by
  induction l with
  | nil => intro m k; simp [sortUserStandupsCollect]
  | cons u rest ih =>
    intro m k
    obtain ⟨usr, hu⟩ := h u (List.mem_cons_self _ _)
    have hrest : ∀ v ∈ rest, ∃ usr, w.GetUser v.UserID = .ok usr :=
      fun v hv => h v (List.mem_cons_of_mem _ hv)
    simp [sortUserStandupsCollect, getUserDisplayName_of_ok w u.UserID usr hu, ih hrest]

/-- In a map whose every entry is a standup under the display name of its
user, a key that was assigned is found, with a standup of that name. -/
theorem lookup_of_named (w : World) (m : List (String × UserStandup))
    (hm : ∀ e ∈ m, e.1 = displayNameOf w e.2.UserID) (k : String)
    (hk : k ∈ m.map Prod.fst) :
    ∃ u, m.lookup k = some u ∧ displayNameOf w u.UserID = k ∧ (k, u) ∈ m := by
  induction m with
  | nil => simp at hk
  | cons e rest ih =>
    rcases e with ⟨a, v⟩
    by_cases hka : k = a
    · subst hka
      refine ⟨v, by simp [List.lookup], ?_, List.mem_cons_self _ _⟩
      exact (hm (k, v) (List.mem_cons_self _ _)).symm
    · have hk' : k ∈ rest.map Prod.fst := by
        simp only [List.map_cons, List.mem_cons] at hk
        rcases hk with hk | hk
        · exact absurd hk hka
        · exact hk
      obtain ⟨u, h1, h2, h3⟩ := ih (fun e he => hm e (List.mem_cons_of_mem _ he)) hk'
      refine ⟨u, ?_, h2, List.mem_cons_of_mem _ h3⟩
      have : (k == a) = false := by simpa using hka
      simp [List.lookup, this, h1]

theorem filterMap_lookup_names (w : World) (m : List (String × UserStandup))
    (hm : ∀ e ∈ m, e.1 = displayNameOf w e.2.UserID) (keys : List String)
    (hk : ∀ k ∈ keys, k ∈ m.map Prod.fst) :
    ((keys.filterMap fun k => m.lookup k).map fun u => displayNameOf w u.UserID) = keys := by
  induction keys with
  | nil => rfl
  | cons k rest ih =>
    obtain ⟨u, h1, h2, _⟩ := lookup_of_named w m hm k (hk k (List.mem_cons_self _ _))
    have := ih fun k' hk' => hk k' (List.mem_cons_of_mem _ hk')
    simp [List.filterMap_cons, h1, h2, this]

/-- What `sortUserStandups` returns when the display-name lookups succeed. -/
theorem sortUserStandups_of_ok (w : World) (l : List UserStandup)
    (h : ∀ u ∈ l, ∃ usr, w.GetUser u.UserID = .ok usr) :
    sortUserStandups w l =
      .ok (((l.map fun u => displayNameOf w u.UserID).insertionSort
          fun a b => ¬ (w.ToLower b < w.ToLower a)).filterMap
        fun k => (l.map fun u => (displayNameOf w u.UserID, u)).reverse.lookup k) := by
  simp [sortUserStandups, sortUserStandupsCollect_of_ok w l h]

theorem lookup_of_mem_nodup (m : List (String × UserStandup))
    (hn : (m.map Prod.fst).Nodup) (k : String) (v : UserStandup) (h : (k, v) ∈ m) :
    m.lookup k = some v := by
  induction m with
  | nil => simp at h
  | cons e rest ih =>
    rcases e with ⟨a, b⟩
    simp only [List.map_cons, List.nodup_cons] at hn
    rcases List.mem_cons.1 h with heq | hrest
    · cases heq
      simp [List.lookup]
    · have hka : (k == a) = false := by
        have : k ≠ a := by
          rintro rfl
          exact hn.1 (List.mem_map.2 ⟨(k, v), hrest, rfl⟩)
        simpa using this
      simp [List.lookup, hka, ih hn.2 hrest]

/-- When the display-name lookups succeed and the display names are pairwise
distinct, `sortUserStandups` returns a permutation of its input. -/
theorem sortUserStandups_perm (w : World) (l : List UserStandup)
    (h : ∀ u ∈ l, ∃ usr, w.GetUser u.UserID = .ok usr)
    (hn : (l.map fun u => displayNameOf w u.UserID).Nodup) :
    ∃ sorted, sortUserStandups w l = .ok sorted ∧ sorted.Perm l := by
  refine ⟨_, sortUserStandups_of_ok w l h, ?_⟩
  have hm : ∀ u ∈ l, (l.map fun u => (displayNameOf w u.UserID, u)).reverse.lookup
      (displayNameOf w u.UserID) = some u := by
    intro u hu
    apply lookup_of_mem_nodup
    · rw [List.map_reverse, List.nodup_reverse, List.map_map]
      exact hn
    · exact List.mem_reverse.2 (List.mem_map.2 ⟨u, hu, rfl⟩)
  have hp := (List.perm_insertionSort (fun a b => ¬ (w.ToLower b < w.ToLower a))
    (l.map fun u => displayNameOf w u.UserID)).filterMap
    fun k => (l.map fun u => (displayNameOf w u.UserID, u)).reverse.lookup k
  refine hp.trans ?_
  rw [List.filterMap_map]
  have : List.filterMap ((fun k =>
      (l.map fun u => (displayNameOf w u.UserID, u)).reverse.lookup k) ∘
      fun u => displayNameOf w u.UserID) l = List.filterMap some l :=
    List.filterMap_congr fun u hu => hm u hu
  rw [this, List.filterMap_some]

theorem mem_of_lookup (m : List (String × UserStandup)) (k : String) (v : UserStandup)
    (h : m.lookup k = some v) : (k, v) ∈ m := by
  induction m with
  | nil => simp at h
  | cons e rest ih =>
    rcases e with ⟨a, b⟩
    by_cases hka : k = a
    · subst hka
      simp [List.lookup] at h
      simp [h]
    · have hb : (k == a) = false := by simpa using hka
      simp only [List.lookup, hb] at h
      exact List.mem_cons_of_mem _ (ih h)

/-- C19: when the display-name lookups succeed, `sortUserStandups` returns a
list in non-decreasing order of the lower-cased display names of the users
of its standups; the display names of the returned list are the display
names of the given list, each as many times; every standup of the returned
list is a standup of the given list; and when the display names of the
given list are pairwise distinct, the returned list is the given list in
another order. -/
theorem C19_sorted_by_display_name (w : World) (userStandups : List UserStandup)
    (h : ∀ u ∈ userStandups, ∃ usr, w.GetUser u.UserID = .ok usr) :
    ∃ sorted, sortUserStandups w userStandups = .ok sorted ∧
      (sorted.map fun u => w.ToLower (displayNameOf w u.UserID)).Sorted (· ≤ ·) ∧
      (sorted.map fun u => displayNameOf w u.UserID).Perm
        (userStandups.map fun u => displayNameOf w u.UserID) ∧
      (∀ u ∈ sorted, u ∈ userStandups) ∧
      ((userStandups.map fun u => displayNameOf w u.UserID).Nodup →
        sorted.Perm userStandups) := by
  refine ⟨_, sortUserStandups_of_ok w userStandups h, ?_, ?_, ?_, ?_⟩
  · have hnames := filterMap_lookup_names w
      (userStandups.map fun u => (displayNameOf w u.UserID, u)).reverse
      (by
        intro e he
        simp only [List.mem_reverse, List.mem_map] at he
        obtain ⟨u, _, rfl⟩ := he
        rfl)
      ((userStandups.map fun u => displayNameOf w u.UserID).insertionSort
        fun a b => ¬ (w.ToLower b < w.ToLower a))
      (by
        intro k hk
        rw [List.mem_insertionSort] at hk
        simpa [Function.comp_def] using hk)
    have hmap : ∀ out : List UserStandup,
        (out.map fun u => w.ToLower (displayNameOf w u.UserID)) =
          (out.map fun u => displayNameOf w u.UserID).map w.ToLower := by
      intro out; simp
    rw [hmap, hnames]
    haveI : IsTotal String (fun a b => ¬ (w.ToLower b < w.ToLower a)) :=
      ⟨fun a b => by
        rcases le_total (w.ToLower a) (w.ToLower b) with h | h
        · exact Or.inl (not_lt.2 h)
        · exact Or.inr (not_lt.2 h)⟩
    haveI : IsTrans String (fun a b => ¬ (w.ToLower b < w.ToLower a)) :=
      ⟨fun a b c hab hbc => not_lt.2 (le_trans (not_lt.1 hab) (not_lt.1 hbc))⟩
    have hs := List.sorted_insertionSort (fun a b => ¬ (w.ToLower b < w.ToLower a))
      (userStandups.map fun u => displayNameOf w u.UserID)
    rw [List.Sorted, List.pairwise_map]
    exact hs.imp fun hab => not_lt.1 hab
  · have hnames := filterMap_lookup_names w
      (userStandups.map fun u => (displayNameOf w u.UserID, u)).reverse
      (by
        intro e he
        simp only [List.mem_reverse, List.mem_map] at he
        obtain ⟨u, _, rfl⟩ := he
        rfl)
      ((userStandups.map fun u => displayNameOf w u.UserID).insertionSort
        fun a b => ¬ (w.ToLower b < w.ToLower a))
      (by
        intro k hk
        rw [List.mem_insertionSort] at hk
        simpa [Function.comp_def] using hk)
    rw [hnames]
    exact List.perm_insertionSort _ _
  · intro u hu
    obtain ⟨k, _, hlk⟩ := List.mem_filterMap.1 hu
    have hmem := mem_of_lookup _ k u hlk
    obtain ⟨v, hv, hkv⟩ := List.mem_map.1 (List.mem_reverse.1 hmem)
    have huv : v = u := congrArg Prod.snd hkv
    rw [← huv]
    exact hv
  · intro hn
    obtain ⟨s2, hs2, hp⟩ := sortUserStandups_perm w userStandups h hn
    rw [sortUserStandups_of_ok w userStandups h] at hs2
    rw [Except.ok.inj hs2]
    exact hp

/-- The claim C19 on the standups of John Doe and Foo Bar, in that order: the
returned list is the standup of Foo Bar and then the standup of John Doe. -/
theorem C19_sorted_by_display_name_witness :
    (∀ u ∈ [(⟨"user_id_2", "channel_1", []⟩ : UserStandup), ⟨"user_id_1", "channel_1", []⟩],
      ∃ usr, (sampleWorld 43200 sampleConfigs emptyStore).GetUser u.UserID = .ok usr) ∧
    sortUserStandups (sampleWorld 43200 sampleConfigs emptyStore)
      [⟨"user_id_2", "channel_1", []⟩, ⟨"user_id_1", "channel_1", []⟩] =
      .ok [⟨"user_id_1", "channel_1", []⟩, ⟨"user_id_2", "channel_1", []⟩] ∧
    ∃ sorted, sortUserStandups (sampleWorld 43200 sampleConfigs emptyStore)
        [⟨"user_id_2", "channel_1", []⟩, ⟨"user_id_1", "channel_1", []⟩] = .ok sorted ∧
      (sorted.map fun u => (sampleWorld 43200 sampleConfigs emptyStore).ToLower
        (displayNameOf (sampleWorld 43200 sampleConfigs emptyStore) u.UserID)).Sorted
        (· ≤ ·) ∧
      (sorted.map fun u =>
        displayNameOf (sampleWorld 43200 sampleConfigs emptyStore) u.UserID).Perm
        ([(⟨"user_id_2", "channel_1", []⟩ : UserStandup), ⟨"user_id_1", "channel_1", []⟩].map
          fun u => displayNameOf (sampleWorld 43200 sampleConfigs emptyStore) u.UserID) ∧
      (∀ u ∈ sorted, u ∈ [(⟨"user_id_2", "channel_1", []⟩ : UserStandup),
        ⟨"user_id_1", "channel_1", []⟩]) ∧
      (([(⟨"user_id_2", "channel_1", []⟩ : UserStandup), ⟨"user_id_1", "channel_1", []⟩].map
          fun u => displayNameOf (sampleWorld 43200 sampleConfigs emptyStore) u.UserID).Nodup →
        sorted.Perm [⟨"user_id_2", "channel_1", []⟩, ⟨"user_id_1", "channel_1", []⟩]) :=
  have h : ∀ u ∈ [(⟨"user_id_2", "channel_1", []⟩ : UserStandup),
      ⟨"user_id_1", "channel_1", []⟩],
      ∃ usr, (sampleWorld 43200 sampleConfigs emptyStore).GetUser u.UserID = .ok usr := by
    intro u hu
    simp only [List.mem_cons, List.mem_singleton, List.not_mem_nil, or_false] at hu
    rcases hu with rfl | rfl
    · exact ⟨_, rfl⟩
    · exact ⟨_, rfl⟩
  ⟨h, by decide!, C19_sorted_by_display_name _ _ h⟩

/-- C20, the code at the failing input: of the standups of two users who are
both called John Doe, `sortUserStandups` returns the second one twice and
drops the first. -/
theorem C20_same_display_name_drops_standup :
    (sampleWorld 43200 sampleConfigs emptyStore).GetUser "user_id_2" =
      .ok ⟨"john", "system_user system_admin", "John Doe"⟩ ∧
    (sampleWorld 43200 sampleConfigs emptyStore).GetUser "user_id_3" =
      .ok ⟨"johnny", "system_user", "John Doe"⟩ ∧
    sortUserStandups (sampleWorld 43200 sampleConfigs emptyStore)
        [⟨"user_id_2", "channel_1", [("section 1", ["task_1"])]⟩,
         ⟨"user_id_3", "channel_1", [("section 1", ["task_2"])]⟩] =
      .ok [⟨"user_id_3", "channel_1", [("section 1", ["task_2"])]⟩,
           ⟨"user_id_3", "channel_1", [("section 1", ["task_2"])]⟩] := by
  decide!

/-- C17, the code at the failing input: on the list of `channel_8`, whose
members have all submitted, and `channel_1`, where a member has not, every
host call succeeds, `sendWindowCloseNotification` returns at `channel_8`
without error, and `channel_1` gets no reminder post and keeps its status;
called on `channel_1` alone it creates the reminder post and marks the
status. -/
theorem C17_returns_at_channel_without_pending :
    collectUsersPendingStandup (sampleWorld 39300 everyChannelConfigured emptyStore)
      "channel_1" (sampleConfig "channel_1") (sampleConfig "channel_1").Members [] =
      .ok ["john"] ∧
    (sendWindowCloseNotification (sampleWorld 39300 everyChannelConfigured emptyStore)
      ["channel_8", "channel_1"]).1 = none ∧
    (sendWindowCloseNotification (sampleWorld 39300 everyChannelConfigured emptyStore)
      ["channel_8", "channel_1"]).2.posts = [] ∧
    HasStatus (sendWindowCloseNotification (sampleWorld 39300 everyChannelConfigured emptyStore)
      ["channel_8", "channel_1"]).2 "channel_1" ⟨false, false, false⟩ ∧
    (sendWindowCloseNotification (sampleWorld 39300 everyChannelConfigured emptyStore)
      ["channel_1"]).2.posts =
      [⟨"post_0", "channel_1", "bot_user_id", "",
        "@john - a gentle reminder to fill your standup."⟩] ∧
    HasStatus (sendWindowCloseNotification (sampleWorld 39300 everyChannelConfigured emptyStore)
      ["channel_1"]).2 "channel_1" ⟨false, true, false⟩ := by
  decide!

/-! ## The entry point -/

/-- C16: `SendNotificationsAndReports` returns the error of fetching the
standup channels or of filtering them, and leaves the host as it was; it
returns the error of sending the window close notifications, and otherwise
the error of sending the reports; when these four succeed it returns no
error, whatever happened while the window open notifications were sent;
and without standup channels it returns no error and leaves the host as it
was. -/
theorem C16_entry_point_errors (w : World) :
    (∀ e, w.GetStandupChannels = .error e → SendNotificationsAndReports w = (some e, w)) ∧
    (∀ ids e, w.GetStandupChannels = .ok ids →
      (filterChannelNotification w ids).1.err = some e →
      SendNotificationsAndReports w = (some e, w)) ∧
    (∀ ids o c r, w.GetStandupChannels = .ok ids →
      (filterChannelNotification w ids).1 = ⟨o, c, r, none⟩ →
      (∀ e, (sendWindowCloseNotification (sendWindowOpenNotification w o) c).1 = some e →
        (SendNotificationsAndReports w).1 = some e) ∧
      ((sendWindowCloseNotification (sendWindowOpenNotification w o) c).1 = none →
        (SendNotificationsAndReports w).1 =
          (sendAllStandupReport
            (sendWindowCloseNotification (sendWindowOpenNotification w o) c).2 r).1)) ∧
    (w.GetStandupChannels = .ok [] → SendNotificationsAndReports w = (none, w)) := by
  refine ⟨fun e h => ?_, fun ids e h hf => ?_, fun ids o c r h hf => ⟨fun e hc => ?_, fun hc => ?_⟩,
    fun h => ?_⟩
  · simp [SendNotificationsAndReports, h]
  · rcases hr : (filterChannelNotification w ids).1 with ⟨o, c, r, err⟩
    rw [hr] at hf
    simp only at hf
    subst hf
    simp [SendNotificationsAndReports, h, hr]
  · rcases hcl : sendWindowCloseNotification (sendWindowOpenNotification w o) c with ⟨ce, w2⟩
    rw [hcl] at hc
    simp only at hc
    subst hc
    simp [SendNotificationsAndReports, h, hf, hcl]
  · rcases hcl : sendWindowCloseNotification (sendWindowOpenNotification w o) c with ⟨ce, w2⟩
    rw [hcl] at hc
    simp only at hc
    subst hc
    rcases hrp : sendAllStandupReport w2 r with ⟨re, w3⟩
    cases re <;> simp [SendNotificationsAndReports, h, hf, hcl, hrp]
  · simp [SendNotificationsAndReports, h, filterChannelNotification,
      filterChannelNotificationLoop, sendWindowOpenNotification, sendWindowCloseNotification,
      sendAllStandupReport]

/-! ## Sending the report -/

/-- An iteration of `SendStandupReport` builds the report, delivers it,
deletes the reminder posts and updates the status. -/
theorem sendStandupReportChannel_eq (w : World) (ch : String) (date : OTime)
    (vis uid : String) (upd : Bool) :
    sendStandupReportChannel w ch date vis uid upd =
      match reportFor w ch date with
      | .error e => (.ret (some e), w)
      | .ok post =>
        match deliverReport w post vis uid with
        | (some e, w1) => (.ret (some e), w1)
        | (none, w1) => updateReportStatus (deleteReminderPosts w1 ch).2 ch upd := by
  unfold sendStandupReportChannel reportFor deliverReport
  rcases w.GetStandupConfig ch with e | (_ | c)
  · rfl
  · rfl
  · simp only
    rcases collectUserStandups w ch date c.Members [] [] with e | ⟨members, no⟩
    · rfl
    · simp only
      rcases sortUserStandups w members with e | sorted
      · rfl
      · simp only
        rcases generateReport w c sorted no ch date with e | post
        · rfl
        · simp only
          by_cases hv : vis = ReportVisibilityPrivate
          · simp [hv]
          · simp only [hv, if_false]
            rcases w.CreatePost post with ⟨res, w1⟩
            rcases res with e | p
            · rfl
            · rfl

theorem SendStandupReport_cons (w : World) (ch : String) (rest : List String) (date : OTime)
    (vis uid : String) (upd : Bool) :
    SendStandupReport w (ch :: rest) date vis uid upd =
      match sendStandupReportChannel w ch date vis uid upd with
      | (.ret err, w1) => (err, w1)
      | (.next, w1) => SendStandupReport w1 rest date vis uid upd := by
  rw [SendStandupReport]

theorem updateReportStatus_ne_ret_none (w w1 : World) (ch : String) (upd : Bool) :
    updateReportStatus w ch upd ≠ (.ret none, w1) := by
  unfold updateReportStatus
  cases upd
  · simp
  · simp only [if_true]
    rcases (GetNotificationStatus w ch).1 with e | st
    · simp
    · simp only
      rcases SetNotificationStatus w ch { st with StandupReportSent := true } with ⟨err, w2⟩
      cases err <;> simp

/-- An iteration of `SendStandupReport` goes on to the next channel or
returns an error: it never makes the function return without error. -/
theorem sendStandupReportChannel_ne_ret_none (w w1 : World) (ch : String) (date : OTime)
    (vis uid : String) (upd : Bool) :
    sendStandupReportChannel w ch date vis uid upd ≠ (.ret none, w1) := by
  rw [sendStandupReportChannel_eq]
  rcases reportFor w ch date with e | post
  · simp
  · simp only
    rcases deliverReport w post vis uid with ⟨err, w2⟩
    cases err
    · exact updateReportStatus_ne_ret_none _ _ _ _
    · simp

theorem SendStandupReport_append (date : OTime) (vis uid : String) (upd : Bool)
    (pre : List String) :
    ∀ (w : World) (rest : List String),
      SendStandupReport w (pre ++ rest) date vis uid upd =
        match SendStandupReport w pre date vis uid upd with
        | (some e, w1) => (some e, w1)
        | (none, w1) => SendStandupReport w1 rest date vis uid upd := by
  induction pre with
  | nil => intro w rest; simp [SendStandupReport]
  | cons ch pre ih =>
    intro w rest
    rw [List.cons_append, SendStandupReport_cons, SendStandupReport_cons]
    rcases hb : sendStandupReportChannel w ch date vis uid upd with ⟨st, w1⟩
    rcases st with _ | err
    · exact ih w1 rest
    · cases err
      · exact absurd hb (sendStandupReportChannel_ne_ret_none w w1 ch date vis uid upd)
      · rfl

/-! ## What the host calls change -/

theorem setting_KVSet (w : World) (k v : String) : (w.KVSet k v).2.setting = w.setting := by
  unfold World.KVSet
  cases w.kvSetError k v <;> rfl

theorem setting_KVDelete (w : World) (k : String) : (w.KVDelete k).2.setting = w.setting := by
  unfold World.KVDelete
  cases w.kvDeleteError k <;> rfl

theorem setting_CreatePost (w : World) (p : Post) : (w.CreatePost p).2.setting = w.setting := by
  unfold World.CreatePost
  cases w.createPostError p <;> rfl

theorem setting_DeletePost (w : World) (i : String) : (w.DeletePost i).2.setting = w.setting := by
  unfold World.DeletePost
  cases w.deletePostError i <;> rfl

theorem setting_SendEphemeralPost (w : World) (u : String) (p : Post) :
    (w.SendEphemeralPost u p).setting = w.setting := rfl

theorem posts_KVSet (w : World) (k v : String) :
    (w.KVSet k v).2.posts = w.posts ∧ (w.KVSet k v).2.ephemeralPosts = w.ephemeralPosts := by
  unfold World.KVSet
  cases w.kvSetError k v <;> exact ⟨rfl, rfl⟩

theorem posts_KVDelete (w : World) (k : String) :
    (w.KVDelete k).2.posts = w.posts ∧ (w.KVDelete k).2.ephemeralPosts = w.ephemeralPosts := by
  unfold World.KVDelete
  cases w.kvDeleteError k <;> exact ⟨rfl, rfl⟩

theorem posts_DeletePost (w : World) (i : String) :
    (w.DeletePost i).2.posts = w.posts ∧ (w.DeletePost i).2.ephemeralPosts = w.ephemeralPosts ∧
      (w.DeletePost i).2.kv = w.kv := by
  unfold World.DeletePost
  cases w.deletePostError i <;> exact ⟨rfl, rfl, rfl⟩

theorem setting_SetNotificationStatus (w : World) (ch : String)
    (s : ChannelNotificationStatus) : (SetNotificationStatus w ch s).2.setting = w.setting := by
  unfold SetNotificationStatus
  rcases w.GetStandupConfig ch with e | (_ | c)
  · rfl
  · rfl
  · simp only
    rcases w.jsonMarshal s with e | b
    · rfl
    · simp only
      have h := setting_KVSet w (w.GetKeyHash (notificationStatusKey w ch c)) b
      generalize w.KVSet (w.GetKeyHash (notificationStatusKey w ch c)) b = x at h ⊢
      rcases x with ⟨err, w1⟩
      cases err <;> exact h

theorem posts_SetNotificationStatus (w : World) (ch : String)
    (s : ChannelNotificationStatus) :
    (SetNotificationStatus w ch s).2.posts = w.posts ∧
      (SetNotificationStatus w ch s).2.ephemeralPosts = w.ephemeralPosts := by
  unfold SetNotificationStatus
  rcases w.GetStandupConfig ch with e | (_ | c)
  · exact ⟨rfl, rfl⟩
  · exact ⟨rfl, rfl⟩
  · simp only
    rcases w.jsonMarshal s with e | b
    · exact ⟨rfl, rfl⟩
    · simp only
      have h := posts_KVSet w (w.GetKeyHash (notificationStatusKey w ch c)) b
      generalize w.KVSet (w.GetKeyHash (notificationStatusKey w ch c)) b = x at h ⊢
      rcases x with ⟨err, w1⟩
      cases err <;> exact h

theorem deleteReminderPostsLoop_frame (ids : List String) :
    ∀ w : World, (deleteReminderPostsLoop w ids).setting = w.setting ∧
      (deleteReminderPostsLoop w ids).posts = w.posts ∧
      (deleteReminderPostsLoop w ids).ephemeralPosts = w.ephemeralPosts ∧
      (deleteReminderPostsLoop w ids).kv = w.kv := by
  induction ids with
  | nil => intro w; exact ⟨rfl, rfl, rfl, rfl⟩
  | cons i rest ih =>
    intro w
    unfold deleteReminderPostsLoop
    have h1 := setting_DeletePost w i
    have h2 := posts_DeletePost w i
    generalize w.DeletePost i = x at h1 h2 ⊢
    rcases x with ⟨err, w1⟩
    obtain ⟨a, b, c, d⟩ := ih w1
    cases err <;> exact ⟨a.trans h1, b.trans h2.1, c.trans h2.2.1, d.trans h2.2.2⟩

theorem deleteReminderPosts_frame (w : World) (ch : String) :
    (deleteReminderPosts w ch).2.setting = w.setting ∧
      (deleteReminderPosts w ch).2.posts = w.posts ∧
      (deleteReminderPosts w ch).2.ephemeralPosts = w.ephemeralPosts := by
  unfold deleteReminderPosts
  rcases getReminderPosts w ch with e | ids
  · exact ⟨rfl, rfl, rfl⟩
  · simp only
    obtain ⟨a, b, c, _⟩ := deleteReminderPostsLoop_frame ids w
    have h1 := setting_KVDelete (deleteReminderPostsLoop w ids)
      ((deleteReminderPostsLoop w ids).GetKeyHash (reminderPostsKey ch))
    have h2 := posts_KVDelete (deleteReminderPostsLoop w ids)
      ((deleteReminderPostsLoop w ids).GetKeyHash (reminderPostsKey ch))
    generalize (deleteReminderPostsLoop w ids).KVDelete
      ((deleteReminderPostsLoop w ids).GetKeyHash (reminderPostsKey ch)) = x at h1 h2 ⊢
    rcases x with ⟨err, w2⟩
    cases err <;> exact ⟨h1.trans a, h2.1.trans b, h2.2.trans c⟩

theorem updateReportStatus_frame (w : World) (ch : String) (upd : Bool) :
    (updateReportStatus w ch upd).2.setting = w.setting ∧
      (updateReportStatus w ch upd).2.posts = w.posts ∧
      (updateReportStatus w ch upd).2.ephemeralPosts = w.ephemeralPosts := by
  unfold updateReportStatus
  cases upd
  · exact ⟨rfl, rfl, rfl⟩
  · simp only [if_true]
    rcases (GetNotificationStatus w ch).1 with e | st
    · exact ⟨rfl, rfl, rfl⟩
    · simp only
      have h1 := setting_SetNotificationStatus w ch { st with StandupReportSent := true }
      have h2 := posts_SetNotificationStatus w ch { st with StandupReportSent := true }
      generalize SetNotificationStatus w ch { st with StandupReportSent := true } = x at h1 h2 ⊢
      rcases x with ⟨err, w1⟩
      cases err <;> exact ⟨h1, h2.1, h2.2⟩

theorem generateReport_channel (w : World) (c : Config) (members : List UserStandup)
    (no : List String) (ch : String) (date : OTime) (post : Post)
    (h : generateReport w c members no ch date = .ok post) :
    post.ChannelId = ch ∧ post.UserId = w.BotUserID := by
  unfold generateReport at h
  split_ifs at h
  · unfold generateTypeAggregatedStandupReport at h
    split at h
    · simp at h
    · simp only [Except.ok.injEq] at h
      subst h
      exact ⟨rfl, rfl⟩
  · unfold generateUserAggregatedStandupReport at h
    split at h
    · simp at h
    · simp only [Except.ok.injEq] at h
      subst h
      exact ⟨rfl, rfl⟩

theorem reportFor_channel (w : World) (ch : String) (date : OTime) (post : Post)
    (h : reportFor w ch date = .ok post) : post.ChannelId = ch ∧ post.UserId = w.BotUserID := by
  unfold reportFor at h
  split at h
  · simp at h
  · simp at h
  · split at h
    · simp at h
    · split at h
      · simp at h
      · exact generateReport_channel w _ _ _ ch date post h

/-- C13: in an iteration of `SendStandupReport` that has built its report,
the report is a post of the channel; with visibility "private" it is sent as
one ephemeral post to the `userID` of the call and no post is created; with
any other visibility, when the host refuses the post `SendStandupReport`
returns the host's error and nothing is changed, and otherwise exactly that
post is created, with the ID the host gives it, and no ephemeral post is
sent. -/
theorem C13_report_delivery (w : World) (ch : String) (date : OTime) (vis uid : String)
    (upd : Bool) (post : Post) (hrep : reportFor w ch date = .ok post) :
    post.ChannelId = ch ∧
    (vis = ReportVisibilityPrivate →
      (sendStandupReportChannel w ch date vis uid upd).2.ephemeralPosts =
        w.ephemeralPosts ++ [(uid, post)] ∧
      (sendStandupReportChannel w ch date vis uid upd).2.posts = w.posts) ∧
    (vis ≠ ReportVisibilityPrivate →
      (∀ e, w.createPostError post = some e →
        ∀ rest, SendStandupReport w (ch :: rest) date vis uid upd = (some e, w)) ∧
      (w.createPostError post = none →
        (sendStandupReportChannel w ch date vis uid upd).2.posts =
          w.posts ++ [{ post with Id := w.newPostID w.posts.length }] ∧
        (sendStandupReportChannel w ch date vis uid upd).2.ephemeralPosts =
          w.ephemeralPosts)) := by
  refine ⟨(reportFor_channel w ch date post hrep).1, fun hv => ?_, fun hv => ⟨fun e he rest => ?_,
    fun hok => ?_⟩⟩
  · rw [sendStandupReportChannel_eq, hrep]
    simp only [deliverReport, hv, if_true]
    obtain ⟨_, a, b⟩ := deleteReminderPosts_frame (w.SendEphemeralPost uid post) ch
    obtain ⟨_, c, d⟩ := updateReportStatus_frame
      (deleteReminderPosts (w.SendEphemeralPost uid post) ch).2 ch upd
    exact ⟨d.trans b, c.trans a⟩
  · rw [SendStandupReport_cons, sendStandupReportChannel_eq, hrep]
    simp [deliverReport, hv, World.CreatePost, he]
  · rw [sendStandupReportChannel_eq, hrep]
    simp only [deliverReport, hv, if_false, World.CreatePost, hok]
    obtain ⟨_, a, b⟩ := deleteReminderPosts_frame
      { w with posts := w.posts ++ [{ post with Id := w.newPostID w.posts.length }] } ch
    obtain ⟨_, c, d⟩ := updateReportStatus_frame
      (deleteReminderPosts
        { w with posts := w.posts ++ [{ post with Id := w.newPostID w.posts.length }] } ch).2
      ch upd
    exact ⟨c.trans a, d.trans b⟩

/-- C14: for a configuration whose report format is neither of the two known
formats, `generateReport` returns its unknown-format error and no post; and
`SendStandupReport`, on a list that starts with a channel of such a
configuration, returns an error and leaves the host as it was, so that no
post, public or ephemeral, is created for the channel or for a channel after
it; the error is that of `generateReport` when the standups of the members
were collected and sorted. After channels that were processed without error
the same holds, the host being left as these channels left it. -/
theorem C14_unknown_report_format (w : World) (ch : String) (c : Config) (date : OTime)
    (vis uid : String) (upd : Bool)
    (hc : w.GetStandupConfig ch = .ok (some c))
    (h1 : c.ReportFormat ≠ w.ReportFormatTypeAggregated)
    (h2 : c.ReportFormat ≠ w.ReportFormatUserAggregated) :
    (∀ members no, generateReport w c members no ch date =
      .error (unknownReportFormat ch c.ReportFormat)) ∧
    (∀ rest, ∃ e, SendStandupReport w (ch :: rest) date vis uid upd = (some e, w)) ∧
    (∀ rest members no sorted, collectUserStandups w ch date c.Members [] [] = .ok (members, no) →
      sortUserStandups w members = .ok sorted →
      SendStandupReport w (ch :: rest) date vis uid upd =
        (some (unknownReportFormat ch c.ReportFormat), w)) ∧
    (∀ w0 pre rest, SendStandupReport w0 pre date vis uid upd = (none, w) →
      ∃ e, SendStandupReport w0 (pre ++ ch :: rest) date vis uid upd = (some e, w)) := by
  have hgen : ∀ members no, generateReport w c members no ch date =
      .error (unknownReportFormat ch c.ReportFormat) := by
    intro members no
    simp [generateReport, h1, h2, unknownReportFormat]
  have hrep : ∃ e, reportFor w ch date = .error e := by
    unfold reportFor
    simp only [hc]
    rcases collectUserStandups w ch date c.Members [] [] with e | ⟨members, no⟩
    · exact ⟨e, rfl⟩
    · simp only
      rcases sortUserStandups w members with e | sorted
      · exact ⟨e, rfl⟩
      · exact ⟨_, hgen sorted no⟩
  have hsend : ∀ rest, ∃ e, SendStandupReport w (ch :: rest) date vis uid upd = (some e, w) := by
    intro rest
    obtain ⟨e, he⟩ := hrep
    exact ⟨e, by rw [SendStandupReport_cons, sendStandupReportChannel_eq, he]⟩
  refine ⟨hgen, hsend, fun rest members no sorted hcol hsort => ?_, fun w0 pre rest hpre => ?_⟩
  · have : reportFor w ch date = .error (unknownReportFormat ch c.ReportFormat) := by
      unfold reportFor
      simp only [hc, hcol, hsort]
      exact hgen sorted no
    rw [SendStandupReport_cons, sendStandupReportChannel_eq, this]
  · obtain ⟨e, he⟩ := hsend rest
    exact ⟨e, by rw [SendStandupReport_append, hpre]; exact he⟩

/-! ## The store along the sending functions -/

theorem setting_fields (w w' : World) (h : w'.setting = w.setting) :
    w'.GetStandupConfig = w.GetStandupConfig ∧ w'.GetKeyHash = w.GetKeyHash ∧
    w'.CacheKeyPrefixNotificationStatus = w.CacheKeyPrefixNotificationStatus ∧
    w'.GetCurrentDateString = w.GetCurrentDateString ∧
    w'.jsonMarshal = w.jsonMarshal ∧ w'.jsonUnmarshal = w.jsonUnmarshal :=
  ⟨(congrArg World.GetStandupConfig h :), (congrArg World.GetKeyHash h :),
    (congrArg World.CacheKeyPrefixNotificationStatus h :),
    (congrArg World.GetCurrentDateString h :), (congrArg World.jsonMarshal h :),
    (congrArg World.jsonUnmarshal h :)⟩

theorem statusKeyHash_of_setting (w w' : World) (h : w'.setting = w.setting) (ch : String)
    (c : Config) : statusKeyHash w' ch c = statusKeyHash w ch c := by
  obtain ⟨_, h2, h3, h4, _, _⟩ := setting_fields w w' h
  simp [statusKeyHash, notificationStatusKey, h2, h3, h4]

theorem reminderKeyHash_of_setting (w w' : World) (h : w'.setting = w.setting) (ch : String) :
    reminderKeyHash w' ch = reminderKeyHash w ch := by
  obtain ⟨_, h2, _⟩ := setting_fields w w' h
  simp [reminderKeyHash, h2]

/-- The status of a channel is read off the setting and the store under the
channel's status key. -/
theorem getStatus_eq (w : World) (ch : String) (c : Config)
    (hc : w.GetStandupConfig ch = .ok (some c)) :
    (GetNotificationStatus w ch).1 =
      match w.kv (statusKeyHash w ch c) with
      | .error e => .error e
      | .ok data =>
        if data.length = 0 then .ok ⟨false, false, false⟩ else w.jsonUnmarshal data := by
  unfold GetNotificationStatus
  simp only [hc, World.KVGet, statusKeyHash]
  rcases w.kv (w.GetKeyHash (notificationStatusKey w ch c)) with e | data
  · rfl
  · simp only
    split_ifs
    · rfl
    · rcases w.jsonUnmarshal data with e | st <;> rfl

theorem getStatus_of_no_config (w : World) (ch : String)
    (hc : ∀ c, w.GetStandupConfig ch ≠ .ok (some c)) :
    ∃ e, (GetNotificationStatus w ch).1 = .error e := by
  unfold GetNotificationStatus
  rcases h : w.GetStandupConfig ch with e | (_ | c)
  · exact ⟨e, rfl⟩
  · exact ⟨_, rfl⟩
  · exact absurd h (hc c)

/-- A successful `SetNotificationStatus` stores the encoded status under the
channel's status key and changes nothing else. -/
theorem SetNotificationStatus_ok (w w1 : World) (ch : String) (c : Config)
    (s : ChannelNotificationStatus) (hc : w.GetStandupConfig ch = .ok (some c))
    (h : SetNotificationStatus w ch s = (none, w1)) :
    ∃ b, w.jsonMarshal s = .ok b ∧
      w1 = { w with kv := fun k => if k = statusKeyHash w ch c then .ok b else w.kv k } := by
  unfold SetNotificationStatus at h
  simp only [hc] at h
  rcases hm : w.jsonMarshal s with e | b
  · simp [hm] at h
  · simp only [hm, World.KVSet] at h
    rcases hk : w.kvSetError (w.GetKeyHash (notificationStatusKey w ch c)) b with _ | e
    · simp only [hk, Prod.mk.injEq, true_and] at h
      exact ⟨b, rfl, h.symm⟩
    · simp [hk] at h

/-- A `SetNotificationStatus` that returns an error changes nothing. -/
theorem SetNotificationStatus_error (w w1 : World) (ch e : String)
    (s : ChannelNotificationStatus) (h : SetNotificationStatus w ch s = (some e, w1)) :
    w1 = w := by
  unfold SetNotificationStatus at h
  rcases hc : w.GetStandupConfig ch with e' | (_ | c)
  · simp only [hc, Prod.mk.injEq] at h; exact h.2.symm
  · simp only [hc, Prod.mk.injEq] at h; exact h.2.symm
  · simp only [hc] at h
    rcases hm : w.jsonMarshal s with e' | b
    · simp only [hm, Prod.mk.injEq] at h; exact h.2.symm
    · simp only [hm, World.KVSet] at h
      rcases hk : w.kvSetError (w.GetKeyHash (notificationStatusKey w ch c)) b with _ | e'
      · simp [hk] at h
      · simp only [hk, Prod.mk.injEq] at h; exact h.2.symm

/-- The store after `deleteReminderPosts`: every key is as before, or is the
key of the channel's reminder posts and holds nothing. -/
theorem deleteReminderPosts_kv (w : World) (ch : String) (k : String) :
    (deleteReminderPosts w ch).2.kv k = w.kv k ∨
      (k = reminderKeyHash w ch ∧ (deleteReminderPosts w ch).2.kv k = .ok "") := by
  unfold deleteReminderPosts
  rcases getReminderPosts w ch with e | ids
  · exact Or.inl rfl
  · simp only
    obtain ⟨hs, _, _, hkv⟩ := deleteReminderPostsLoop_frame ids w
    have hh : (deleteReminderPostsLoop w ids).GetKeyHash = w.GetKeyHash :=
      (setting_fields w _ hs).2.1
    unfold World.KVDelete
    rcases (deleteReminderPostsLoop w ids).kvDeleteError
      ((deleteReminderPostsLoop w ids).GetKeyHash (reminderPostsKey ch)) with _ | e
    · simp only [hh, hkv, reminderKeyHash]
      by_cases hk : k = w.GetKeyHash (reminderPostsKey ch)
      · exact Or.inr ⟨hk, by simp [hk]⟩
      · exact Or.inl (by simp [hk])
    · exact Or.inl (congrFun hkv k)

theorem deliverReport_frame (w w1 : World) (post : Post) (vis uid : String)
    (e : Option String) (h : deliverReport w post vis uid = (e, w1)) :
    w1.setting = w.setting ∧ w1.kv = w.kv := by
  unfold deliverReport at h
  split_ifs at h
  · cases h
    exact ⟨rfl, rfl⟩
  · unfold World.CreatePost at h
    rcases hx : w.createPostError post with _ | e'
    · simp only [hx, Prod.mk.injEq] at h
      rw [← h.2]
      exact ⟨rfl, rfl⟩
    · simp only [hx, Prod.mk.injEq] at h
      rw [← h.2]
      exact ⟨rfl, rfl⟩

theorem SetNotificationStatus_config (w w1 : World) (ch : String)
    (s : ChannelNotificationStatus) (h : SetNotificationStatus w ch s = (none, w1)) :
    ∃ c, w.GetStandupConfig ch = .ok (some c) := by
  unfold SetNotificationStatus at h
  rcases hc : w.GetStandupConfig ch with e | (_ | c)
  · simp [hc] at h
  · simp [hc] at h
  · exact ⟨c, rfl⟩

/-- The four ways in which the update of the status at the end of an
iteration of `SendStandupReport` ends: no update is asked for; the status
cannot be read, and nothing is written; the write fails, and the function
returns its error; the status read, with `StandupReportSent` set, is stored
under the channel's status key. -/
theorem updateReportStatus_cases (w w' : World) (ch : String) (upd : Bool) (r : Step)
    (h : updateReportStatus w ch upd = (r, w')) :
    (upd = false ∧ r = .next ∧ w' = w) ∨
    (upd = true ∧ r = .next ∧ w' = w ∧ ∀ st, ¬ HasStatus w ch st) ∨
    (upd = true ∧ (∃ e, r = .ret (some e)) ∧ w' = w) ∨
    (upd = true ∧ r = .next ∧ ∃ c st b, w.GetStandupConfig ch = .ok (some c) ∧
      HasStatus w ch st ∧
      w.jsonMarshal ⟨st.WindowOpenNotificationSent, st.WindowCloseNotificationSent, true⟩ =
        .ok b ∧
      w' = { w with kv := fun k => if k = statusKeyHash w ch c then .ok b else w.kv k }) := by
  unfold updateReportStatus at h
  cases upd
  · simp only [Bool.false_eq_true, if_false, Prod.mk.injEq] at h
    exact Or.inl ⟨rfl, h.1.symm, h.2.symm⟩
  · simp only [if_true] at h
    rcases hst : (GetNotificationStatus w ch).1 with e | st
    · simp only [hst, Prod.mk.injEq] at h
      refine Or.inr (Or.inl ⟨rfl, h.1.symm, h.2.symm, fun st hs => ?_⟩)
      unfold HasStatus at hs
      rw [hst] at hs
      exact Except.noConfusion hs
    · simp only [hst] at h
      rcases hset : SetNotificationStatus w ch { st with StandupReportSent := true } with
        ⟨err, w1⟩
      rw [hset] at h
      rcases err with _ | e
      · simp only [Prod.mk.injEq] at h
        obtain ⟨c, hc⟩ := SetNotificationStatus_config w w1 ch _ hset
        obtain ⟨b, hb, hw⟩ := SetNotificationStatus_ok w w1 ch c _ hc hset
        exact Or.inr (Or.inr (Or.inr ⟨rfl, h.1.symm, c, st, b, hc, hst, hb, by rw [← h.2, hw]⟩))
      · simp only [Prod.mk.injEq] at h
        refine Or.inr (Or.inr (Or.inl ⟨rfl, ⟨e, h.1.symm⟩, ?_⟩))
        rw [← h.2]
        exact SetNotificationStatus_error w w1 ch e _ hset

/-- What the status is after the encoded status `s` is stored under the status
key of a channel: `s` for that channel, and for any other channel what it
was, unless its status key is the same. -/
theorem hasStatus_after_write (w : World) (ch : String) (c : Config)
    (s : ChannelNotificationStatus) (b : String) (hcodec : StatusCodec w)
    (hb : w.jsonMarshal s = .ok b) (ch2 : String) (st : ChannelNotificationStatus)
    (h : HasStatus
      { w with kv := fun k => if k = statusKeyHash w ch c then .ok b else w.kv k } ch2 st) :
    st = s ∨ HasStatus w ch2 st := by
  obtain ⟨hlen, hdec⟩ := hcodec s b hb
  unfold HasStatus at h ⊢
  rcases hc2 : w.GetStandupConfig ch2 with e | (_ | c2)
  · right
    simp only [GetNotificationStatus, hc2] at h ⊢
    exact h
  · right
    simp only [GetNotificationStatus, hc2] at h ⊢
    exact h
  · have hc2' : ({ w with kv := fun k => if k = statusKeyHash w ch c then .ok b else w.kv k } :
        World).GetStandupConfig ch2 = .ok (some c2) := hc2
    rw [getStatus_eq _ ch2 c2 hc2'] at h
    rw [getStatus_eq w ch2 c2 hc2]
    have hk : statusKeyHash
        { w with kv := fun k => if k = statusKeyHash w ch c then .ok b else w.kv k } ch2 c2 =
        statusKeyHash w ch2 c2 := rfl
    rw [hk] at h
    by_cases heq : statusKeyHash w ch2 c2 = statusKeyHash w ch c
    · left
      simp only [heq, if_true, hlen, if_false] at h
      rw [show ({ w with kv := fun k => if k = statusKeyHash w ch c then .ok b else w.kv k } :
        World).jsonUnmarshal = w.jsonUnmarshal from rfl, hdec] at h
      exact (Except.ok.inj h).symm
    · right
      simp only [heq, if_false] at h
      exact h

theorem statusCodec_of_setting (w w' : World) (h : w'.setting = w.setting)
    (hc : StatusCodec w) : StatusCodec w' := by
  obtain ⟨_, _, _, _, h5, h6⟩ := setting_fields w w' h
  intro s b hb
  rw [h5] at hb
  rw [h6]
  exact hc s b hb

/-- Two worlds with the same setting, whose stores agree under the status key
of a channel, give the same status for the channel. -/
theorem getStatus_congr (w w' : World) (ch : String) (hs : w'.setting = w.setting)
    (hk : ∀ c, w.GetStandupConfig ch = .ok (some c) →
      w'.kv (statusKeyHash w ch c) = w.kv (statusKeyHash w ch c)) :
    (GetNotificationStatus w' ch).1 = (GetNotificationStatus w ch).1 := by
  obtain ⟨h1, _, _, _, _, h6⟩ := setting_fields w w' hs
  rcases hc : w.GetStandupConfig ch with e | (_ | c)
  · have hc' : w'.GetStandupConfig ch = .error e := by rw [h1]; exact hc
    simp [GetNotificationStatus, hc, hc']
  · have hc' : w'.GetStandupConfig ch = .ok none := by rw [h1]; exact hc
    simp [GetNotificationStatus, hc, hc']
  · have hc' : w'.GetStandupConfig ch = .ok (some c) := by rw [h1]; exact hc
    rw [getStatus_eq w' ch c hc', getStatus_eq w ch c hc, statusKeyHash_of_setting w w' hs,
      hk c hc, h6]

theorem reportMarked_congr (w w' : World) (ch : String) (hs : w'.setting = w.setting)
    (hk : ∀ c, w.GetStandupConfig ch = .ok (some c) →
      w'.kv (statusKeyHash w ch c) = w.kv (statusKeyHash w ch c))
    (hm : ReportMarked w ch) : ReportMarked w' ch := by
  obtain ⟨st, hst, hsent⟩ := hm
  refine ⟨st, ?_, hsent⟩
  unfold HasStatus at hst ⊢
  rw [getStatus_congr w w' ch hs hk]
  exact hst

/-- A channel whose status is readable and marked stays so when a marked
status is stored under the status key of any channel. -/
theorem reportMarked_after_write (w : World) (ch2 : String) (c2 : Config)
    (s : ChannelNotificationStatus) (b : String) (hcodec : StatusCodec w)
    (hb : w.jsonMarshal s = .ok b) (hs : s.StandupReportSent = true) (ch : String)
    (hm : ReportMarked w ch) :
    ReportMarked
      { w with kv := fun k => if k = statusKeyHash w ch2 c2 then .ok b else w.kv k } ch := by
  obtain ⟨st, hst, hsent⟩ := hm
  obtain ⟨hlen, hdec⟩ := hcodec s b hb
  unfold HasStatus at hst
  rcases hc : w.GetStandupConfig ch with e | (_ | c)
  · simp [GetNotificationStatus, hc] at hst
  · simp [GetNotificationStatus, hc] at hst
  · have hc' : ({ w with kv := fun k => if k = statusKeyHash w ch2 c2 then .ok b else w.kv k } :
        World).GetStandupConfig ch = .ok (some c) := hc
    have hk : statusKeyHash
        { w with kv := fun k => if k = statusKeyHash w ch2 c2 then .ok b else w.kv k } ch c =
        statusKeyHash w ch c := rfl
    by_cases heq : statusKeyHash w ch c = statusKeyHash w ch2 c2
    · refine ⟨s, ?_, hs⟩
      unfold HasStatus
      rw [getStatus_eq _ ch c hc', hk]
      simp only [heq, if_true, hlen, if_false]
      exact hdec
    · refine ⟨st, ?_, hsent⟩
      unfold HasStatus
      rw [getStatus_eq _ ch c hc', hk]
      rw [getStatus_eq w ch c hc] at hst
      simp only [heq, if_false]
      exact hst

/-- After the status `s` is stored under the status key of a channel, the
status read for the channel is `s`. -/
theorem hasStatus_written (w : World) (ch : String) (c : Config)
    (s : ChannelNotificationStatus) (b : String) (hcodec : StatusCodec w)
    (hc : w.GetStandupConfig ch = .ok (some c)) (hb : w.jsonMarshal s = .ok b) :
    HasStatus
      { w with kv := fun k => if k = statusKeyHash w ch c then .ok b else w.kv k } ch s := by
  obtain ⟨hlen, hdec⟩ := hcodec s b hb
  unfold HasStatus
  have hc' : ({ w with kv := fun k => if k = statusKeyHash w ch c then .ok b else w.kv k } :
      World).GetStandupConfig ch = .ok (some c) := hc
  rw [getStatus_eq _ ch c hc']
  have hk : statusKeyHash
      { w with kv := fun k => if k = statusKeyHash w ch c then .ok b else w.kv k } ch c =
      statusKeyHash w ch c := rfl
  rw [hk]
  simp only [if_true, hlen, if_false]
  exact hdec

/-- The host along an iteration of `SendStandupReport`: the setting is kept,
and so is the store after the delivery and, but for the key of the
channel's reminder posts, after the reminder posts are deleted. -/
theorem iteration_worlds (w w1 : World) (ch : String) (post : Post) (vis uid : String)
    (e : Option String) (hdel : deliverReport w post vis uid = (e, w1)) :
    w1.setting = w.setting ∧ w1.kv = w.kv ∧
    (deleteReminderPosts w1 ch).2.setting = w.setting ∧
    ∀ k, (deleteReminderPosts w1 ch).2.kv k = w.kv k ∨
      (k = reminderKeyHash w ch ∧ (deleteReminderPosts w1 ch).2.kv k = .ok "") := by
  obtain ⟨hs1, hk1⟩ := deliverReport_frame w w1 post vis uid e hdel
  refine ⟨hs1, hk1, (deleteReminderPosts_frame w1 ch).1.trans hs1, fun k => ?_⟩
  rcases deleteReminderPosts_kv w1 ch k with h | ⟨h1, h2⟩
  · exact Or.inl (by rw [h, hk1])
  · exact Or.inr ⟨by rw [h1, reminderKeyHash_of_setting w w1 hs1], h2⟩

/-- An iteration of `SendStandupReport` that updates the status, goes on to
the next channel and reads the status `st` of its channel, leaves the status
of the channel readable, with `StandupReportSent` set and the two other
flags of `st`. -/
theorem iteration_marks (w w' : World) (ch : String) (date : OTime) (vis uid : String)
    (st : ChannelNotificationStatus) (hcodec : StatusCodec w)
    (h : sendStandupReportChannel w ch date vis uid true = (.next, w'))
    (hread : iterationStatusRead w ch date vis uid = some (.ok st)) :
    HasStatus w' ch ⟨st.WindowOpenNotificationSent, st.WindowCloseNotificationSent, true⟩ := by
  rw [sendStandupReportChannel_eq] at h
  unfold iterationStatusRead at hread
  rcases hrep : reportFor w ch date with e | post
  · simp [hrep] at h
  · simp only [hrep] at h hread
    rcases hdel : deliverReport w post vis uid with ⟨err, w1⟩
    rw [hdel] at h hread
    rcases err with _ | e
    · simp only [Option.some.injEq] at h hread
      obtain ⟨_, _, hs2, _⟩ := iteration_worlds w w1 ch post vis uid none hdel
      have hcodec2 := statusCodec_of_setting w _ hs2 hcodec
      have hst : HasStatus (deleteReminderPosts w1 ch).2 ch st := hread
      rcases updateReportStatus_cases _ _ ch true .next h with hA | hB | hC | hD
      · exact absurd hA.1 (by decide)
      · exact absurd hst (hB.2.2.2 st)
      · obtain ⟨_, ⟨e, he⟩, _⟩ := hC
        exact Step.noConfusion he
      · obtain ⟨_, _, c, st2, b, hc, hst2, hb, hw⟩ := hD
        have heq := hasStatus_unique _ ch st2 st hst2 hst
        subst heq
        rw [hw]
        exact hasStatus_written _ ch c _ b hcodec2 hc hb
    · simp at h

/-- An iteration of `SendStandupReport` for a channel keeps the mark of
another channel, when the key of the reminder posts of the first is not the
status key of the second. -/
theorem iteration_keeps_mark (w w' : World) (ch ch2 : String) (date : OTime)
    (vis uid : String) (upd : Bool) (r : Step) (hcodec : StatusCodec w)
    (hcol : ∀ c, w.GetStandupConfig ch = .ok (some c) →
      reminderKeyHash w ch2 ≠ statusKeyHash w ch c)
    (hm : ReportMarked w ch)
    (h : sendStandupReportChannel w ch2 date vis uid upd = (r, w')) :
    ReportMarked w' ch := by
  rw [sendStandupReportChannel_eq] at h
  rcases hrep : reportFor w ch2 date with e | post
  · simp only [hrep, Prod.mk.injEq] at h
    rw [← h.2]
    exact hm
  · simp only [hrep] at h
    rcases hdel : deliverReport w post vis uid with ⟨err, w1⟩
    rw [hdel] at h
    obtain ⟨hs1, hk1, hs2, hk2⟩ := iteration_worlds w w1 ch2 post vis uid err hdel
    rcases err with _ | e
    · simp only at h
      have hcodec2 := statusCodec_of_setting w _ hs2 hcodec
      have hm2 : ReportMarked (deleteReminderPosts w1 ch2).2 ch := by
        apply reportMarked_congr w _ ch hs2 _ hm
        intro c hc
        rcases hk2 (statusKeyHash w ch c) with hk | ⟨hk, _⟩
        · exact hk
        · exact absurd hk.symm (hcol c hc)
      rcases updateReportStatus_cases _ _ ch2 upd r h with hA | hB | hC | hD
      · rw [hA.2.2]; exact hm2
      · rw [hB.2.2.1]; exact hm2
      · rw [hC.2.2]; exact hm2
      · obtain ⟨_, _, c2, st2, b, _, _, hb, hw⟩ := hD
        rw [hw]
        exact reportMarked_after_write _ ch2 c2 _ b hcodec2 hb rfl ch hm2
    · simp only [Prod.mk.injEq] at h
      rw [← h.2]
      apply reportMarked_congr w _ ch hs1 _ hm
      intro c _
      rw [hk1]

theorem iteration_setting (w w' : World) (ch : String) (date : OTime) (vis uid : String)
    (upd : Bool) (r : Step) (h : sendStandupReportChannel w ch date vis uid upd = (r, w')) :
    w'.setting = w.setting := by
  rw [sendStandupReportChannel_eq] at h
  rcases hrep : reportFor w ch date with e | post
  · simp only [hrep, Prod.mk.injEq] at h
    rw [← h.2]
  · simp only [hrep] at h
    rcases hdel : deliverReport w post vis uid with ⟨err, w1⟩
    rw [hdel] at h
    obtain ⟨hs1, _, hs2, _⟩ := iteration_worlds w w1 ch post vis uid err hdel
    rcases err with _ | e
    · simp only at h
      have := (updateReportStatus_frame (deleteReminderPosts w1 ch).2 ch upd).1
      rw [h] at this
      exact this.trans hs2
    · simp only [Prod.mk.injEq] at h
      rw [← h.2]
      exact hs1

/-- The iterations of `SendStandupReport` for a list of channels keep the
mark of a channel, when no key of the reminder posts of a channel of the
list is the status key of the channel. -/
theorem list_keeps_mark (ch : String) (date : OTime) (vis uid : String) (upd : Bool)
    (ids : List String) :
    ∀ (w w' : World) (e : Option String), StatusCodec w →
      (∀ ch2 ∈ ids, ∀ c, w.GetStandupConfig ch = .ok (some c) →
        reminderKeyHash w ch2 ≠ statusKeyHash w ch c) →
      ReportMarked w ch → SendStandupReport w ids date vis uid upd = (e, w') →
      ReportMarked w' ch := by
  induction ids with
  | nil =>
    intro w w' e _ _ hm h
    simp only [SendStandupReport, Prod.mk.injEq] at h
    rw [← h.2]
    exact hm
  | cons ch2 rest ih =>
    intro w w' e hcodec hcol hm h
    rw [SendStandupReport_cons] at h
    rcases hb : sendStandupReportChannel w ch2 date vis uid upd with ⟨r, w1⟩
    rw [hb] at h
    have hm1 := iteration_keeps_mark w w1 ch ch2 date vis uid upd r hcodec
      (hcol ch2 (List.mem_cons_self _ _)) hm hb
    rcases r with _ | err
    · simp only at h
      have hs := iteration_setting w w1 ch2 date vis uid upd _ hb
      refine ih w1 w' e (statusCodec_of_setting w w1 hs hcodec) ?_ hm1 h
      intro ch3 h3 c hc
      rw [reminderKeyHash_of_setting w w1 hs, statusKeyHash_of_setting w w1 hs]
      rw [(setting_fields w w1 hs).1] at hc
      exact hcol ch3 (List.mem_cons_of_mem _ h3) c hc
    · simp only [Prod.mk.injEq] at h
      rw [← h.2]
      exact hm1

theorem SendStandupReport_setting (date : OTime) (vis uid : String) (upd : Bool)
    (ids : List String) :
    ∀ w : World, (SendStandupReport w ids date vis uid upd).2.setting = w.setting := by
  induction ids with
  | nil => intro w; rfl
  | cons ch rest ih =>
    intro w
    rw [SendStandupReport_cons]
    rcases hb : sendStandupReportChannel w ch date vis uid upd with ⟨r, w1⟩
    have hs := iteration_setting w w1 ch date vis uid upd r hb
    rcases r with _ | err
    · exact (ih w1).trans hs
    · exact hs

theorem sampleDecode_encode (s : ChannelNotificationStatus) :
    (sampleEncode s).length ≠ 0 ∧ sampleDecode (sampleEncode s) = .ok s := by
  rcases s with ⟨o, c, r⟩
  cases o <;> cases c <;> cases r <;> decide

theorem sampleWorld_codec (now : Time) (configs : String → Except String (Option Config))
    (kv : String → Except String String) : StatusCodec (sampleWorld now configs kv) := by
  intro s b hb
  have hb' : b = sampleEncode s := (Except.ok.inj hb).symm
  subst hb'
  exact sampleDecode_encode s

/-- C11, as stated, fails at 12:00 on `channel_1` with a store whose reads
fail: `SendStandupReport`, called with `updateStatus` true, delivers the
report, fails to read the status in the iteration and returns no error, and
the channel has no persisted status with `StandupReportSent` set
afterwards. -/
theorem C11_counterexample :
    (SendStandupReport (sampleWorld 43200 sampleConfigs failingStore) ["channel_1"]
      ⟨43200, "Asia/Kolkata"⟩ ReportVisibilityPublic "" true).1 = none ∧
    (SendStandupReport (sampleWorld 43200 sampleConfigs failingStore) ["channel_1"]
      ⟨43200, "Asia/Kolkata"⟩ ReportVisibilityPublic "" true).2.posts.length = 1 ∧
    iterationStatusRead (sampleWorld 43200 sampleConfigs failingStore) "channel_1"
      ⟨43200, "Asia/Kolkata"⟩ ReportVisibilityPublic "" =
      some (.error "could not read from the store") ∧
    ¬ ∃ st, HasStatus (SendStandupReport (sampleWorld 43200 sampleConfigs failingStore)
        ["channel_1"] ⟨43200, "Asia/Kolkata"⟩ ReportVisibilityPublic "" true).2
        "channel_1" st ∧ st.StandupReportSent = true := by
  refine ⟨by decide!, by decide!, by decide!, ?_⟩
  rintro ⟨st, hst, _⟩
  have herr : (GetNotificationStatus (SendStandupReport
      (sampleWorld 43200 sampleConfigs failingStore) ["channel_1"] ⟨43200, "Asia/Kolkata"⟩
      ReportVisibilityPublic "" true).2 "channel_1").1 =
      .error "could not read from the store" := by decide!
  unfold HasStatus at hst
  rw [herr] at hst
  exact Except.noConfusion hst

/-- C11, amended: whenever `SendStandupReport` is called with `updateStatus`
true and returns no error, then for every channel it was given, at any place
of the list, whose status is read without error in its iteration, the
persisted status afterwards is readable and has `StandupReportSent` set, so
that `filterChannelNotification` does not select the report for the channel
again, at any later time of that day. The JSON library is assumed to decode
what it encoded, and no store key of the reminder posts of a channel later
in the list is taken to be the status key of the channel. -/
theorem C11_report_marked (w w' : World) (pre post : List String) (ch : String)
    (date : OTime) (vis uid : String) (st : ChannelNotificationStatus)
    (hcodec : StatusCodec w)
    (hkeys : ∀ ch2 ∈ post, ∀ c, w.GetStandupConfig ch = .ok (some c) →
      reminderKeyHash w ch2 ≠ statusKeyHash w ch c)
    (h : SendStandupReport w (pre ++ ch :: post) date vis uid true = (none, w'))
    (hread : iterationStatusRead (SendStandupReport w pre date vis uid true).2 ch date vis
      uid = some (.ok st)) :
    (∃ st2, HasStatus w' ch st2 ∧ st2.StandupReportSent = true) ∧
    ∀ (now : String → OTime) (getTime getTimeWithSeconds : OTime → String → OTime)
      (dateOf : OTime → Time) (ids : List String),
      ch ∉ (filterChannelNotification
        { w' with
          Now := now, GetTime := getTime, GetTimeWithSeconds := getTimeWithSeconds,
          Date := dateOf } ids).1.standupReportChannels := by
  have hm : ReportMarked w' ch := by
    rw [SendStandupReport_append] at h
    have hs1 := SendStandupReport_setting date vis uid true pre w
    rcases hpre : SendStandupReport w pre date vis uid true with ⟨e1, w1⟩
    rw [hpre] at h hread hs1
    simp only at hread hs1
    rcases e1 with _ | e1
    · simp only at h
      rw [SendStandupReport_cons] at h
      rcases hb : sendStandupReportChannel w1 ch date vis uid true with ⟨r, w2⟩
      rw [hb] at h
      have hcodec1 := statusCodec_of_setting w w1 hs1 hcodec
      rcases r with _ | err
      · simp only at h
        have hs2 := iteration_setting w1 w2 ch date vis uid true _ hb
        have hst2 := iteration_marks w1 w2 ch date vis uid st hcodec1 hb hread
        refine list_keeps_mark ch date vis uid true post w2 w' none
          (statusCodec_of_setting w1 w2 hs2 hcodec1) ?_ ⟨_, hst2, rfl⟩ h
        intro ch2 h2 c hc
        rw [reminderKeyHash_of_setting w1 w2 hs2, statusKeyHash_of_setting w1 w2 hs2,
          reminderKeyHash_of_setting w w1 hs1, statusKeyHash_of_setting w w1 hs1]
        rw [(setting_fields w1 w2 hs2).1, (setting_fields w w1 hs1).1] at hc
        exact hkeys ch2 h2 c hc
      · simp only [Prod.mk.injEq] at h
        rw [h.1] at hb
        exact absurd hb (sendStandupReportChannel_ne_ret_none w1 w2 ch date vis uid true)
    · simp at h
  refine ⟨hm, fun now getTime getTimeWithSeconds dateOf ids hin => ?_⟩
  obtain ⟨st2, hst2, hsent⟩ := hm
  have hsel := (mem_listOf _ ids .standupReport ch hin).2
  obtain ⟨c, st3, _, _, _, hst3, hch⟩ := (selects_iff _ .standupReport ch).1 hsel
  have hst3' : HasStatus w' ch st3 := hst3
  have heq := hasStatus_unique w' ch st3 st2 hst3' hst2
  have h2 := ((choice_report_iff _ st3 c).1 hch).1
  rw [heq, hsent] at h2
  exact Bool.noConfusion h2

/-- The amended claim C11 at 12:00 on three channels with an empty store, for
`channel_2`, the second of the list: its iteration reads the status without
flags, and afterwards its status has `StandupReportSent` set. -/
theorem C11_report_marked_witness :
    StatusCodec (sampleWorld 43200 everyChannelConfigured emptyStore) ∧
    (SendStandupReport (sampleWorld 43200 everyChannelConfigured emptyStore)
      (["channel_1"] ++ "channel_2" :: ["channel_3"]) ⟨43200, "Asia/Kolkata"⟩
      ReportVisibilityPublic "" true).1 = none ∧
    iterationStatusRead (SendStandupReport (sampleWorld 43200 everyChannelConfigured emptyStore)
      ["channel_1"] ⟨43200, "Asia/Kolkata"⟩ ReportVisibilityPublic "" true).2 "channel_2"
      ⟨43200, "Asia/Kolkata"⟩ ReportVisibilityPublic "" = some (.ok ⟨false, false, false⟩) ∧
    HasStatus (SendStandupReport (sampleWorld 43200 everyChannelConfigured emptyStore)
      (["channel_1"] ++ "channel_2" :: ["channel_3"]) ⟨43200, "Asia/Kolkata"⟩
      ReportVisibilityPublic "" true).2 "channel_2" ⟨false, false, true⟩ ∧
    ∃ st2, HasStatus (SendStandupReport (sampleWorld 43200 everyChannelConfigured emptyStore)
      (["channel_1"] ++ "channel_2" :: ["channel_3"]) ⟨43200, "Asia/Kolkata"⟩
      ReportVisibilityPublic "" true).2 "channel_2" st2 ∧ st2.StandupReportSent = true :=
  ⟨sampleWorld_codec _ _ _, by decide!, by decide!, by decide!,
    (C11_report_marked (sampleWorld 43200 everyChannelConfigured emptyStore) _
      ["channel_1"] ["channel_3"] "channel_2" ⟨43200, "Asia/Kolkata"⟩ ReportVisibilityPublic ""
      ⟨false, false, false⟩ (sampleWorld_codec _ _ _)
      (by
        intro ch2 h2 c hc
        have hc' : c = sampleConfig "channel_2" := by
          have := Except.ok.inj hc
          exact (Option.some.inj this).symm
        subst hc'
        simp only [List.mem_singleton] at h2
        subst h2
        decide)
      (Prod.ext (by decide!) rfl) (by decide!)).1⟩

/-- The store after an iteration of `SendStandupReport` that does not update
the status: every key is as before, or holds nothing. -/
theorem iteration_store_without_update (w w' : World) (ch : String) (date : OTime)
    (vis uid : String) (r : Step)
    (h : sendStandupReportChannel w ch date vis uid false = (r, w')) (k : String) :
    w'.kv k = w.kv k ∨ w'.kv k = .ok "" := by
  rw [sendStandupReportChannel_eq] at h
  rcases hrep : reportFor w ch date with e | post
  · simp only [hrep, Prod.mk.injEq] at h
    rw [← h.2]
    exact Or.inl rfl
  · simp only [hrep] at h
    rcases hdel : deliverReport w post vis uid with ⟨err, w1⟩
    rw [hdel] at h
    obtain ⟨_, hk1, _, hk2⟩ := iteration_worlds w w1 ch post vis uid err hdel
    rcases err with _ | e
    · simp only at h
      rcases updateReportStatus_cases _ _ ch false r h with hA | hB | hC | hD
      · rw [hA.2.2]
        rcases hk2 k with hk | ⟨_, hk⟩
        · exact Or.inl hk
        · exact Or.inr hk
      · exact absurd hB.1 (by decide)
      · exact absurd hC.1 (by decide)
      · exact absurd hD.1 (by decide)
    · simp only [Prod.mk.injEq] at h
      rw [← h.2, hk1]
      exact Or.inl rfl

/-- C12: in an iteration of `SendStandupReport` with `updateStatus` true that
has delivered its report and ends without error, when the status read after
the reminder posts are deleted is `st`, what is written is the encoding of
the status with the two reminder flags of `st` and `StandupReportSent` set,
under the channel's status key, and nothing else is changed (so that the
status read back is that one, when the JSON library decodes what it
encoded); with `updateStatus` false, every key of the store is after
`SendStandupReport` as it was before, or holds nothing: no status is
written. -/
theorem C12_status_written (w : World) (date : OTime) (vis uid : String) :
    (∀ ch post w1 w3 c st, reportFor w ch date = .ok post →
      deliverReport w post vis uid = (none, w1) → w.GetStandupConfig ch = .ok (some c) →
      HasStatus (deleteReminderPosts w1 ch).2 ch st →
      sendStandupReportChannel w ch date vis uid true = (.next, w3) →
      ∃ b, w.jsonMarshal
          ⟨st.WindowOpenNotificationSent, st.WindowCloseNotificationSent, true⟩ = .ok b ∧
        w3 = { (deleteReminderPosts w1 ch).2 with
          kv := fun k => if k = statusKeyHash w ch c then .ok b
            else (deleteReminderPosts w1 ch).2.kv k } ∧
        (StatusCodec w → HasStatus w3 ch
          ⟨st.WindowOpenNotificationSent, st.WindowCloseNotificationSent, true⟩)) ∧
    (∀ channelIDs e w', SendStandupReport w channelIDs date vis uid false = (e, w') →
      ∀ k, w'.kv k = w.kv k ∨ w'.kv k = .ok "") := by
  constructor
  · intro ch post w1 w3 c st hrep hdel hc hst h
    rw [sendStandupReportChannel_eq, hrep] at h
    simp only [hdel] at h
    obtain ⟨_, _, hs2, _⟩ := iteration_worlds w w1 ch post vis uid none hdel
    obtain ⟨hf1, _, _, _, hf5, _⟩ := setting_fields w _ hs2
    rcases updateReportStatus_cases _ _ ch true .next h with hA | hB | hC | hD
    · exact absurd hA.1 (by decide)
    · exact absurd hst (hB.2.2.2 st)
    · obtain ⟨_, ⟨e, he⟩, _⟩ := hC
      exact Step.noConfusion he
    · obtain ⟨_, _, c', st', b, hc', hst', hb, hw⟩ := hD
      rw [hf1, hc] at hc'
      have hcc : c' = c := (Option.some.inj (Except.ok.inj hc')).symm
      subst hcc
      rw [hasStatus_unique _ ch st' st hst' hst] at hb
      have hb' : w.jsonMarshal
          ⟨st.WindowOpenNotificationSent, st.WindowCloseNotificationSent, true⟩ = .ok b := by
        rw [← hf5]; exact hb
      rw [statusKeyHash_of_setting w _ hs2] at hw
      refine ⟨b, hb', hw, fun hcodec => ?_⟩
      rw [hw, ← statusKeyHash_of_setting w _ hs2]
      exact hasStatus_written _ ch c' _ b (statusCodec_of_setting w _ hs2 hcodec)
        (by rw [hf1]; exact hc) hb
  · intro channelIDs
    induction channelIDs generalizing w with
    | nil =>
      intro e w' h k
      simp only [SendStandupReport, Prod.mk.injEq] at h
      rw [← h.2]
      exact Or.inl rfl
    | cons ch rest ih =>
      intro e w' h k
      rw [SendStandupReport_cons] at h
      rcases hb : sendStandupReportChannel w ch date vis uid false with ⟨r, w1⟩
      rw [hb] at h
      have h1 := iteration_store_without_update w w1 ch date vis uid r hb k
      rcases r with _ | err
      · simp only at h
        rcases ih w1 e w' h k with h2 | h2
        · rcases h1 with h1 | h1
          · exact Or.inl (h2.trans h1)
          · exact Or.inr (h2.trans h1)
        · exact Or.inr h2
      · simp only [Prod.mk.injEq] at h
        rw [← h.2]
        exact h1

/-- C15: in an iteration of `SendStandupReport` that has delivered its
report, `deleteReminderPosts` returns an error when the read of the stored
list fails, when the stored list is not valid JSON and when the removal of
the stored list is refused, and goes on after a refused deletion of a post;
whatever it returns, the iteration goes on to the update of the status in
the host that the cleaning leaves: without update, and when the status
cannot be read, the remaining channels are processed, and when the status
is read and written the remaining channels are processed after the
write. -/
theorem C15_cleanup_failure_ignored (w w1 : World) (ch : String) (date : OTime)
    (vis uid : String) (post : Post) (rest : List String)
    (hrep : reportFor w ch date = .ok post)
    (hdel : deliverReport w post vis uid = (none, w1)) :
    (∀ e, w1.kv (reminderKeyHash w1 ch) = .error e →
      deleteReminderPosts w1 ch = (some e, w1)) ∧
    (∀ data e, w1.kv (reminderKeyHash w1 ch) = .ok data → data.length ≠ 0 →
      w1.jsonUnmarshalStrings data = .error e → deleteReminderPosts w1 ch = (some e, w1)) ∧
    (∀ ids e, getReminderPosts w1 ch = .ok ids → w1.kvDeleteError (reminderKeyHash w1 ch) = some e →
      (deleteReminderPosts w1 ch).1 = some e) ∧
    (∀ i e l w0, w0.deletePostError i = some e →
      deleteReminderPostsLoop w0 (i :: l) = deleteReminderPostsLoop w0 l) ∧
    SendStandupReport w (ch :: rest) date vis uid false =
      SendStandupReport (deleteReminderPosts w1 ch).2 rest date vis uid false ∧
    ((∀ st, ¬ HasStatus (deleteReminderPosts w1 ch).2 ch st) →
      SendStandupReport w (ch :: rest) date vis uid true =
        SendStandupReport (deleteReminderPosts w1 ch).2 rest date vis uid true) ∧
    (∀ st w3, HasStatus (deleteReminderPosts w1 ch).2 ch st →
      SetNotificationStatus (deleteReminderPosts w1 ch).2 ch
        ⟨st.WindowOpenNotificationSent, st.WindowCloseNotificationSent, true⟩ = (none, w3) →
      SendStandupReport w (ch :: rest) date vis uid true =
        SendStandupReport w3 rest date vis uid true) := by
  refine ⟨fun e he => ?_, fun data e hd hlen hj => ?_, fun ids e hg hk => ?_,
    fun i e l w0 hi => ?_, ?_, fun hno => ?_, fun st w3 hst hset => ?_⟩
  · simp [deleteReminderPosts, getReminderPosts, World.KVGet, reminderKeyHash] at he ⊢
    simp [he]
  · simp only [reminderKeyHash] at hd
    simp [deleteReminderPosts, getReminderPosts, World.KVGet, hd, hlen, hj]
  · obtain ⟨hs, _, _, _⟩ := deleteReminderPostsLoop_frame ids w1
    have hh : (deleteReminderPostsLoop w1 ids).GetKeyHash = w1.GetKeyHash :=
      (setting_fields w1 _ hs).2.1
    have hd : (deleteReminderPostsLoop w1 ids).kvDeleteError = w1.kvDeleteError :=
      (congrArg World.kvDeleteError hs :)
    simp only [reminderKeyHash] at hk
    simp [deleteReminderPosts, hg, World.KVDelete, hh, hd, hk]
  · simp [deleteReminderPostsLoop, World.DeletePost, hi]
  · rw [SendStandupReport_cons, sendStandupReportChannel_eq, hrep]
    simp [hdel, updateReportStatus]
  · rw [SendStandupReport_cons, sendStandupReportChannel_eq, hrep]
    simp only [hdel, updateReportStatus, if_true]
    rcases hg : (GetNotificationStatus (deleteReminderPosts w1 ch).2 ch).1 with e | st
    · rfl
    · exact absurd hg (hno st)
  · rw [SendStandupReport_cons, sendStandupReportChannel_eq, hrep]
    simp only [hdel, updateReportStatus, if_true]
    unfold HasStatus at hst
    simp only [hst, hset]

/-! ## The claims at sample worlds -/

/-- The claim C12 at 12:00 on `channel_1` with an empty store: with the
update, the status written is the one read with `StandupReportSent` set;
without, the store is left as it was or emptied under every key. -/
theorem C12_status_written_witness :
    (∃ b, (sampleWorld 43200 everyChannelConfigured emptyStore).jsonMarshal
        ⟨false, false, true⟩ = .ok b ∧
      (sendStandupReportChannel (sampleWorld 43200 everyChannelConfigured emptyStore)
        "channel_1" ⟨43200, "Asia/Kolkata"⟩ ReportVisibilityPublic "" true).2 =
        { (deleteReminderPosts (deliverReport
            (sampleWorld 43200 everyChannelConfigured emptyStore) sampleReport
            ReportVisibilityPublic "").2 "channel_1").2 with
          kv := fun k =>
            if k = statusKeyHash (sampleWorld 43200 everyChannelConfigured emptyStore)
                "channel_1" (sampleConfig "channel_1") then .ok b
            else (deleteReminderPosts (deliverReport
              (sampleWorld 43200 everyChannelConfigured emptyStore) sampleReport
              ReportVisibilityPublic "").2 "channel_1").2.kv k } ∧
      (StatusCodec (sampleWorld 43200 everyChannelConfigured emptyStore) →
        HasStatus (sendStandupReportChannel
          (sampleWorld 43200 everyChannelConfigured emptyStore) "channel_1"
          ⟨43200, "Asia/Kolkata"⟩ ReportVisibilityPublic "" true).2 "channel_1"
          ⟨false, false, true⟩)) ∧
    ∀ k, (SendStandupReport (sampleWorld 43200 everyChannelConfigured emptyStore)
        ["channel_1", "channel_2"] ⟨43200, "Asia/Kolkata"⟩ ReportVisibilityPublic ""
        false).2.kv k =
        (sampleWorld 43200 everyChannelConfigured emptyStore).kv k ∨
      (SendStandupReport (sampleWorld 43200 everyChannelConfigured emptyStore)
        ["channel_1", "channel_2"] ⟨43200, "Asia/Kolkata"⟩ ReportVisibilityPublic ""
        false).2.kv k = .ok "" :=
  ⟨(C12_status_written (sampleWorld 43200 everyChannelConfigured emptyStore)
      ⟨43200, "Asia/Kolkata"⟩ ReportVisibilityPublic "").1 "channel_1" sampleReport _ _
      (sampleConfig "channel_1") ⟨false, false, false⟩ (by decide!)
      (Prod.ext (by decide!) rfl) rfl (by decide!) (Prod.ext (by decide!) rfl),
    (C12_status_written (sampleWorld 43200 everyChannelConfigured emptyStore)
      ⟨43200, "Asia/Kolkata"⟩ ReportVisibilityPublic "").2 ["channel_1", "channel_2"] _ _
      rfl⟩

/-- The claim C13 at 12:00 on `channel_1`: with visibility "private" the
report goes to the requesting user `user_id_7` as an ephemeral post and no
post is created; with visibility "public" the report is the one post
created. -/
theorem C13_report_delivery_witness :
    reportFor (sampleWorld 43200 everyChannelConfigured emptyStore) "channel_1"
      ⟨43200, "Asia/Kolkata"⟩ = .ok sampleReport ∧
    (sendStandupReportChannel (sampleWorld 43200 everyChannelConfigured emptyStore)
      "channel_1" ⟨43200, "Asia/Kolkata"⟩ ReportVisibilityPrivate "user_id_7"
      false).2.ephemeralPosts =
      (sampleWorld 43200 everyChannelConfigured emptyStore).ephemeralPosts ++
        [("user_id_7", sampleReport)] ∧
    (sendStandupReportChannel (sampleWorld 43200 everyChannelConfigured emptyStore)
      "channel_1" ⟨43200, "Asia/Kolkata"⟩ ReportVisibilityPrivate "user_id_7"
      false).2.posts = (sampleWorld 43200 everyChannelConfigured emptyStore).posts ∧
    (sendStandupReportChannel (sampleWorld 43200 everyChannelConfigured emptyStore)
      "channel_1" ⟨43200, "Asia/Kolkata"⟩ ReportVisibilityPublic "" true).2.posts =
      (sampleWorld 43200 everyChannelConfigured emptyStore).posts ++
        [{ sampleReport with
          Id := (sampleWorld 43200 everyChannelConfigured emptyStore).newPostID
            (sampleWorld 43200 everyChannelConfigured emptyStore).posts.length }] :=
  ⟨by decide!,
    ((C13_report_delivery (sampleWorld 43200 everyChannelConfigured emptyStore) "channel_1"
      ⟨43200, "Asia/Kolkata"⟩ ReportVisibilityPrivate "user_id_7" false sampleReport
      (by decide!)).2.1 rfl).1,
    ((C13_report_delivery (sampleWorld 43200 everyChannelConfigured emptyStore) "channel_1"
      ⟨43200, "Asia/Kolkata"⟩ ReportVisibilityPrivate "user_id_7" false sampleReport
      (by decide!)).2.1 rfl).2,
    (((C13_report_delivery (sampleWorld 43200 everyChannelConfigured emptyStore) "channel_1"
      ⟨43200, "Asia/Kolkata"⟩ ReportVisibilityPublic "" true sampleReport
      (by decide!)).2.2 (by decide)).2 rfl).1⟩

/-- C14, as stated, fails at 12:00 on `channel_9`, whose report format is
not known and whose only member is a user that cannot be found:
`generateReport` would return its unknown-format error, and
`SendStandupReport` returns the error of the user lookup. -/
theorem C14_counterexample :
    oddFormatConfigs "channel_9" =
      .ok (some { oddFormatConfig "channel_9" with Members := ["user_id_9"] }) ∧
    generateReport (sampleWorld 43200 oddFormatConfigs emptyStore)
      { oddFormatConfig "channel_9" with Members := ["user_id_9"] } [] [] "channel_9"
      ⟨43200, "Asia/Kolkata"⟩ = .error (unknownReportFormat "channel_9" "weekly_digest") ∧
    (SendStandupReport (sampleWorld 43200 oddFormatConfigs emptyStore) ["channel_9"]
      ⟨43200, "Asia/Kolkata"⟩ ReportVisibilityPublic "" true).1 =
      some "could not find the user" ∧
    "could not find the user" ≠ unknownReportFormat "channel_9" "weekly_digest" := by
  decide!

/-- The amended claim C14 at 12:00 on `channel_1` with the unknown report
format, followed by a second channel: `SendStandupReport` returns the
unknown-format error and leaves the host as it was. -/
theorem C14_unknown_report_format_witness :
    SendStandupReport (sampleWorld 43200 oddFormatConfigs emptyStore)
      ["channel_1", "channel_2"] ⟨43200, "Asia/Kolkata"⟩ ReportVisibilityPublic "" true =
      (some (unknownReportFormat "channel_1" (oddFormatConfig "channel_1").ReportFormat),
        sampleWorld 43200 oddFormatConfigs emptyStore) :=
  (C14_unknown_report_format (sampleWorld 43200 oddFormatConfigs emptyStore) "channel_1"
    (oddFormatConfig "channel_1") ⟨43200, "Asia/Kolkata"⟩ ReportVisibilityPublic "" true
    rfl (by decide) (by decide)).2.2.1 ["channel_2"]
    [⟨"user_id_1", "channel_1", [("section 1", ["task_1", "task_2"]), ("section 2", [])]⟩]
    ["john"]
    [⟨"user_id_1", "channel_1", [("section 1", ["task_1", "task_2"]), ("section 2", [])]⟩]
    (by decide!) (by decide!)

/-- The claim C15 at 12:00 on `channel_1`, when the read of the stored list of
reminder posts fails: `deleteReminderPosts` returns the error, the status is
written all the same and the next channel is processed. -/
theorem C15_cleanup_failure_ignored_witness :
    deleteReminderPosts (deliverReport
        (sampleWorld 43200 everyChannelConfigured reminderFailingStore) sampleReport
        ReportVisibilityPublic "").2 "channel_1" =
      (some "could not read from the store", (deliverReport
        (sampleWorld 43200 everyChannelConfigured reminderFailingStore) sampleReport
        ReportVisibilityPublic "").2) ∧
    SendStandupReport (sampleWorld 43200 everyChannelConfigured reminderFailingStore)
        ["channel_1", "channel_2"] ⟨43200, "Asia/Kolkata"⟩ ReportVisibilityPublic "" true =
      SendStandupReport
        (SetNotificationStatus (deleteReminderPosts (deliverReport
          (sampleWorld 43200 everyChannelConfigured reminderFailingStore) sampleReport
          ReportVisibilityPublic "").2 "channel_1").2 "channel_1" ⟨false, false, true⟩).2
        ["channel_2"] ⟨43200, "Asia/Kolkata"⟩ ReportVisibilityPublic "" true ∧
    HasStatus (SendStandupReport
        (sampleWorld 43200 everyChannelConfigured reminderFailingStore)
        ["channel_1", "channel_2"] ⟨43200, "Asia/Kolkata"⟩ ReportVisibilityPublic ""
        true).2 "channel_1" ⟨false, false, true⟩ :=
  ⟨(C15_cleanup_failure_ignored
      (sampleWorld 43200 everyChannelConfigured reminderFailingStore) _ "channel_1"
      ⟨43200, "Asia/Kolkata"⟩ ReportVisibilityPublic "" sampleReport ["channel_2"]
      (by decide!) (Prod.ext (by decide!) rfl)).1 _ (by decide!),
    (C15_cleanup_failure_ignored
      (sampleWorld 43200 everyChannelConfigured reminderFailingStore) _ "channel_1"
      ⟨43200, "Asia/Kolkata"⟩ ReportVisibilityPublic "" sampleReport ["channel_2"]
      (by decide!) (Prod.ext (by decide!) rfl)).2.2.2.2.2.2 ⟨false, false, false⟩ _
      (by decide!) (Prod.ext (by decide!) rfl),
    by decide!⟩

/-- The claim C16 when the standup channels cannot be fetched, when there are
none, and at 12:00 on the two sample channels, the first of which is due its
report. -/
theorem C16_entry_point_errors_witness :
    SendNotificationsAndReports fetchFailingWorld =
      (some "could not fetch the standup channels", fetchFailingWorld) ∧
    SendNotificationsAndReports noChannelWorld = (none, noChannelWorld) ∧
    (SendNotificationsAndReports (sampleWorld 43200 sampleConfigs emptyStore)).1 =
      (sendAllStandupReport
        (sendWindowCloseNotification
          (sendWindowOpenNotification (sampleWorld 43200 sampleConfigs emptyStore) []) []).2
        ["channel_1"]).1 :=
  ⟨(C16_entry_point_errors fetchFailingWorld).1 _ rfl,
    (C16_entry_point_errors noChannelWorld).2.2.2 rfl,
    ((C16_entry_point_errors (sampleWorld 43200 sampleConfigs emptyStore)).2.2.1
      ["channel_1", "channel_2"] [] [] ["channel_1"] rfl (by decide!)).2 (by decide!)⟩

/-! ## Reminder posts -/

theorem deleteReminderPostsLoop_deleted (ids : List String) :
    ∀ w : World, (deleteReminderPostsLoop w ids).deletedPosts =
      w.deletedPosts ++ ids.filter fun i => (w.deletePostError i).isNone := by
  induction ids with
  | nil => intro w; simp [deleteReminderPostsLoop]
  | cons i rest ih =>
    intro w
    unfold deleteReminderPostsLoop
    unfold World.DeletePost
    rcases hi : w.deletePostError i with _ | e
    · simp only [ih]
      simp [hi]
    · simp only [ih]
      simp [hi]

theorem getReminderPosts_of_empty (w : World) (ch : String)
    (h : w.kv (reminderKeyHash w ch) = .ok "") : getReminderPosts w ch = .ok [] := by
  simp only [reminderKeyHash] at h
  simp [getReminderPosts, World.KVGet, h]

/-- C30: when the stored list of reminder posts of a channel is read,
`deleteReminderPosts` deletes every post ID of the list whose deletion the
host does not refuse, in order, going on after a refusal, and then removes
the stored list; when the removal is not refused it returns no error and a
following `getReminderPosts` returns the empty list; and when nothing is
stored `getReminderPosts` returns the empty list and no error. -/
theorem C30_delete_reminder_posts (w : World) (ch : String) :
    (∀ ids, getReminderPosts w ch = .ok ids →
      (deleteReminderPosts w ch).2.deletedPosts =
        w.deletedPosts ++ ids.filter (fun i => (w.deletePostError i).isNone) ∧
      (w.kvDeleteError (reminderKeyHash w ch) = none →
        (deleteReminderPosts w ch).1 = none ∧
        (deleteReminderPosts w ch).2.kv (reminderKeyHash w ch) = .ok "" ∧
        getReminderPosts (deleteReminderPosts w ch).2 ch = .ok [])) ∧
    (w.kv (reminderKeyHash w ch) = .ok "" → getReminderPosts w ch = .ok []) := by
  refine ⟨fun ids hg => ?_, getReminderPosts_of_empty w ch⟩
  obtain ⟨hs, _, _, _⟩ := deleteReminderPostsLoop_frame ids w
  have hh : (deleteReminderPostsLoop w ids).GetKeyHash = w.GetKeyHash :=
    (setting_fields w _ hs).2.1
  have hd : (deleteReminderPostsLoop w ids).kvDeleteError = w.kvDeleteError :=
    (congrArg World.kvDeleteError hs :)
  have hdel := deleteReminderPostsLoop_deleted ids w
  constructor
  · unfold deleteReminderPosts
    simp only [hg, World.KVDelete, hh, hd]
    rcases w.kvDeleteError (w.GetKeyHash (reminderPostsKey ch)) with _ | e
    · exact hdel
    · exact hdel
  · intro hk
    simp only [reminderKeyHash] at hk
    have hres : deleteReminderPosts w ch =
        (none, { deleteReminderPostsLoop w ids with
          kv := fun k => if k = w.GetKeyHash (reminderPostsKey ch) then .ok ""
            else (deleteReminderPostsLoop w ids).kv k }) := by
      unfold deleteReminderPosts
      simp only [hg, World.KVDelete, hh, hd, hk]
    rw [hres]
    refine ⟨rfl, by simp [reminderKeyHash], ?_⟩
    apply getReminderPosts_of_empty
    simp [reminderKeyHash, hh]

/-- The claim C30 on a store that holds the list of two reminder posts. -/
theorem C30_delete_reminder_posts_witness :
    getReminderPosts (sampleWorld 43200 sampleConfigs fun _ => .ok "[post_1,post_2]")
      "channel_1" = .ok ["post_1", "post_2"] ∧
    (deleteReminderPosts (sampleWorld 43200 sampleConfigs fun _ => .ok "[post_1,post_2]")
      "channel_1").2.deletedPosts = ["post_1", "post_2"] ∧
    (deleteReminderPosts (sampleWorld 43200 sampleConfigs fun _ => .ok "[post_1,post_2]")
      "channel_1").1 = none ∧
    getReminderPosts
      (deleteReminderPosts (sampleWorld 43200 sampleConfigs fun _ => .ok "[post_1,post_2]")
        "channel_1").2 "channel_1" = .ok [] :=
  ⟨by decide!,
    ((C30_delete_reminder_posts
      (sampleWorld 43200 sampleConfigs fun _ => .ok "[post_1,post_2]") "channel_1").1
      ["post_1", "post_2"] (by decide!)).1,
    (((C30_delete_reminder_posts
      (sampleWorld 43200 sampleConfigs fun _ => .ok "[post_1,post_2]") "channel_1").1
      ["post_1", "post_2"] (by decide!)).2 rfl).1,
    (((C30_delete_reminder_posts
      (sampleWorld 43200 sampleConfigs fun _ => .ok "[post_1,post_2]") "channel_1").1
      ["post_1", "post_2"] (by decide!)).2 rfl).2.2⟩

/-! ## The window open notification -/

theorem saveReminderPosts_frame (w : World) (l : List String) (ch : String) :
    (saveReminderPosts w l ch).2.setting = w.setting ∧
      (saveReminderPosts w l ch).2.posts = w.posts ∧
      (saveReminderPosts w l ch).2.ephemeralPosts = w.ephemeralPosts := by
  unfold saveReminderPosts
  rcases w.jsonMarshalStrings l with e | b
  · exact ⟨rfl, rfl, rfl⟩
  · simp only
    have h1 := setting_KVSet w (w.GetKeyHash (reminderPostsKey ch)) b
    have h2 := posts_KVSet w (w.GetKeyHash (reminderPostsKey ch)) b
    generalize w.KVSet (w.GetKeyHash (reminderPostsKey ch)) b = x at h1 h2 ⊢
    rcases x with ⟨err, w1⟩
    cases err <;> exact ⟨h1, h2.1, h2.2⟩

theorem addReminderPost_frame (w : World) (i ch : String) :
    (addReminderPost w i ch).2.setting = w.setting ∧
      (addReminderPost w i ch).2.posts = w.posts ∧
      (addReminderPost w i ch).2.ephemeralPosts = w.ephemeralPosts := by
  unfold addReminderPost
  rcases getReminderPosts w ch with e | l
  · exact ⟨rfl, rfl, rfl⟩
  · simp only
    have h := saveReminderPosts_frame w (l ++ [i]) ch
    generalize saveReminderPosts w (l ++ [i]) ch = x at h ⊢
    rcases x with ⟨err, w1⟩
    cases err <;> exact h

theorem sendWindowOpenNotificationChannel_setting (w : World) (ch : String) :
    (sendWindowOpenNotificationChannel w ch).setting = w.setting := by
  unfold sendWindowOpenNotificationChannel
  simp only
  have h1 := setting_CreatePost w (windowOpenPost w ch)
  unfold windowOpenPost at h1
  generalize w.CreatePost _ = x at h1 ⊢
  rcases x with ⟨res, w1⟩
  rcases res with e | post
  · exact h1
  · simp only
    have h2 := (addReminderPost_frame w1 post.Id ch).1
    generalize addReminderPost w1 post.Id ch = y at h2 ⊢
    rcases y with ⟨err, w2⟩
    rcases err with _ | e
    · simp only
      rcases (GetNotificationStatus w2 ch).1 with e | st
      · exact h2.trans h1
      · simp only
        have h3 := setting_SetNotificationStatus w2 ch { st with WindowOpenNotificationSent := true }
        generalize SetNotificationStatus w2 ch _ = z at h3 ⊢
        rcases z with ⟨err, w3⟩
        cases err <;> exact (h3.trans h2).trans h1
    · exact h2.trans h1

/-- An iteration of `sendWindowOpenNotification` whose post the host refuses
leaves the host as it was. -/
theorem sendWindowOpenNotificationChannel_of_refused (w : World) (ch e : String)
    (h : w.createPostError (windowOpenPost w ch) = some e) :
    sendWindowOpenNotificationChannel w ch = w := by
  unfold windowOpenPost at h
  simp [sendWindowOpenNotificationChannel, World.CreatePost, h]

/-- C22: when the host refuses the window open post of a channel, the
iteration of `sendWindowOpenNotification` for the channel leaves the host as
it was, and with it the channel's status and its stored list of reminder
posts; the remaining channels are processed as if the channel were not in
the list, wherever it stands in it. -/
theorem C22_window_open_post_refused (w : World) (ch e : String)
    (hfail : w.createPostError (windowOpenPost w ch) = some e) :
    sendWindowOpenNotificationChannel w ch = w ∧
    GetNotificationStatus (sendWindowOpenNotificationChannel w ch) ch =
      GetNotificationStatus w ch ∧
    getReminderPosts (sendWindowOpenNotificationChannel w ch) ch = getReminderPosts w ch ∧
    (∀ rest, sendWindowOpenNotification w (ch :: rest) = sendWindowOpenNotification w rest) ∧
    (∀ ids, sendWindowOpenNotification w ids =
      sendWindowOpenNotification w (ids.filter fun d => decide (d ≠ ch))) := by
  have h0 := sendWindowOpenNotificationChannel_of_refused w ch e hfail
  refine ⟨h0, by rw [h0], by rw [h0], fun rest => by rw [sendWindowOpenNotification, h0],
    fun ids => ?_⟩
  have key : ∀ (l : List String) (w' : World), w'.setting = w.setting →
      sendWindowOpenNotification w' l =
        sendWindowOpenNotification w' (l.filter fun d => decide (d ≠ ch)) := by
    intro l
    induction l with
    | nil => intro w' _; rfl
    | cons c rest ih =>
      intro w' hs
      by_cases hc : c = ch
      · subst hc
        have hf : w'.createPostError (windowOpenPost w' c) = some e := by
          have h1 : w'.createPostError = w.createPostError :=
            (congrArg World.createPostError hs :)
          have h2 : w'.BotUserID = w.BotUserID := (congrArg World.BotUserID hs :)
          have h3 : windowOpenPost w' c = windowOpenPost w c := by
            simp [windowOpenPost, h2]
          rw [h1, h3]
          exact hfail
        have hfl : (c :: rest).filter (fun d => decide (d ≠ c)) =
            rest.filter (fun d => decide (d ≠ c)) := by simp
        rw [hfl, sendWindowOpenNotification,
          sendWindowOpenNotificationChannel_of_refused w' c e hf]
        exact ih w' hs
      · have hfl : (c :: rest).filter (fun d => decide (d ≠ ch)) =
            c :: rest.filter (fun d => decide (d ≠ ch)) := by simp [hc]
        rw [hfl, sendWindowOpenNotification, sendWindowOpenNotification]
        exact ih _ ((sendWindowOpenNotificationChannel_setting w' c).trans hs)
  exact key ids w rfl

/-- The claim C22 on a world whose host refuses every post in `channel_1`:
the iteration for `channel_1` changes nothing, and the list `channel_1`,
`channel_2` leaves the one post of `channel_2`. -/
theorem C22_window_open_post_refused_witness :
    postRefusingWorld.createPostError (windowOpenPost postRefusingWorld "channel_1") =
      some "could not create the post" ∧
    sendWindowOpenNotificationChannel postRefusingWorld "channel_1" = postRefusingWorld ∧
    (sendWindowOpenNotification postRefusingWorld ["channel_1", "channel_2"]).posts =
      [{ windowOpenPost postRefusingWorld "channel_2" with Id := "post_0" }] :=
  ⟨rfl, (C22_window_open_post_refused postRefusingWorld "channel_1"
    "could not create the post" rfl).1, by decide⟩

/-! ## The window close notification -/

theorem collectUsersPendingStandup_eq (w : World) (ch : String) (c : Config) :
    ∀ (l acc p : List String), collectUsersPendingStandup w ch c l acc = .ok p →
      p = acc ++ (l.filter (hasNoStandup w ch (w.Now c.Timezone))).map (usernameOf w) := by
  intro l
  induction l with
  | nil =>
    intro acc p h
    simp only [collectUsersPendingStandup, Except.ok.injEq] at h
    simp [h]
  | cons u rest ih =>
    intro acc p h
    unfold collectUsersPendingStandup at h
    rcases hs : w.GetUserStandup u ch (w.Now c.Timezone) with e | (_ | s)
    · simp [hs] at h
    · simp only [hs] at h
      rcases hu : w.GetUser u with e | user
      · simp [hu] at h
      · simp only [hu] at h
        rw [ih _ _ h]
        simp [hasNoStandup, hs, usernameOf, hu]
    · simp only [hs] at h
      rw [ih _ _ h]
      simp [hasNoStandup, hs]

theorem collectUsersPendingStandup_ok (w : World) (ch : String) (c : Config) :
    ∀ (l acc : List String),
      (∀ u ∈ l, (w.GetUserStandup u ch (w.Now c.Timezone)).isOk = true) →
      (∀ u ∈ l, hasNoStandup w ch (w.Now c.Timezone) u = true → (w.GetUser u).isOk = true) →
      collectUsersPendingStandup w ch c l acc =
        .ok (acc ++ (l.filter (hasNoStandup w ch (w.Now c.Timezone))).map (usernameOf w)) := by
  intro l
  induction l with
  | nil => intro acc _ _; simp [collectUsersPendingStandup]
  | cons u rest ih =>
    intro acc h1 h2
    have ih1 := fun acc => ih acc (fun v hv => h1 v (List.mem_cons_of_mem _ hv))
      (fun v hv => h2 v (List.mem_cons_of_mem _ hv))
    unfold collectUsersPendingStandup
    rcases hs : w.GetUserStandup u ch (w.Now c.Timezone) with e | (_ | s)
    · have h := h1 u (List.mem_cons_self _ _)
      simp [hs, Except.isOk, Except.toBool] at h
    · have hn : hasNoStandup w ch (w.Now c.Timezone) u = true := by simp [hasNoStandup, hs]
      rcases hu : w.GetUser u with e | user
      · have h := h2 u (List.mem_cons_self _ _) hn
        simp [hu, Except.isOk, Except.toBool] at h
      · simp only
        rw [ih1]
        simp [hn, usernameOf, hu]
    · simp only
      rw [ih1]
      simp [hasNoStandup, hs]

/-- After the reminder post of a channel is created, the rest of the iteration
of `sendWindowCloseNotification` creates no other post. -/
theorem windowClose_after_post (w1 : World) (i ch : String) :
    (match addReminderPost w1 i ch with
      | (some err, w2) => ((.ret (some err), w2) : Step × World)
      | (none, w2) =>
        match (GetNotificationStatus w2 ch).1 with
        | .error _ => (.next, w2)
        | .ok notificationStatus =>
          match SetNotificationStatus w2 ch
              { notificationStatus with WindowCloseNotificationSent := true } with
          | (some err, w3) => (.ret (some err), w3)
          | (none, w3) => (.next, w3)).2.posts = w1.posts := by
  have h2 := (addReminderPost_frame w1 i ch).2.1
  generalize addReminderPost w1 i ch = y at h2 ⊢
  rcases y with ⟨err, w2⟩
  rcases err with _ | e
  · simp only
    rcases (GetNotificationStatus w2 ch).1 with e | st
    · exact h2
    · simp only
      have h3 := (posts_SetNotificationStatus w2 ch
        { st with WindowCloseNotificationSent := true }).1
      generalize SetNotificationStatus w2 ch _ = z at h3 ⊢
      rcases z with ⟨err, w3⟩
      cases err <;> exact h3.trans h2
  · exact h2

/-- The posts after an iteration of `sendWindowCloseNotification` for a
channel whose members are read: unchanged when no member is pending or the
host refuses the reminder, and otherwise the reminder is added. -/
theorem windowClose_posts (w : World) (ch : String) (c : Config)
    (hc : w.GetStandupConfig ch = .ok (some c))
    (hcol : collectUsersPendingStandup w ch c c.Members [] = .ok (pendingUsernames w ch c)) :
    (pendingUsernames w ch c = [] → sendWindowCloseNotificationChannel w ch = (.ret none, w)) ∧
    (pendingUsernames w ch c ≠ [] →
      (∀ e, w.createPostError (windowClosePost w ch (pendingUsernames w ch c)) = some e →
        sendWindowCloseNotificationChannel w ch = (.next, w)) ∧
      (w.createPostError (windowClosePost w ch (pendingUsernames w ch c)) = none →
        (sendWindowCloseNotificationChannel w ch).2.posts = w.posts ++
          [{ windowClosePost w ch (pendingUsernames w ch c) with
            Id := w.newPostID w.posts.length }])) := by
  refine ⟨fun h0 => ?_, fun hne => ⟨fun e he => ?_, fun hok => ?_⟩⟩
  · unfold sendWindowCloseNotificationChannel
    simp [hc, hcol, h0]
  · have hl : (pendingUsernames w ch c).length ≠ 0 := by
      simpa [List.length_eq_zero] using hne
    unfold windowClosePost at he
    unfold sendWindowCloseNotificationChannel
    simp [hc, hcol, hl, World.CreatePost, he]
  · have hl : (pendingUsernames w ch c).length ≠ 0 := by
      simpa [List.length_eq_zero] using hne
    unfold windowClosePost at hok ⊢
    unfold sendWindowCloseNotificationChannel
    simp only [hc, hcol, hl, if_false, World.CreatePost, hok]
    exact windowClose_after_post _ _ ch

/-- C21: for a channel with a configuration, in an iteration of
`sendWindowCloseNotification`: when every member of the standup has a
standup today, nothing changes, and no post is created; in every case the
posts afterwards are the posts before, or the posts before followed by one
post, and then some member has no standup today and the post is the
reminder whose message is "@", the usernames of the members without
standup, in the order of the member list, joined by ", @", and
" - a gentle reminder to fill your standup."; and when no lookup fails, some
member has no standup today and the host does not refuse the post, the
reminder is created. -/
theorem C21_window_close_reminder (w : World) (ch : String) (c : Config)
    (hc : w.GetStandupConfig ch = .ok (some c)) :
    ((∀ u ∈ c.Members, ∃ s, w.GetUserStandup u ch (w.Now c.Timezone) = .ok (some s)) →
      sendWindowCloseNotificationChannel w ch = (.ret none, w)) ∧
    ((sendWindowCloseNotificationChannel w ch).2.posts = w.posts ∨
      (c.Members.filter (hasNoStandup w ch (w.Now c.Timezone)) ≠ [] ∧
        (sendWindowCloseNotificationChannel w ch).2.posts = w.posts ++
          [{ windowClosePost w ch (pendingUsernames w ch c) with
            Id := w.newPostID w.posts.length }])) ∧
    ((∀ u ∈ c.Members, (w.GetUserStandup u ch (w.Now c.Timezone)).isOk = true) →
      (∀ u ∈ c.Members, hasNoStandup w ch (w.Now c.Timezone) u = true →
        (w.GetUser u).isOk = true) →
      c.Members.filter (hasNoStandup w ch (w.Now c.Timezone)) ≠ [] →
      w.createPostError (windowClosePost w ch (pendingUsernames w ch c)) = none →
      (sendWindowCloseNotificationChannel w ch).2.posts = w.posts ++
        [{ windowClosePost w ch (pendingUsernames w ch c) with
          Id := w.newPostID w.posts.length }] ∧
      (windowClosePost w ch (pendingUsernames w ch c)).Message =
        "@" ++ ", @".intercalate
          ((c.Members.filter (hasNoStandup w ch (w.Now c.Timezone))).map (usernameOf w)) ++
          " - a gentle reminder to fill your standup.") := by
  have hnil : pendingUsernames w ch c = [] ↔
      c.Members.filter (hasNoStandup w ch (w.Now c.Timezone)) = [] := by
    simp [pendingUsernames]
  refine ⟨fun hall => ?_, ?_, fun h1 h2 hne hok => ⟨?_, rfl⟩⟩
  · have hcol := collectUsersPendingStandup_ok w ch c c.Members []
      (fun u hu => by
        obtain ⟨s, hs⟩ := hall u hu
        rw [hs]
        rfl)
      (fun u hu hn => by
        obtain ⟨s, hs⟩ := hall u hu
        simp [hasNoStandup, hs] at hn)
    have h0 : pendingUsernames w ch c = [] := by
      rw [hnil, List.filter_eq_nil_iff]
      intro u hu
      obtain ⟨s, hs⟩ := hall u hu
      simp [hasNoStandup, hs]
    exact (windowClose_posts w ch c hc (by simpa [pendingUsernames] using hcol)).1 h0
  · rcases hcol : collectUsersPendingStandup w ch c c.Members [] with e | p
    · left
      unfold sendWindowCloseNotificationChannel
      simp [hc, hcol]
    · have hp := collectUsersPendingStandup_eq w ch c _ _ _ hcol
      simp only [List.nil_append] at hp
      have hcol2 : collectUsersPendingStandup w ch c c.Members [] =
          .ok (pendingUsernames w ch c) := by rw [hcol, hp]; rfl
      obtain ⟨hA, hB⟩ := windowClose_posts w ch c hc hcol2
      by_cases h0 : pendingUsernames w ch c = []
      · left
        rw [hA h0]
      · rcases he : w.createPostError (windowClosePost w ch (pendingUsernames w ch c)) with
          _ | e
        · right
          exact ⟨fun h => h0 (hnil.2 h), (hB h0).2 he⟩
        · left
          rw [(hB h0).1 e he]
  · have hcol := collectUsersPendingStandup_ok w ch c c.Members [] h1 h2
    have hcol2 : collectUsersPendingStandup w ch c c.Members [] =
        .ok (pendingUsernames w ch c) := by simpa [pendingUsernames] using hcol
    exact ((windowClose_posts w ch c hc hcol2).2 (fun h => hne (hnil.1 h))).2 hok

/-- The claim C21 on `channel_1` of the sample world at 10:50, where Foo Bar
has a standup and John has none: the reminder names John only. -/
theorem C21_window_close_reminder_witness :
    (sampleWorld 39000 everyChannelConfigured emptyStore).GetStandupConfig "channel_1" =
      .ok (some (sampleConfig "channel_1")) ∧
    (sendWindowCloseNotificationChannel
      (sampleWorld 39000 everyChannelConfigured emptyStore) "channel_1").2.posts =
      [{ Id := "post_0", ChannelId := "channel_1", UserId := "bot_user_id", PostType := "",
         Message := "@john - a gentle reminder to fill your standup." }] :=
  ⟨rfl, ((C21_window_close_reminder (sampleWorld 39000 everyChannelConfigured emptyStore)
    "channel_1" (sampleConfig "channel_1") rfl).2.2 (by decide) (by decide) (by decide)
    (by decide)).1⟩

/-! ## A window open notification that succeeds -/

/-- The host after an iteration of `sendWindowOpenNotification` all of whose
host calls succeed: the post is added to the posts, then the new list of
reminder posts is stored, then the new status is stored. -/
theorem sendWindowOpenNotificationChannel_of_ok (w : World) (ch : String) (c : Config)
    (old : List String) (b b2 : String) (st : ChannelNotificationStatus)
    (hpost : w.createPostError (windowOpenPost w ch) = none)
    (hold : getReminderPosts w ch = .ok old)
    (hb : w.jsonMarshalStrings (old ++ [w.newPostID w.posts.length]) = .ok b)
    (hset : w.kvSetError (reminderKeyHash w ch) b = none)
    (hc : w.GetStandupConfig ch = .ok (some c))
    (hne : reminderKeyHash w ch ≠ statusKeyHash w ch c)
    (hst : HasStatus w ch st)
    (hb2 : w.jsonMarshal { st with WindowOpenNotificationSent := true } = .ok b2)
    (hset2 : w.kvSetError (statusKeyHash w ch c) b2 = none) :
    sendWindowOpenNotificationChannel w ch =
      { w with
        posts := w.posts ++ [{ windowOpenPost w ch with Id := w.newPostID w.posts.length }],
        kv := fun k => if k = statusKeyHash w ch c then .ok b2
          else if k = reminderKeyHash w ch then .ok b else w.kv k } := by
  unfold windowOpenPost at hpost ⊢
  have hold1 : getReminderPosts
      { w with posts := w.posts ++ [⟨w.newPostID w.posts.length, ch, w.BotUserID,
          POST_DEFAULT, "Please start filling your standup!"⟩] } ch = .ok old := hold
  have hst2 : (GetNotificationStatus
      { w with
        posts := w.posts ++ [⟨w.newPostID w.posts.length, ch, w.BotUserID,
          POST_DEFAULT, "Please start filling your standup!"⟩],
        kv := fun k => if k = w.GetKeyHash (reminderPostsKey ch) then .ok b else w.kv k } ch).1 =
      .ok st := by
    have h := getStatus_congr w
      { w with
        posts := w.posts ++ [⟨w.newPostID w.posts.length, ch, w.BotUserID,
          POST_DEFAULT, "Please start filling your standup!"⟩],
        kv := fun k => if k = w.GetKeyHash (reminderPostsKey ch) then .ok b else w.kv k } ch rfl
      (fun c2 hc2 => by
        rw [hc] at hc2
        cases hc2
        have hne2 : ¬ statusKeyHash w ch c = w.GetKeyHash (reminderPostsKey ch) :=
          fun h => hne h.symm
        simp only [hne2, if_false])
    rw [h]
    exact hst
  simp only [reminderKeyHash, statusKeyHash, notificationStatusKey] at hset hset2
  unfold sendWindowOpenNotificationChannel
  simp only [World.CreatePost, hpost, addReminderPost, hold1, saveReminderPosts, hb,
    World.KVSet, hset, hst2, SetNotificationStatus, hc, hb2, hset2, reminderKeyHash,
    statusKeyHash, notificationStatusKey]

/-- C23: an iteration of `sendWindowOpenNotification` for a channel all of
whose host calls succeed (the post is accepted, the list of reminder posts
is read, encoded and stored, the status is read, encoded and stored), with
a JSON library that decodes the two texts it encoded and a status key that
is not the key of the reminder posts: the posts afterwards are the posts
before and one post in the channel with the message
"Please start filling your standup!"; the list of reminder posts read
afterwards is the list read before with the ID of the post at its end; and
the status read afterwards has `WindowOpenNotificationSent` set and the two
other flags as before. -/
theorem C23_window_open_notification_sent (w : World) (ch : String) (c : Config)
    (old : List String) (b b2 : String) (st : ChannelNotificationStatus)
    (hpost : w.createPostError (windowOpenPost w ch) = none)
    (hold : getReminderPosts w ch = .ok old)
    (hb : w.jsonMarshalStrings (old ++ [w.newPostID w.posts.length]) = .ok b)
    (hset : w.kvSetError (reminderKeyHash w ch) b = none)
    (hc : w.GetStandupConfig ch = .ok (some c))
    (hst : HasStatus w ch st)
    (hb2 : w.jsonMarshal { st with WindowOpenNotificationSent := true } = .ok b2)
    (hset2 : w.kvSetError (statusKeyHash w ch c) b2 = none)
    (hne : reminderKeyHash w ch ≠ statusKeyHash w ch c)
    (hdec : b.length ≠ 0 ∧ w.jsonUnmarshalStrings b = .ok (old ++ [w.newPostID w.posts.length]))
    (hdec2 : b2.length ≠ 0 ∧
      w.jsonUnmarshal b2 = .ok { st with WindowOpenNotificationSent := true }) :
    (sendWindowOpenNotificationChannel w ch).posts =
      w.posts ++ [⟨w.newPostID w.posts.length, ch, w.BotUserID, POST_DEFAULT,
        "Please start filling your standup!"⟩] ∧
    getReminderPosts (sendWindowOpenNotificationChannel w ch) ch =
      .ok (old ++ [w.newPostID w.posts.length]) ∧
    HasStatus (sendWindowOpenNotificationChannel w ch) ch
      ⟨true, st.WindowCloseNotificationSent, st.StandupReportSent⟩ := by
  rw [sendWindowOpenNotificationChannel_of_ok w ch c old b b2 st hpost hold hb hset hc hne hst
    hb2 hset2]
  refine ⟨rfl, ?_, ?_⟩
  · simp only [getReminderPosts, World.KVGet]
    have hne2 : ¬ w.GetKeyHash (reminderPostsKey ch) = statusKeyHash w ch c := hne
    have hk : reminderKeyHash w ch = w.GetKeyHash (reminderPostsKey ch) := rfl
    simp only [hne2, hk, if_false, if_true, hdec.1, hdec.2]
  · unfold HasStatus
    have hc' : ({ w with
        posts := w.posts ++ [{ windowOpenPost w ch with Id := w.newPostID w.posts.length }],
        kv := fun k => if k = statusKeyHash w ch c then .ok b2
          else if k = reminderKeyHash w ch then .ok b else w.kv k } :
        World).GetStandupConfig ch = .ok (some c) := hc
    rw [getStatus_eq _ ch c hc']
    have hk : statusKeyHash { w with
        posts := w.posts ++ [{ windowOpenPost w ch with Id := w.newPostID w.posts.length }],
        kv := fun k => if k = statusKeyHash w ch c then .ok b2
          else if k = reminderKeyHash w ch then .ok b else w.kv k } ch c =
        statusKeyHash w ch c := rfl
    rw [hk]
    simp only [if_true, hdec2.1, if_false]
    exact hdec2.2

/-- The claim C23 on `channel_1` of the sample world at 10:10 with a store
that holds the close flag and the list of one reminder post: the post
`post_0` is created, the list read afterwards is `post_9`, `post_0`, and the
status read afterwards has the open flag and the close flag. -/
theorem C23_window_open_notification_sent_witness :
    (sendWindowOpenNotificationChannel (sampleWorld 36600 everyChannelConfigured
      reminderStore) "channel_1").posts =
      [{ Id := "post_0", ChannelId := "channel_1", UserId := "bot_user_id", PostType := "",
         Message := "Please start filling your standup!" }] ∧
    getReminderPosts (sendWindowOpenNotificationChannel (sampleWorld 36600
      everyChannelConfigured reminderStore) "channel_1") "channel_1" =
      .ok ["post_9", "post_0"] ∧
    HasStatus (sendWindowOpenNotificationChannel (sampleWorld 36600 everyChannelConfigured
      reminderStore) "channel_1") "channel_1" ⟨true, true, false⟩ :=
  C23_window_open_notification_sent (sampleWorld 36600 everyChannelConfigured reminderStore)
    "channel_1" (sampleConfig "channel_1") ["post_9"] "[post_9,post_0]"
    (sampleEncode ⟨true, true, false⟩) ⟨false, true, false⟩
    rfl (by decide!) (by decide) rfl rfl (by decide!) rfl rfl (by decide) (by decide!)
    (by decide!)

/-! ## The three due times -/

/-- C27: for a channel with a configuration whose window open time is not
after its window close time, both as the times are compared with the current
time and as the length of the window is measured, with a percentage that is
not negative: when the current time is not after the window open time,
`filterChannelNotification` lists the channel in none of its three lists,
whatever the stored status is, and also when the channel is disabled or the
day is no standup day. -/
theorem C27_nothing_listed_before_window_open (w : World) (ids : List String) (ch : String)
    (c : Config) (hc : w.GetStandupConfig ch = .ok (some c))
    (hwin : windowOpenTime w c ≤ windowCloseTime w c) (hdur : 0 ≤ windowDuration w c)
    (hp : 0 ≤ w.WindowCloseNotificationDurationPercentage)
    (hnow : ¬ currentTime w c > windowOpenTime w c) (p : Pending) :
    ch ∉ (filterChannelNotification w ids).1.listOf p := by
  intro hmem
  obtain ⟨_, hsel⟩ := mem_listOf w ids p ch hmem
  obtain ⟨c2, st, hc2, _, _, _, hch⟩ := (selects_iff w p ch).1 hsel
  rw [hc] at hc2
  cases hc2
  have hnow2 : currentTime w c ≤ windowOpenTime w c := not_lt.1 hnow
  have hprod := mul_nonneg hdur hp
  cases p
  · exact hnow ((choice_open_iff w st c).1 hch).2.2.2.2.2
  · have h := ((choice_close_iff w st c).1 hch).2.2.2.2
    have h2 : windowOpenTime w c + windowDuration w c *
        w.WindowCloseNotificationDurationPercentage < currentTime w c := h
    linarith
  · have h := ((choice_report_iff w st c).1 hch).2
    have h2 : windowCloseTime w c < currentTime w c := h
    linarith

/-- The claim C27 on `channel_1` of the sample world at 09:00, an hour before
the window opens. -/
theorem C27_nothing_listed_before_window_open_witness :
    ¬ currentTime (sampleWorld 32400 everyChannelConfigured emptyStore)
        (sampleConfig "channel_1") >
      windowOpenTime (sampleWorld 32400 everyChannelConfigured emptyStore)
        (sampleConfig "channel_1") ∧
    "channel_1" ∉ (filterChannelNotification
      (sampleWorld 32400 everyChannelConfigured emptyStore)
      ["channel_1", "channel_2"]).1.listOf .windowOpen :=
  ⟨by decide!, C27_nothing_listed_before_window_open
    (sampleWorld 32400 everyChannelConfigured emptyStore) ["channel_1", "channel_2"]
    "channel_1" (sampleConfig "channel_1") rfl (by decide!) (by decide!) (by decide!)
    (by decide!) .windowOpen⟩

/-- C28, as stated, fails at 10:01:30 for the window from 10:00:59 to
10:01:00 when `GetTime` drops the seconds of the window times: the window
open time is before the window close time and the percentage is 4/5, the
length of the window is measured as a minute, so that the close reminder is
due 48 seconds after 10:00:59; `shouldSendStandupReport` returns "send" and
`shouldSendWindowCloseNotification` returns "not_yet". -/
theorem C28_counterexample :
    windowOpenTime (minuteWorld 36090) (shortWindowConfig "channel_1") ≤
      windowCloseTime (minuteWorld 36090) (shortWindowConfig "channel_1") ∧
    0 ≤ (minuteWorld 36090).WindowCloseNotificationDurationPercentage ∧
    (minuteWorld 36090).WindowCloseNotificationDurationPercentage ≤ 1 ∧
    shouldSendStandupReport (minuteWorld 36090) ⟨false, false, false⟩
      (shortWindowConfig "channel_1") = "send" ∧
    shouldSendWindowCloseNotification (minuteWorld 36090) ⟨false, false, false⟩
      (shortWindowConfig "channel_1") = "not_yet" := by
  decide!

/-- C28, amended: for every configuration whose window length, as
`shouldSendWindowCloseNotification` measures it between the `GetTime`
readings of the two window times, is not negative and not more than the time
from the window open time to the window close time as they are compared with
the current time, with a percentage between 0 and 1, and for every status
and current time: if `shouldSendStandupReport` returns "send" then
`shouldSendWindowCloseNotification` does not return "not_yet", and if
`shouldSendWindowCloseNotification` returns "send" then
`shouldSendWindowOpenNotification` does not return "not_yet". -/
theorem C28_due_times_ordered (w : World) (st : ChannelNotificationStatus) (c : Config)
    (hdur0 : 0 ≤ windowDuration w c)
    (hdur : windowDuration w c ≤ windowCloseTime w c - windowOpenTime w c)
    (hp0 : 0 ≤ w.WindowCloseNotificationDurationPercentage)
    (hp1 : w.WindowCloseNotificationDurationPercentage ≤ 1) :
    (shouldSendStandupReport w st c = ChannelNotificationStatusSend →
      shouldSendWindowCloseNotification w st c ≠ ChannelNotificationStatusNotYet) ∧
    (shouldSendWindowCloseNotification w st c = ChannelNotificationStatusSend →
      shouldSendWindowOpenNotification w st c ≠ ChannelNotificationStatusNotYet) := by
  obtain ⟨h1, h2, h3⟩ := status_ne
  have hprod0 := mul_nonneg hdur0 hp0
  have hprod1 : windowDuration w c * w.WindowCloseNotificationDurationPercentage ≤
      windowDuration w c := mul_le_of_le_one_right hdur0 hp1
  rw [shouldSendStandupReport_eq, shouldSendWindowCloseNotification_eq,
    shouldSendWindowOpenNotification_eq]
  constructor
  · intro hrep
    split_ifs at hrep with hr hA
    · exact absurd hrep h1
    · split_ifs with hcl hB
      · exact h3.symm
      · exact h2.symm
      · exfalso
        apply hB
        have hA2 : windowCloseTime w c < currentTime w c := hA
        show windowOpenTime w c + windowDuration w c *
          w.WindowCloseNotificationDurationPercentage < currentTime w c
        linarith
    · exact absurd hrep h2
  · intro hclose
    split_ifs at hclose with hcl hB
    · exact absurd hclose h1
    · split_ifs with ho hC
      · exact h3.symm
      · exact h2.symm
      · exfalso
        apply hC
        have hB2 : windowOpenTime w c + windowDuration w c *
          w.WindowCloseNotificationDurationPercentage < currentTime w c := hB
        show windowOpenTime w c < currentTime w c
        linarith
    · exact absurd hclose h2

/-- The amended claim C28 on the sample window from 10:00 to 11:00 at 11:30,
with no flag set: the report is due, and so is the close reminder. -/
theorem C28_due_times_ordered_witness :
    shouldSendStandupReport (sampleWorld 41400 everyChannelConfigured emptyStore)
      ⟨false, false, false⟩ (sampleConfig "channel_1") = ChannelNotificationStatusSend ∧
    shouldSendWindowCloseNotification (sampleWorld 41400 everyChannelConfigured emptyStore)
      ⟨false, false, false⟩ (sampleConfig "channel_1") ≠ ChannelNotificationStatusNotYet :=
  ⟨by decide!, (C28_due_times_ordered (sampleWorld 41400 everyChannelConfigured emptyStore)
    ⟨false, false, false⟩ (sampleConfig "channel_1") (by decide!) (by decide!) (by decide!)
    (by decide!)).1 (by decide!)⟩

/-! ## Standup days -/

/-- C29, as stated, fails for a recurrence rule whose only occurrence is
thirty seconds before the midnight that starts the current day: `isStandupDay`
returns true, and the rule has no occurrence from that midnight to the
next. -/
theorem C29_counterexample :
    isStandupDay (sampleWorld 43200 everyChannelConfigured emptyStore)
      (lateRuleConfig "channel_1") = true ∧
    ¬ ∃ t ∈ (lateRuleConfig "channel_1").RRule.occurrences,
      (sampleWorld 43200 everyChannelConfigured emptyStore).Date
        ((sampleWorld 43200 everyChannelConfigured emptyStore).Now
          (lateRuleConfig "channel_1").Timezone) ≤ t ∧
      t < (sampleWorld 43200 everyChannelConfigured emptyStore).Date
        ((sampleWorld 43200 everyChannelConfigured emptyStore).Now
          (lateRuleConfig "channel_1").Timezone) + 24 * 3600 := by
  decide!

/-- C29, amended: `isStandupDay` returns true if and only if the recurrence
rule of the configuration has an occurrence at a time `t` that is after one
minute before 00:00 of the current calendar day of the configuration's
timezone and before 24 hours after that 00:00. -/
theorem C29_standup_day_iff (w : World) (c : Config) :
    isStandupDay w c = true ↔
      ∃ t ∈ c.RRule.occurrences,
        w.Date (w.Now c.Timezone) - 60 < t ∧ t < w.Date (w.Now c.Timezone) + 24 * 3600 := by
  unfold isStandupDay RRule.Between
  simp only [Bool.false_eq_true, if_false, gt_iff_lt, decide_eq_true_eq, List.length_pos,
    ne_eq, List.filter_eq_nil_iff, not_forall, Classical.not_imp, not_not]
  constructor
  · rintro ⟨t, ht, h1, h2⟩
    exact ⟨t, ht, by linarith, h2⟩
  · rintro ⟨t, ht, h1, h2⟩
    exact ⟨t, ht, by linarith, h2⟩

/-! ## The report without standups -/

/-- C24: for an empty list of user standups, each of the two generators
returns, without error, the post of the bot user in the channel whose
message is the header of the report for the date followed by
":warning: **No user has submitted their standup.**" and nothing else,
whatever the configured sections and the members without standup are; and
for a channel whose standup has no members, the report of an iteration of
`SendStandupReport` is that post, in the format of the configuration. -/
theorem C24_report_without_standups (w : World) (c : Config) (membersNoStandup : List String)
    (ch : String) (date : OTime) :
    generateTypeAggregatedStandupReport w c [] membersNoStandup ch date =
      .ok { Id := "", ChannelId := ch, UserId := w.BotUserID, PostType := "",
            Message := "#### Standup Report for *" ++ w.Format date "2 Jan 2006" ++ "*\n\n" ++
              ":warning: **No user has submitted their standup.**" } ∧
    generateUserAggregatedStandupReport w c [] membersNoStandup ch date =
      .ok { Id := "", ChannelId := ch, UserId := w.BotUserID, PostType := "",
            Message := "#### Standup Report for *" ++ w.Format date "2 Jan 2006" ++ "*\n" ++
              ":warning: **No user has submitted their standup.**" } ∧
    (w.GetStandupConfig ch = .ok (some c) → c.Members = [] →
      (c.ReportFormat = w.ReportFormatTypeAggregated →
        reportFor w ch date = generateTypeAggregatedStandupReport w c [] [] ch date) ∧
      (c.ReportFormat ≠ w.ReportFormatTypeAggregated →
        c.ReportFormat = w.ReportFormatUserAggregated →
        reportFor w ch date = generateUserAggregatedStandupReport w c [] [] ch date)) := by
  refine ⟨rfl, rfl, fun hc hm => ⟨fun hf => ?_, fun hn hf => ?_⟩⟩
  · simp [reportFor, hc, hm, collectUserStandups, sortUserStandups, sortUserStandupsCollect,
      generateReport, hf]
  · have hn2 : ¬ w.ReportFormatUserAggregated = w.ReportFormatTypeAggregated := by
      rw [← hf]
      exact hn
    simp [reportFor, hc, hm, collectUserStandups, sortUserStandups, sortUserStandupsCollect,
      generateReport, hn2, hf]

/-- The claim C24 on two channels whose standups have no members, one in
each format. -/
theorem C24_report_without_standups_witness :
    reportFor (sampleWorld 43200 memberlessConfigs emptyStore) "channel_1" ⟨43200, "UTC"⟩ =
      .ok { Id := "", ChannelId := "channel_1", UserId := "bot_user_id", PostType := "",
            Message := "#### Standup Report for *5 Jan 2026*\n\n:warning: **No user has submitted their standup.**" } ∧
    reportFor (sampleWorld 43200 memberlessConfigs emptyStore) "channel_2" ⟨43200, "UTC"⟩ =
      .ok { Id := "", ChannelId := "channel_2", UserId := "bot_user_id", PostType := "",
            Message := "#### Standup Report for *5 Jan 2026*\n:warning: **No user has submitted their standup.**" } :=
  ⟨(((C24_report_without_standups (sampleWorld 43200 memberlessConfigs emptyStore)
      { typeFormatConfig "channel_1" with Members := [] } [] "channel_1" ⟨43200, "UTC"⟩).2.2
      rfl rfl).1 rfl).trans (by decide),
    (((C24_report_without_standups (sampleWorld 43200 memberlessConfigs emptyStore)
      { sampleConfig "channel_2" with Members := [] } [] "channel_2" ⟨43200, "UTC"⟩).2.2
      rfl rfl).2 (by decide) rfl).trans (by decide)⟩

/-! ## The user aggregated report -/

theorem concat_append (l m : List String) : concat (l ++ m) = concat l ++ concat m := by
  induction l with
  | nil => simp [concat]
  | cons a rest ih => simp [concat, ih, String.append_assoc]

theorem intercalate_go (s : String) (l : List String) (acc : String) :
    String.intercalate.go acc s l = acc ++ concat (l.map fun a => s ++ a) := by
  induction l generalizing acc with
  | nil => simp [String.intercalate.go, concat]
  | cons a rest ih =>
    simp only [String.intercalate.go, ih, List.map_cons, concat, String.append_assoc]

theorem concat_lines (nl pre : String) (l : List String) :
    concat (l.map fun a => (nl ++ pre) ++ a) ++ nl =
      nl ++ concat (l.map fun a => pre ++ a ++ nl) := by
  induction l with
  | nil => simp [concat]
  | cons a rest ih =>
    simp only [List.map_cons, concat, String.append_assoc] at ih ⊢
    rw [ih]

/-- The tasks joined by "\n1. ", with "1. " before and a line end after, are
the tasks one per line, each prefixed with "1. ". -/
theorem numbered_eq (tasks : List String) (h : tasks ≠ []) :
    "1. " ++ "\n1. ".intercalate tasks ++ "\n" = numbered tasks := by
  cases tasks with
  | nil => exact absurd rfl h
  | cons a rest =>
    have hsep : "\n1. " = "\n" ++ "1. " := by decide
    have h2 := concat_lines "\n" "1. " rest
    simp only [String.intercalate, intercalate_go, numbered, List.map_cons, concat,
      String.append_assoc, hsep] at h2 ⊢
    rw [h2]

theorem userAggregatedSections_eq (U : UserStandup) (secs : List String) (acc : String) :
    userAggregatedSections U secs acc =
      acc ++ concat ((secs.filter fun S => decide (tasksOf U S ≠ [])).map
        (userSectionBlock U)) := by
  induction secs generalizing acc with
  | nil => simp [userAggregatedSections, concat]
  | cons S rest ih =>
    unfold userAggregatedSections
    rcases hl : U.Standup.lookup S with _ | tasks
    · have ht : tasksOf U S = [] := by simp [tasksOf, hl]
      simp [ih, ht]
    · simp only
      by_cases h0 : tasks.length = 0
      · have ht : tasksOf U S = [] := by simp [tasksOf, hl, List.length_eq_zero.1 h0]
        simp [h0, ih, ht]
      · have ht : tasksOf U S = tasks := by simp [tasksOf, hl]
        have hne : tasks ≠ [] := fun h => h0 (by simp [h])
        have hnl : "\n\n" = "\n" ++ "\n" := by decide
        simp only [h0, if_false, ih]
        rw [List.filter_cons_of_pos (by simp [ht, hne])]
        simp only [List.map_cons, concat, userSectionBlock, ht, ← numbered_eq tasks hne,
          String.append_assoc, hnl]

theorem userAggregatedUsers_eq (w : World) (c : Config) (L : List UserStandup)
    (hok : ∀ U ∈ L, (w.GetUser U.UserID).isOk = true) (acc : String) :
    userAggregatedUsers w c L acc = .ok (acc ++ concat (L.map (userBlock w c))) := by
  induction L generalizing acc with
  | nil => simp [userAggregatedUsers, concat]
  | cons U rest ih =>
    have hU := hok U (List.mem_cons_self _ _)
    unfold userAggregatedUsers
    rcases hu : w.GetUser U.UserID with e | user
    · simp [hu, Except.isOk, Except.toBool] at hU
    · simp only [getUserDisplayName, hu]
      rw [ih (fun V hV => hok V (List.mem_cons_of_mem _ hV)), userAggregatedSections_eq]
      simp only [List.map_cons, concat, userBlock, displayNameOf, hu, String.append_assoc]

/-- C26: for a list of user standups that is not empty and whose users are
all found, `generateUserAggregatedStandupReport` returns the post of the bot
user in the channel whose message is the header of the report, the line of
the members without standup, and the blocks of the user standups in the
order of the list; the block of a user standup is the header of the user
and, for exactly the sections of the configuration for which the standup
has a task, in the order of the configuration, the line "##### " with the
title, the tasks in their order, one per line, each prefixed with "1. ", and
an empty line; a section of the configuration for which the standup has no
task list or an empty one is left out, and so is a section of the standup
that is not in the configuration. -/
theorem C26_user_aggregated_report (w : World) (c : Config) (L : List UserStandup)
    (membersNoStandup : List String) (ch : String) (date : OTime) (hne : L ≠ [])
    (hok : ∀ U ∈ L, (w.GetUser U.UserID).isOk = true) :
    generateUserAggregatedStandupReport w c L membersNoStandup ch date =
      .ok { Id := "", ChannelId := ch, UserId := w.BotUserID, PostType := "",
            Message := "#### Standup Report for *" ++ w.Format date "2 Jan 2006" ++ "*\n" ++
              userAggregatedPending w membersNoStandup ++ concat (L.map (userBlock w c)) } ∧
    (∀ U, userBlock w c U =
      "#### " ++ UserIcon w U.UserID ++ " " ++ displayNameOf w U.UserID ++ "\n\n" ++
        concat ((c.Sections.filter fun S =>
          decide ((U.Standup.lookup S).getD [] ≠ [])).map fun S =>
            "##### " ++ S ++ "\n" ++
              concat (((U.Standup.lookup S).getD []).map fun task => "1. " ++ task ++ "\n") ++
              "\n")) := by
  refine ⟨?_, fun U => rfl⟩
  have hlen : L.length > 0 := List.length_pos.2 hne
  unfold generateUserAggregatedStandupReport
  rw [userAggregatedUsers_eq w c L hok]
  simp only [hlen, if_true, userAggregatedPending, String.empty_append]
  split_ifs <;> simp only [String.append_assoc, String.append_empty]

/-- The claim C26 on two standups in the sample world: the first has two
tasks in the first section, an empty second section and a section that is
not configured; the second has a task in the second section only. -/
theorem C26_user_aggregated_report_witness :
    (∀ U ∈ [(⟨"user_id_1", "channel_1", [("section 1", ["task_1", "task_2"]),
        ("section 2", []), ("section 9", ["task_9"])]⟩ : UserStandup),
        ⟨"user_id_3", "channel_1", [("section 2", ["task_3"])]⟩],
      ((sampleWorld 43200 everyChannelConfigured emptyStore).GetUser U.UserID).isOk = true) ∧
    generateUserAggregatedStandupReport (sampleWorld 43200 everyChannelConfigured emptyStore)
      (sampleConfig "channel_1")
      [⟨"user_id_1", "channel_1", [("section 1", ["task_1", "task_2"]),
        ("section 2", []), ("section 9", ["task_9"])]⟩,
        ⟨"user_id_3", "channel_1", [("section 2", ["task_3"])]⟩]
      ["john"] "channel_1" ⟨43200, "UTC"⟩ =
      .ok { Id := "", ChannelId := "channel_1", UserId := "bot_user_id", PostType := "",
            Message := "#### Standup Report for *5 Jan 2026*\n\n@john has not submitted their standup\n\n#### ![User Avatar](/api/v4/users/user_id_1/image =20x20) Foo Bar\n\n##### section 1\n1. task_1\n1. task_2\n\n#### ![User Avatar](/api/v4/users/user_id_3/image =20x20) John Doe\n\n##### section 2\n1. task_3\n\n" } :=
  ⟨by decide, ((C26_user_aggregated_report
    (sampleWorld 43200 everyChannelConfigured emptyStore) (sampleConfig "channel_1")
    [⟨"user_id_1", "channel_1", [("section 1", ["task_1", "task_2"]),
      ("section 2", []), ("section 9", ["task_9"])]⟩,
      ⟨"user_id_3", "channel_1", [("section 2", ["task_3"])]⟩]
    ["john"] "channel_1" ⟨43200, "UTC"⟩ (by decide) (by decide)).1).trans (by decide!)⟩

/-! ## The type aggregated report -/

theorem concat_replicate_succ (n : Nat) (a : String) :
    concat (List.replicate (n + 1) a) = a ++ concat (List.replicate n a) := by
  simp [List.replicate_succ, concat]

/-- The two maps after the inner loop of the type aggregated report for one
user standup whose user is found. -/
theorem typeAggregatedSections_eq (w : World) (U : UserStandup) (user : User)
    (hu : w.GetUser U.UserID = .ok user) (secs : List String) :
    ∀ (ut : String → String) (unt : String → List String),
      ∃ ut2 unt2, typeAggregatedSections w U secs ut unt = .ok (ut2, unt2) ∧
        ∀ S, ut2 S = ut S ++ concat (List.replicate
            (if tasksOf U S = [] then 0 else secs.count S) (typeEntry w U S)) ∧
          unt2 S = unt S ++ List.replicate
            (if tasksOf U S = [] then secs.count S else 0) (displayNameOf w U.UserID) := by
  have hd : displayNameOf w U.UserID = user.DisplayName := by simp [displayNameOf, hu]
  induction secs with
  | nil =>
    intro ut unt
    refine ⟨ut, unt, rfl, fun S => ?_⟩
    simp [concat]
  | cons T rest ih =>
    intro ut unt
    have hno : ∀ (ut : String → String) (unt : String → List String), tasksOf U T = [] →
        ∃ ut2 unt2, typeAggregatedSections w U rest ut
            (fun t => if t = T then unt T ++ [user.DisplayName] else unt t) = .ok (ut2, unt2) ∧
          ∀ S, ut2 S = ut S ++ concat (List.replicate
              (if tasksOf U S = [] then 0 else (T :: rest).count S) (typeEntry w U S)) ∧
            unt2 S = unt S ++ List.replicate
              (if tasksOf U S = [] then (T :: rest).count S else 0)
              (displayNameOf w U.UserID) := by
      intro ut unt ht
      obtain ⟨ut2, unt2, h1, h2⟩ := ih ut
        (fun t => if t = T then unt T ++ [user.DisplayName] else unt t)
      refine ⟨ut2, unt2, h1, fun S => ?_⟩
      obtain ⟨hA, hB⟩ := h2 S
      by_cases hS : S = T
      · subst hS
        rw [hA, hB]
        simp [ht, hd, List.replicate_succ]
      · rw [hA, hB]
        have hTS : ¬ T = S := fun h => hS h.symm
        simp [hS, List.count_cons, hTS]
    unfold typeAggregatedSections
    simp only [getUserDisplayName, hu]
    rcases hl : U.Standup.lookup T with _ | tasks
    · exact hno ut unt (by simp [tasksOf, hl])
    · simp only
      by_cases h0 : tasks.length > 0
      · have hne : tasks ≠ [] := List.length_pos.1 h0
        have ht : tasksOf U T = tasks := by simp [tasksOf, hl]
        simp only [h0, if_true]
        obtain ⟨ut2, unt2, h1, h2⟩ := ih
          (fun t => if t = T then
            ut T ++ ("##### " ++ UserIcon w U.UserID ++ " " ++ user.DisplayName ++ "\n1. " ++
              "\n1. ".intercalate tasks ++ "\n")
            else ut t) unt
        refine ⟨ut2, unt2, h1, fun S => ?_⟩
        obtain ⟨hA, hB⟩ := h2 S
        by_cases hS : S = T
        · subst hS
          rw [hA, hB]
          have hsep : "\n1. " = "\n" ++ "1. " := by decide
          have hnum := numbered_eq tasks hne
          simp only [ht, hne, if_false, if_true, List.count_cons_self, concat_replicate_succ,
            typeEntry, hd, ← hnum, hsep, String.append_assoc, and_self]
        · rw [hA, hB]
          have hTS : ¬ T = S := fun h => hS h.symm
          simp [hS, List.count_cons, hTS]
      · have hnil : tasks = [] := by
          cases tasks with
          | nil => rfl
          | cons a l => exact absurd (Nat.succ_pos _) h0
        simp only [h0, if_false]
        exact hno ut unt (by simp [tasksOf, hl, hnil])

/-- The two maps after the first loop of the type aggregated report, when the
users of the standups are found. -/
theorem typeAggregatedUsers_eq (w : World) (c : Config) (L : List UserStandup)
    (hok : ∀ U ∈ L, (w.GetUser U.UserID).isOk = true) :
    ∀ (ut : String → String) (unt : String → List String),
      ∃ ut2 unt2, typeAggregatedUsers w c L ut unt = .ok (ut2, unt2) ∧
        ∀ S, ut2 S = ut S ++ typeTasks w c L S ∧ unt2 S = unt S ++ typeNoTasks w c L S := by
  induction L with
  | nil =>
    intro ut unt
    refine ⟨ut, unt, rfl, fun S => ?_⟩
    simp [typeTasks, typeNoTasks, concat]
  | cons U rest ih =>
    intro ut unt
    have hU := hok U (List.mem_cons_self _ _)
    rcases hu : w.GetUser U.UserID with e | user
    · simp [hu, Except.isOk, Except.toBool] at hU
    · obtain ⟨ut1, unt1, h1, h2⟩ := typeAggregatedSections_eq w U user hu c.Sections ut unt
      obtain ⟨ut2, unt2, h3, h4⟩ := ih (fun V hV => hok V (List.mem_cons_of_mem _ hV)) ut1 unt1
      refine ⟨ut2, unt2, ?_, fun S => ?_⟩
      · unfold typeAggregatedUsers
        simp only [h1]
        exact h3
      · obtain ⟨hA, hB⟩ := h2 S
        obtain ⟨hC, hD⟩ := h4 S
        rw [hC, hD, hA, hB]
        by_cases ht : tasksOf U S = []
        · simp [typeTasks, typeNoTasks, ht, concat, List.filter_cons]
        · simp [typeTasks, typeNoTasks, ht, concat, List.filter_cons, String.append_assoc]

theorem foldl_concat (f : String → String) (secs : List String) (init : String) :
    secs.foldl (fun text S => text ++ f S) init = init ++ concat (secs.map f) := by
  induction secs generalizing init with
  | nil => simp [concat]
  | cons S rest ih => simp [ih, concat, String.append_assoc]

/-- The second loop of the type aggregated report, over the section titles,
adds to the text the sections one after the other. -/
theorem typeAggregated_fold (w : World) (ut : String → String) (unt : String → List String)
    (secs : List String) (init : String) :
    secs.foldl (fun text sectionTitle =>
        let text := text ++ ("##### ** " ++ sectionTitle ++ "**\n\n" ++
          ut sectionTitle ++ "\n")
        if (unt sectionTitle).length > 0 then
          text ++ (", ".intercalate (unt sectionTitle) ++ " " ++
            w.HasHave (unt sectionTitle).length ++ " no open items for " ++
            sectionTitle ++ "\n")
        else text) init =
      init ++ concat (secs.map fun S =>
        "##### ** " ++ S ++ "**\n\n" ++ ut S ++ "\n" ++
          (if (unt S).length > 0 then
            ", ".intercalate (unt S) ++ " " ++ w.HasHave (unt S).length ++
              " no open items for " ++ S ++ "\n"
          else "")) := by
  induction secs generalizing init with
  | nil => simp [concat]
  | cons S rest ih =>
    simp only [List.foldl_cons, List.map_cons, concat, ih]
    split_ifs <;> simp [String.append_assoc]

theorem flatten_map_singleton (f : UserStandup → String) (l : List UserStandup) :
    (l.map fun u => [f u]).flatten = l.map f := by
  induction l with
  | nil => rfl
  | cons u rest ih => simp [ih]

/-- In a list that `sortUserStandups` returns, two standups whose users have
the same display name are the same standup. -/
theorem sortUserStandups_same_name (w : World) (l sorted : List UserStandup)
    (h : ∀ u ∈ l, ∃ usr, w.GetUser u.UserID = .ok usr)
    (hs : sortUserStandups w l = .ok sorted) :
    ∀ U ∈ sorted, ∀ V ∈ sorted,
      displayNameOf w V.UserID = displayNameOf w U.UserID → V = U := by
  rw [sortUserStandups_of_ok w l h] at hs
  have hs2 := Except.ok.inj hs
  subst hs2
  have hm : ∀ e ∈ (l.map fun u => (displayNameOf w u.UserID, u)).reverse,
      e.1 = displayNameOf w e.2.UserID := by
    intro e he
    obtain ⟨u, _, rfl⟩ := List.mem_map.1 (List.mem_reverse.1 he)
    rfl
  have key : ∀ X ∈ ((l.map fun u => displayNameOf w u.UserID).insertionSort
        fun a b => ¬ (w.ToLower b < w.ToLower a)).filterMap
        (fun k => (l.map fun u => (displayNameOf w u.UserID, u)).reverse.lookup k),
      (l.map fun u => (displayNameOf w u.UserID, u)).reverse.lookup
        (displayNameOf w X.UserID) = some X := by
    intro X hX
    obtain ⟨k, _, hlk⟩ := List.mem_filterMap.1 hX
    have hk := hm _ (mem_of_lookup _ k X hlk)
    simp only at hk
    rw [← hk]
    exact hlk
  intro U hU V hV hname
  have h1 := key U hU
  have h2 := key V hV
  rw [hname, h1] at h2
  exact (Option.some.inj h2).symm

/-- The names the code collects for a section are the names of the
statement, when the users of the standups are found. -/
theorem noOpenItems_eq (w : World) (c : Config) (L : List UserStandup)
    (hok : ∀ U ∈ L, (w.GetUser U.UserID).isOk = true) (S : String) :
    noOpenItems w c L S = typeNoTasks w c L S := by
  obtain ⟨ut2, unt2, h1, h2⟩ := typeAggregatedUsers_eq w c L hok (fun _ => "") (fun _ => [])
  unfold noOpenItems
  rw [h1]
  simp only
  rw [(h2 S).2]
  simp

/-- C25, as stated, fails for the standups of two users who are both called
John Doe, the first with a task in the first section and the second without
a task list for it: the first standup has a task for the section, its task
is rendered under the section, and the display name of its user is in the
list of names with no open items for the section. -/
theorem C25_counterexample :
    "section 1" ∈ (typeFormatConfig "channel_1").Sections ∧
    generateTypeAggregatedStandupReport (sampleWorld 43200 everyChannelConfigured emptyStore)
      (typeFormatConfig "channel_1")
      [⟨"user_id_2", "channel_1", [("section 1", ["task_1"])]⟩, ⟨"user_id_3", "channel_1", []⟩]
      [] "channel_1" ⟨43200, "UTC"⟩ =
      .ok { Id := "", ChannelId := "channel_1", UserId := "bot_user_id", PostType := "",
            Message := "#### Standup Report for *5 Jan 2026*\n\n##### ** section 1**\n\n##### ![User Avatar](/api/v4/users/user_id_2/image =20x20) John Doe\n1. task_1\n\nJohn Doe has no open items for section 1\n##### ** section 2**\n\n\nJohn Doe, John Doe have no open items for section 2\n" } ∧
    ¬ (displayNameOf (sampleWorld 43200 everyChannelConfigured emptyStore)
          (⟨"user_id_2", "channel_1", [("section 1", ["task_1"])]⟩ : UserStandup).UserID ∈
        noOpenItems (sampleWorld 43200 everyChannelConfigured emptyStore)
          (typeFormatConfig "channel_1")
          [⟨"user_id_2", "channel_1", [("section 1", ["task_1"])]⟩,
            ⟨"user_id_3", "channel_1", []⟩] "section 1" ↔
      ((⟨"user_id_2", "channel_1", [("section 1", ["task_1"])]⟩ :
          UserStandup).Standup.lookup "section 1" = none ∨
        (⟨"user_id_2", "channel_1", [("section 1", ["task_1"])]⟩ :
          UserStandup).Standup.lookup "section 1" = some [])) := by
  decide!

/-- C25, amended: for a list of user standups that is not empty and whose
users are all found, `generateTypeAggregatedStandupReport` returns the post
of the bot user in the channel whose message is the header of the report,
the line of the members without standup, and the sections of the
configuration in the order of the configuration; a section is the line of
its title, the entries of the user standups with a task for the section, in
the order of the list, and the line of the names with no open items; the
entry of a user standup is the header of the user and the tasks of the user
for the section in their order, one per line, each prefixed with "1. "; the
names with no open items are the display names of the user standups without
a task for the section; and for a section of the configuration and a user
standup of the list, the display name of its user is among the names with
no open items for the section if and only if the standup, or another
standup of the list whose user has the same display name, has no task list
for the section or an empty one. -/
theorem C25_type_aggregated_report (w : World) (c : Config) (L : List UserStandup)
    (membersNoStandup : List String) (ch : String) (date : OTime) (hne : L ≠ [])
    (hok : ∀ U ∈ L, (w.GetUser U.UserID).isOk = true) :
    generateTypeAggregatedStandupReport w c L membersNoStandup ch date =
      .ok { Id := "", ChannelId := ch, UserId := w.BotUserID, PostType := "",
            Message := "#### Standup Report for *" ++ w.Format date "2 Jan 2006" ++ "*\n\n" ++
              typeAggregatedPending w membersNoStandup ++
              concat (c.Sections.map (typeSection w c L)) } ∧
    (∀ S ∈ c.Sections, ∀ U ∈ L,
      (displayNameOf w U.UserID ∈ noOpenItems w c L S ↔
        ∃ V ∈ L, displayNameOf w V.UserID = displayNameOf w U.UserID ∧
          (V.Standup.lookup S = none ∨ V.Standup.lookup S = some []))) ∧
    (∀ S, noOpenItems w c L S = typeNoTasks w c L S) ∧
    (∀ S, c.Sections.count S = 1 →
      typeTasks w c L S =
        concat ((L.filter fun U => decide (tasksOf U S ≠ [])).map fun U => typeEntry w U S) ∧
      typeNoTasks w c L S =
        (L.filter fun U => decide (tasksOf U S = [])).map fun U => displayNameOf w U.UserID) ∧
    (∀ U S, typeEntry w U S =
      "##### " ++ UserIcon w U.UserID ++ " " ++ displayNameOf w U.UserID ++ "\n" ++
        concat (((U.Standup.lookup S).getD []).map fun task => "1. " ++ task ++ "\n")) := by
  refine ⟨?_, ?_, noOpenItems_eq w c L hok, ?_, fun U S => rfl⟩
  · have hlen : L.length > 0 := List.length_pos.2 hne
    obtain ⟨ut2, unt2, h1, h2⟩ := typeAggregatedUsers_eq w c L hok (fun _ => "") (fun _ => [])
    have hut : ut2 = typeTasks w c L := funext fun S => by rw [(h2 S).1]; simp
    have hunt : unt2 = typeNoTasks w c L := funext fun S => by rw [(h2 S).2]; simp
    subst hut hunt
    unfold generateTypeAggregatedStandupReport
    have hsec : typeSection w c L = fun S =>
        "##### ** " ++ S ++ "**\n\n" ++ typeTasks w c L S ++ "\n" ++
          (if (typeNoTasks w c L S).length > 0 then
            ", ".intercalate (typeNoTasks w c L S) ++ " " ++
              w.HasHave (typeNoTasks w c L S).length ++ " no open items for " ++ S ++ "\n"
          else "") := funext fun S => rfl
    simp only [h1, hlen, if_true, typeAggregated_fold, typeAggregatedPending, hsec]
    split_ifs <;> simp [String.append_assoc]
  · intro S hS U hU
    have hcount : c.Sections.count S ≠ 0 := by
      rw [Ne, List.count_eq_zero]
      exact fun h => h hS
    have htasks : ∀ V : UserStandup, tasksOf V S = [] ↔
        (V.Standup.lookup S = none ∨ V.Standup.lookup S = some []) := by
      intro V
      unfold tasksOf
      rcases V.Standup.lookup S with _ | tasks <;> simp
    rw [noOpenItems_eq w c L hok]
    simp only [typeNoTasks, List.mem_flatMap, List.mem_filter, decide_eq_true_eq,
      List.mem_replicate]
    constructor
    · rintro ⟨V, ⟨hV, hVt⟩, _, hname⟩
      exact ⟨V, hV, hname.symm, (htasks V).1 hVt⟩
    · rintro ⟨V, hV, hname, hVt⟩
      exact ⟨V, ⟨hV, (htasks V).2 hVt⟩, hcount, hname.symm⟩
  · intro S hS
    constructor
    · simp [typeTasks, hS, concat]
    · simp only [typeNoTasks, hS, List.flatMap, List.replicate_one]
      exact flatten_map_singleton _ _

/-- The amended claim C25 on two standups in the sample world, in the type
aggregated format: Foo Bar has two tasks in the first section and an empty second
section, John Doe has a task in the second section only. -/
theorem C25_type_aggregated_report_witness :
    (∀ U ∈ [(⟨"user_id_1", "channel_1", [("section 1", ["task_1", "task_2"]),
        ("section 2", [])]⟩ : UserStandup),
        ⟨"user_id_3", "channel_1", [("section 2", ["task_3"])]⟩],
      ((sampleWorld 43200 everyChannelConfigured emptyStore).GetUser U.UserID).isOk = true) ∧
    generateTypeAggregatedStandupReport (sampleWorld 43200 everyChannelConfigured emptyStore)
      (typeFormatConfig "channel_1")
      [⟨"user_id_1", "channel_1", [("section 1", ["task_1", "task_2"]), ("section 2", [])]⟩,
        ⟨"user_id_3", "channel_1", [("section 2", ["task_3"])]⟩]
      ["john"] "channel_1" ⟨43200, "UTC"⟩ =
      .ok { Id := "", ChannelId := "channel_1", UserId := "bot_user_id", PostType := "",
            Message := "#### Standup Report for *5 Jan 2026*\n\njohn has not submitted their standup.\n##### ** section 1**\n\n##### ![User Avatar](/api/v4/users/user_id_1/image =20x20) Foo Bar\n1. task_1\n1. task_2\n\nJohn Doe has no open items for section 1\n##### ** section 2**\n\n##### ![User Avatar](/api/v4/users/user_id_3/image =20x20) John Doe\n1. task_3\n\nFoo Bar has no open items for section 2\n" } :=
  ⟨by decide, ((C25_type_aggregated_report
    (sampleWorld 43200 everyChannelConfigured emptyStore) (typeFormatConfig "channel_1")
    [⟨"user_id_1", "channel_1", [("section 1", ["task_1", "task_2"]), ("section 2", [])]⟩,
      ⟨"user_id_3", "channel_1", [("section 2", ["task_3"])]⟩]
    ["john"] "channel_1" ⟨43200, "UTC"⟩ (by decide) (by decide)).1).trans (by decide!)⟩

end StandupRaven
